import Mathlib

/-!
Verification development for the bnxt flow-rule compiler
(`drivers/net/bnxt/bnxt_flow.c`).

The C source is shallowly embedded: machine integers become `Nat` (the code
only compares these fields for equality or against small constants, so no
overflow is observable), byte-order conversions (`rte_be_to_cpu_*`) are
modelled as the identity on the abstract value, C pointers into the global
filter / flow pools become identifiers into association-list arenas, and the
tail queues (`STAILQ`) become Lean lists.

Functions of this repository that live outside the excerpt under scrutiny
(`bnxt_hwrm_*`, `bnxt_get_unused_filter`, `bnxt_free_filter`) are modelled
from the specification; each such definition carries a doc comment starting
with `Modelled from the spec:`.  Hardware commands are modelled as always
succeeding.
-/

set_option maxHeartbeats 1600000

namespace BnxtFlow

/-- Six-byte Ethernet MAC address, one `Nat` per byte (`struct rte_ether_addr`). -/
structure MacAddr where
  b0 : Nat := 0
  b1 : Nat := 0
  b2 : Nat := 0
  b3 : Nat := 0
  b4 : Nat := 0
  b5 : Nat := 0
deriving DecidableEq, Repr

instance : Inhabited MacAddr := ⟨{}⟩

/-- rte_is_zero_ether_addr: every byte is zero. -/
def MacAddr.isZero (m : MacAddr) : Bool :=
  m.b0 == 0 && m.b1 == 0 && m.b2 == 0 && m.b3 == 0 && m.b4 == 0 && m.b5 == 0

/-- rte_is_broadcast_ether_addr: every byte is 0xff. -/
def MacAddr.isBroadcast (m : MacAddr) : Bool :=
  m.b0 == 0xff && m.b1 == 0xff && m.b2 == 0xff && m.b3 == 0xff &&
  m.b4 == 0xff && m.b5 == 0xff

/-- rte_is_unicast_ether_addr: the multicast bit (LSB of the first byte) is clear. -/
def MacAddr.isUnicast (m : MacAddr) : Bool := m.b0 % 2 == 0

/-- The all-zero MAC address. -/
def macZero : MacAddr := {}

/-- The all-ones (broadcast) MAC address. -/
def macBcast : MacAddr := ⟨0xff, 0xff, 0xff, 0xff, 0xff, 0xff⟩

/-- Fields of `struct rte_flow_item_eth` used by the parser. -/
structure EthSpecC where
  dst : MacAddr := {}
  src : MacAddr := {}
  typ : Nat := 0
deriving DecidableEq, Repr

/-- Fields of `struct rte_flow_item_vlan` used by the parser. -/
structure VlanSpecC where
  tci : Nat := 0
  inner_type : Nat := 0
deriving DecidableEq, Repr

/-- Fields of `struct rte_flow_item_ipv4` (the `hdr` fields) used by the parser. -/
structure Ipv4SpecC where
  version_ihl : Nat := 0
  type_of_service : Nat := 0
  total_length : Nat := 0
  packet_id : Nat := 0
  fragment_offset : Nat := 0
  time_to_live : Nat := 0
  next_proto_id : Nat := 0
  hdr_checksum : Nat := 0
  src_addr : Nat := 0
  dst_addr : Nat := 0
deriving DecidableEq, Repr

/-- Fields of `struct rte_flow_item_ipv6`; the two 16-byte addresses are
modelled as four 32-bit words each, matching the `uint32_t [4]` filter fields
the C code `memcpy`s them into. -/
structure Ipv6SpecC where
  vtc_flow : Nat := 0
  payload_len : Nat := 0
  proto : Nat := 0
  hop_limits : Nat := 0
  src_addr : List Nat := [0, 0, 0, 0]
  dst_addr : List Nat := [0, 0, 0, 0]
deriving DecidableEq, Repr

/-- Fields of `struct rte_flow_item_tcp` used by the parser. -/
structure TcpSpecC where
  src_port : Nat := 0
  dst_port : Nat := 0
  sent_seq : Nat := 0
  recv_ack : Nat := 0
  data_off : Nat := 0
  tcp_flags : Nat := 0
  rx_win : Nat := 0
  cksum : Nat := 0
  tcp_urp : Nat := 0
deriving DecidableEq, Repr

/-- Fields of `struct rte_flow_item_udp` used by the parser. -/
structure UdpSpecC where
  src_port : Nat := 0
  dst_port : Nat := 0
  dgram_len : Nat := 0
  dgram_cksum : Nat := 0
deriving DecidableEq, Repr

/-- Fields of `struct rte_flow_item_vxlan`: a flags byte, three reserved
bytes, the three-byte VNI, and a trailing reserved byte. -/
structure VxlanSpecC where
  flags : Nat := 0
  rsvd0 : List Nat := [0, 0, 0]
  vni : List Nat := [0, 0, 0]
  rsvd1 : Nat := 0
deriving DecidableEq, Repr

/-- Fields of `struct rte_flow_item_nvgre` used by the parser. -/
structure NvgreSpecC where
  c_k_s_rsvd0_ver : Nat := 0
  protocol : Nat := 0
  tni : List Nat := [0, 0, 0]
  flow_id : Nat := 0
deriving DecidableEq, Repr

/-- Fields of `struct rte_flow_item_gre` used by the parser. -/
structure GreSpecC where
  c_rsvd0_ver : Nat := 0
  protocol : Nat := 0
deriving DecidableEq, Repr

/-- Fields of `struct rte_flow_item_any`. -/
structure AnySpecC where
  num : Nat := 0
deriving DecidableEq, Repr

/-- Fields of `struct rte_flow_item_vf`. -/
structure VfSpecC where
  id : Nat := 0
deriving DecidableEq, Repr

/-- One `struct rte_flow_item`.  `spec`/`mask` are `Option`s because the C
fields are nullable pointers; the Bool argument models a non-null `last`
(range) pointer.  The list of items stands for the END-terminated C array
with the END marker stripped. -/
inductive FlowItem where
  | void
  | anyi (spec mask : Option AnySpecC) (hasLastPtr : Bool)
  | eth (spec mask : Option EthSpecC) (hasLastPtr : Bool)
  | vlan (spec mask : Option VlanSpecC) (hasLastPtr : Bool)
  | ipv4 (spec mask : Option Ipv4SpecC) (hasLastPtr : Bool)
  | ipv6 (spec mask : Option Ipv6SpecC) (hasLastPtr : Bool)
  | tcp (spec mask : Option TcpSpecC) (hasLastPtr : Bool)
  | udp (spec mask : Option UdpSpecC) (hasLastPtr : Bool)
  | vxlan (spec mask : Option VxlanSpecC) (hasLastPtr : Bool)
  | nvgre (spec mask : Option NvgreSpecC) (hasLastPtr : Bool)
  | gre (spec mask : Option GreSpecC) (hasLastPtr : Bool)
  | vf (spec mask : Option VfSpecC) (hasLastPtr : Bool)
  | other (specPresent maskPresent hasLastPtr : Bool)
deriving DecidableEq, Repr

/-- Whether the item is a `RTE_FLOW_ITEM_TYPE_VOID` placeholder. -/
def FlowItem.isVoid : FlowItem → Bool
  | .void => true
  | _ => false

/-- Whether `item->last` is non-null. -/
def FlowItem.hasLast : FlowItem → Bool
  | .void => false
  | .anyi _ _ l => l
  | .eth _ _ l => l
  | .vlan _ _ l => l
  | .ipv4 _ _ l => l
  | .ipv6 _ _ l => l
  | .tcp _ _ l => l
  | .udp _ _ l => l
  | .vxlan _ _ l => l
  | .nvgre _ _ l => l
  | .gre _ _ l => l
  | .vf _ _ l => l
  | .other _ _ l => l

/-- Whether `item->spec` is non-null. -/
def FlowItem.specPresent : FlowItem → Bool
  | .void => false
  | .anyi s _ _ => s.isSome
  | .eth s _ _ => s.isSome
  | .vlan s _ _ => s.isSome
  | .ipv4 s _ _ => s.isSome
  | .ipv6 s _ _ => s.isSome
  | .tcp s _ _ => s.isSome
  | .udp s _ _ => s.isSome
  | .vxlan s _ _ => s.isSome
  | .nvgre s _ _ => s.isSome
  | .gre s _ _ => s.isSome
  | .vf s _ _ => s.isSome
  | .other s _ _ => s

/-- Whether `item->mask` is non-null. -/
def FlowItem.maskPresent : FlowItem → Bool
  | .void => false
  | .anyi _ m _ => m.isSome
  | .eth _ m _ => m.isSome
  | .vlan _ m _ => m.isSome
  | .ipv4 _ m _ => m.isSome
  | .ipv6 _ m _ => m.isSome
  | .tcp _ m _ => m.isSome
  | .udp _ m _ => m.isSome
  | .vxlan _ m _ => m.isSome
  | .nvgre _ m _ => m.isSome
  | .gre _ m _ => m.isSome
  | .vf _ m _ => m.isSome
  | .other _ m _ => m

/-- Error conditions raised by the flow subsystem; each constructor stands
for one `rte_flow_error_set` site (or family of sites) in the source. -/
inductive BnxtErr where
  | rangeNotSupported
  | specMaskNull
  | macMaskInvalid
  | ethertypeMaskInvalid
  | dmacInvalid
  | smacInvalid
  | vlanTpidUnsupported
  | vlanMaskInvalid
  | innerEthertypeMaskInvalid
  | ipv4MaskInvalid
  | ipv6MaskInvalid
  | tcpMaskInvalid
  | udpMaskInvalid
  | vxlanItemInvalid
  | vniMaskInvalid
  | nvgreItemInvalid
  | tniMaskInvalid
  | greItemInvalid
  | vfOnVf
  | vfIdInvalid
  | transferRequired
  | vfDfltVnicUnavailable
  | cannotUseVlanWithNtuple
  | ingressOnly
  | egressUnsupported
  | invalidQueue
  | vnicInUse
  | queueInUse
  | vnicPrepFail
  | filterUnavailable
  | groupIdZero
  | rssMismatch
  | invalidQueueRss
  | rssQueueActive
  | incorrectVf
  | invalidAction
  | duplicateRule
  | notTrustedVf
  | deviceNotStarted
  | flowNull
  | nullVnicDeref
deriving DecidableEq, Repr

/-- Hardware filter kinds (`HWRM_CFA_L2_FILTER`, `HWRM_CFA_EM_FILTER`,
`HWRM_CFA_NTUPLE_FILTER`, `HWRM_CFA_TUNNEL_REDIRECT_FILTER`). -/
inductive FilterType where
  | l2
  | em
  | ntuple
  | tunnelRedirect
deriving DecidableEq, Repr

/- Bit constants.  The HSI headers defining the numeric values are not part
of the excerpt; the code only needs the constants to be fixed distinct bits,
so they are modelled as such (tunnel types carry their documented values). -/

/-- Tunnel type VXLAN (value 1, as in the HSI header). -/
def CFA_NTUPLE_FILTER_ALLOC_REQ_TUNNEL_TYPE_VXLAN : Nat := 1

/-- Tunnel type NVGRE (value 2). -/
def CFA_NTUPLE_FILTER_ALLOC_REQ_TUNNEL_TYPE_NVGRE : Nat := 2

/-- Tunnel type IP-in-GRE (value 8). -/
def CFA_NTUPLE_FILTER_ALLOC_REQ_TUNNEL_TYPE_IPGRE : Nat := 8

/-- Enable bit: ntuple ethertype. -/
def NTUPLE_FLTR_ALLOC_INPUT_EN_ETHERTYPE : Nat := 4

/-- Enable bit: exact-match ethertype (modelled with the same bit value as
the ntuple constant; the two are never mixed in one filter). -/
def EM_FLOW_ALLOC_INPUT_EN_ETHERTYPE : Nat := 4

/-- Enable bit: ntuple source MAC. -/
def NTUPLE_FLTR_ALLOC_INPUT_EN_SRC_MACADDR : Nat := 2

/-- Enable bit: exact-match source MAC. -/
def EM_FLOW_ALLOC_INPUT_EN_SRC_MACADDR : Nat := 2

/-- Enable bit: ntuple destination MAC. -/
def NTUPLE_FLTR_ALLOC_INPUT_EN_DST_MACADDR : Nat := 4096

/-- Enable bit: exact-match destination MAC. -/
def EM_FLOW_ALLOC_INPUT_EN_DST_MACADDR : Nat := 4096

/-- Enable bit: ntuple source IP address. -/
def NTUPLE_FLTR_ALLOC_INPUT_EN_SRC_IPADDR : Nat := 8

/-- Enable bit: exact-match source IP address. -/
def EM_FLOW_ALLOC_INPUT_EN_SRC_IPADDR : Nat := 8

/-- Enable bit: ntuple destination IP address. -/
def NTUPLE_FLTR_ALLOC_INPUT_EN_DST_IPADDR : Nat := 16

/-- Enable bit: exact-match destination IP address. -/
def EM_FLOW_ALLOC_INPUT_EN_DST_IPADDR : Nat := 16

/-- Enable bit: ntuple source IP address mask. -/
def NTUPLE_FLTR_ALLOC_INPUT_EN_SRC_IPADDR_MASK : Nat := 32

/-- Enable bit: ntuple destination IP address mask. -/
def NTUPLE_FLTR_ALLOC_INPUT_EN_DST_IPADDR_MASK : Nat := 64

/-- Enable bit: ntuple source port. -/
def NTUPLE_FLTR_ALLOC_INPUT_EN_SRC_PORT : Nat := 128

/-- Enable bit: exact-match source port. -/
def EM_FLOW_ALLOC_INPUT_EN_SRC_PORT : Nat := 128

/-- Enable bit: ntuple source port mask. -/
def NTUPLE_FLTR_ALLOC_INPUT_EN_SRC_PORT_MASK : Nat := 256

/-- Enable bit: ntuple destination port. -/
def NTUPLE_FLTR_ALLOC_INPUT_EN_DST_PORT : Nat := 512

/-- Enable bit: exact-match destination port. -/
def EM_FLOW_ALLOC_INPUT_EN_DST_PORT : Nat := 512

/-- Enable bit: ntuple destination port mask. -/
def NTUPLE_FLTR_ALLOC_INPUT_EN_DST_PORT_MASK : Nat := 1024

/-- Enable bit: ntuple IP protocol. -/
def NTUPLE_FLTR_ALLOC_IN_EN_IP_PROTO : Nat := 2048

/-- Enable bit: exact-match IP protocol. -/
def EM_FLOW_ALLOC_INPUT_EN_IP_PROTO : Nat := 2048

/-- Enable bit: exact-match outer VLAN id. -/
def EM_FLOW_ALLOC_INPUT_EN_OVLAN_VID : Nat := 32768

/-- Enable bit: ntuple mirror VNIC id. -/
def NTUPLE_FLTR_ALLOC_INPUT_EN_MIRROR_VNIC_ID : Nat := 8192

/-- Enable bit: ntuple L2 filter id. -/
def HWRM_CFA_NTUPLE_FILTER_ALLOC_INPUT_ENABLES_L2_FILTER_ID : Nat := 16384

/-- Enable bit: exact-match L2 filter id. -/
def HWRM_CFA_EM_FLOW_ALLOC_INPUT_ENABLES_L2_FILTER_ID : Nat := 16384

/-- Exact-match flow flag: RX path. -/
def HWRM_CFA_EM_FLOW_ALLOC_INPUT_FLAGS_PATH_RX : Nat := 1

/-- Exact-match flow flag: drop. -/
def HWRM_CFA_EM_FLOW_ALLOC_INPUT_FLAGS_DROP : Nat := 8

/-- Ntuple flag: drop. -/
def HWRM_CFA_NTUPLE_FILTER_ALLOC_INPUT_FLAGS_DROP : Nat := 2

/-- Ntuple flag: meter (count action). -/
def HWRM_CFA_NTUPLE_FILTER_ALLOC_INPUT_FLAGS_METER : Nat := 16

/-- L2 filter flag: XDP disable. -/
def HWRM_CFA_L2_FILTER_ALLOC_INPUT_FLAGS_XDP_DISABLE : Nat := 64

/-- L2 filter flag: RX path. -/
def HWRM_CFA_L2_FILTER_ALLOC_INPUT_FLAGS_PATH_RX : Nat := 1

/-- L2 filter flag: outermost header match. -/
def HWRM_CFA_L2_FILTER_ALLOC_INPUT_FLAGS_OUTERMOST : Nat := 32

/-- L2 filter flag: source MAC valid. -/
def HWRM_CFA_L2_FILTER_ALLOC_INPUT_FLAGS_SOURCE_VALID : Nat := 128

/-- L2 filter enable: L2 address. -/
def HWRM_CFA_L2_FILTER_ALLOC_INPUT_ENABLES_L2_ADDR : Nat := 65536

/-- L2 filter enable: L2 address mask. -/
def L2_FILTER_ALLOC_INPUT_EN_L2_ADDR_MASK : Nat := 131072

/-- Placement hint: below filter. -/
def HWRM_CFA_L2_FILTER_ALLOC_INPUT_PRI_HINT_BELOW_FILTER : Nat := 2

/-- IP address type IPv4 (same value for the ntuple and exact-match variants). -/
def IP_ADDR_TYPE_IPV4 : Nat := 4

/-- IP address type IPv6. -/
def IP_ADDR_TYPE_IPV6 : Nat := 6

/-- bnxt valid-flag: outer destination MAC is set. -/
def BNXT_FLOW_L2_DST_VALID_FLAG : Nat := 1

/-- bnxt valid-flag: outer source MAC is set. -/
def BNXT_FLOW_L2_SRC_VALID_FLAG : Nat := 2

/-- bnxt valid-flag: inner destination MAC is set. -/
def BNXT_FLOW_L2_INNER_DST_VALID_FLAG : Nat := 4

/-- bnxt valid-flag: inner source MAC is set. -/
def BNXT_FLOW_L2_INNER_SRC_VALID_FLAG : Nat := 8

/-- `struct bnxt_filter_info`: the Match Descriptor.  Hardware identifiers
are `Option Nat` (`none` is the `UINT64_MAX` / invalid sentinel);
`matching_l2_fltr_ptr` is an identifier into the filter arena instead of a C
pointer. -/
structure FilterInfo where
  filter_type : FilterType := .ntuple
  flags : Nat := 0
  enables : Nat := 0
  valid_flags : Nat := 0
  src_macaddr : MacAddr := {}
  dst_macaddr : MacAddr := {}
  l2_addr : MacAddr := {}
  l2_addr_mask : MacAddr := {}
  ethertype : Nat := 0
  l2_ovlan : Nat := 0
  l2_ovlan_mask : Nat := 0
  l2_ivlan : Nat := 0
  l2_ivlan_mask : Nat := 0
  src_ipaddr : List Nat := [0, 0, 0, 0]
  dst_ipaddr : List Nat := [0, 0, 0, 0]
  src_ipaddr_mask : List Nat := [0, 0, 0, 0]
  dst_ipaddr_mask : List Nat := [0, 0, 0, 0]
  ip_addr_type : Nat := 0
  ip_protocol : Nat := 0
  src_port : Nat := 0
  dst_port : Nat := 0
  src_port_mask : Nat := 0
  dst_port_mask : Nat := 0
  vni : Nat := 0
  tunnel_type : Nat := 0
  mirror_vnic_id : Nat := 0
  dst_id : Nat := 0
  priority : Nat := 0
  pri_hint : Nat := 0
  l2_filter_id_hint : Nat := 0
  fw_l2_filter_id : Option Nat := none
  fw_em_filter_id : Option Nat := none
  fw_ntuple_filter_id : Option Nat := none
  l2_ref_cnt : Nat := 0
  matching_l2_fltr_ptr : Option Nat := none
deriving DecidableEq, Repr

instance : Inhabited FilterInfo := ⟨{}⟩

/-- `struct rte_flow_attr` fields used by the driver. -/
structure FlowAttr where
  ingress : Bool := true
  egress : Bool := false
  transfer : Bool := false
  group : Nat := 0
  priority : Nat := 0
deriving DecidableEq, Repr

/-- Loop of `bnxt_filter_type_check`: walks the items accumulating
`use_ntuple` and `has_vlan` exactly as the C `while` does (ANY/ETH clear
`use_ntuple`, VLAN clears it and records the VLAN, L3/L4 set it back,
anything else is a no-op). -/
def bnxt_filter_type_check_loop : List FlowItem → Nat → Bool → Nat × Bool
  | [], use_ntuple, has_vlan => (use_ntuple, has_vlan)
  | item :: rest, use_ntuple, has_vlan =>
    match item with
    | .anyi _ _ _ | .eth _ _ _ =>
        bnxt_filter_type_check_loop rest 0 has_vlan
    | .vlan _ _ _ =>
        bnxt_filter_type_check_loop rest 0 true
    | .ipv4 _ _ _ | .ipv6 _ _ _ | .tcp _ _ _ | .udp _ _ _ =>
        bnxt_filter_type_check_loop rest (use_ntuple ||| 1) has_vlan
    | _ =>
        bnxt_filter_type_check_loop rest use_ntuple has_vlan

/-- `bnxt_filter_type_check`: decides between the ntuple (`.ok 1`) and
exact-match (`.ok 0`) filter kinds, rejecting VLAN-with-ntuple patterns. -/
def bnxt_filter_type_check (pattern : List FlowItem) : Except BnxtErr Nat :=
  let r := bnxt_filter_type_check_loop (pattern.dropWhile FlowItem.isVoid) 1 false
  if r.2 && r.1 != 0 then .error .cannotUseVlanWithNtuple
  else .ok r.1

/-- Accumulator of `bnxt_validate_and_parse_flow_type`'s item loop: the
filter being built plus the local variables `en`, `valid_flags`, `inner`. -/
structure PSt where
  f : FilterInfo := {}
  en : Nat := 0
  vflags : Nat := 0
  inner : Bool := false
deriving DecidableEq, Repr

/-- ETH item case of the parser switch. -/
def parseEthItem (attr : FlowAttr) (use_ntuple en_ethertype : Nat)
    (eth_spec eth_mask : EthSpecC) (st : PSt) : Except BnxtErr PSt := do
  -- Source/destination MAC masks must be all 0's or all 1's.
  if (!eth_mask.src.isZero && !eth_mask.src.isBroadcast) ||
     (!eth_mask.dst.isZero && !eth_mask.dst.isBroadcast) then
    throw .macMaskInvalid
  -- Ethertype mask: only exact matches.
  if eth_mask.typ != 0 && eth_mask.typ != 0xffff then
    throw .ethertypeMaskInvalid
  let st ←
    if eth_mask.dst.isBroadcast then do
      if !eth_spec.dst.isUnicast then throw .dmacInvalid
      pure { st with
        f := { st.f with dst_macaddr := eth_spec.dst, priority := attr.priority },
        en := st.en |||
          (if use_ntuple != 0 then NTUPLE_FLTR_ALLOC_INPUT_EN_DST_MACADDR
           else EM_FLOW_ALLOC_INPUT_EN_DST_MACADDR),
        vflags := st.vflags |||
          (if st.inner then BNXT_FLOW_L2_INNER_DST_VALID_FLAG
           else BNXT_FLOW_L2_DST_VALID_FLAG) }
    else pure st
  let st ←
    if eth_mask.src.isBroadcast then do
      if !eth_spec.src.isUnicast then throw .smacInvalid
      pure { st with
        f := { st.f with src_macaddr := eth_spec.src },
        en := st.en |||
          (if use_ntuple != 0 then NTUPLE_FLTR_ALLOC_INPUT_EN_SRC_MACADDR
           else EM_FLOW_ALLOC_INPUT_EN_SRC_MACADDR),
        vflags := st.vflags |||
          (if st.inner then BNXT_FLOW_L2_INNER_SRC_VALID_FLAG
           else BNXT_FLOW_L2_SRC_VALID_FLAG) }
    else pure st
  if eth_mask.typ != 0 then
    pure { st with
      f := { st.f with ethertype := eth_spec.typ },
      en := st.en ||| en_ethertype }
  else pure st

/-- VLAN item case of the parser switch. -/
def parseVlanItem (en_ethertype : Nat) (vlan_spec vlan_mask : VlanSpecC)
    (st : PSt) : Except BnxtErr PSt := do
  if st.en &&& en_ethertype != 0 then
    throw .vlanTpidUnsupported
  let st ←
    if vlan_mask.tci != 0 && vlan_mask.tci == 0x0fff then
      -- Only the VLAN ID can be matched.
      pure { st with
        f := { st.f with l2_ovlan := vlan_spec.tci &&& 0x0fff },
        en := st.en ||| EM_FLOW_ALLOC_INPUT_EN_OVLAN_VID }
    else throw .vlanMaskInvalid
  if vlan_mask.inner_type != 0 && vlan_mask.inner_type != 0xffff then
    throw .innerEthertypeMaskInvalid
  if vlan_mask.inner_type != 0 then
    pure { st with
      f := { st.f with ethertype := vlan_spec.inner_type },
      en := st.en ||| en_ethertype }
  else pure st

/-- IPv4 item case of the parser switch. -/
def parseIpv4Item (use_ntuple : Nat) (ipv4_spec ipv4_mask : Ipv4SpecC)
    (st : PSt) : Except BnxtErr PSt := do
  -- Only IP DST and SRC fields are maskable.
  if ipv4_mask.version_ihl != 0 || ipv4_mask.type_of_service != 0 ||
     ipv4_mask.total_length != 0 || ipv4_mask.packet_id != 0 ||
     ipv4_mask.fragment_offset != 0 || ipv4_mask.time_to_live != 0 ||
     ipv4_mask.next_proto_id != 0 || ipv4_mask.hdr_checksum != 0 then
    throw .ipv4MaskInvalid
  let st := { st with
    f := { st.f with
      dst_ipaddr := st.f.dst_ipaddr.set 0 ipv4_spec.dst_addr,
      src_ipaddr := st.f.src_ipaddr.set 0 ipv4_spec.src_addr },
    en := st.en |||
      (if use_ntuple != 0 then
        NTUPLE_FLTR_ALLOC_INPUT_EN_SRC_IPADDR |||
        NTUPLE_FLTR_ALLOC_INPUT_EN_DST_IPADDR
       else
        EM_FLOW_ALLOC_INPUT_EN_SRC_IPADDR |||
        EM_FLOW_ALLOC_INPUT_EN_DST_IPADDR) }
  let st :=
    if ipv4_mask.src_addr != 0 then
      { st with
        f := { st.f with src_ipaddr_mask := st.f.src_ipaddr_mask.set 0 ipv4_mask.src_addr },
        en := st.en |||
          (if use_ntuple == 0 then 0 else NTUPLE_FLTR_ALLOC_INPUT_EN_SRC_IPADDR_MASK) }
    else st
  let st :=
    if ipv4_mask.dst_addr != 0 then
      { st with
        f := { st.f with dst_ipaddr_mask := st.f.dst_ipaddr_mask.set 0 ipv4_mask.dst_addr },
        en := st.en |||
          (if use_ntuple == 0 then 0 else NTUPLE_FLTR_ALLOC_INPUT_EN_DST_IPADDR_MASK) }
    else st
  let st := { st with f := { st.f with ip_addr_type := IP_ADDR_TYPE_IPV4 } }
  if ipv4_spec.next_proto_id != 0 then
    pure { st with
      f := { st.f with ip_protocol := ipv4_spec.next_proto_id },
      en := st.en |||
        (if use_ntuple != 0 then NTUPLE_FLTR_ALLOC_IN_EN_IP_PROTO
         else EM_FLOW_ALLOC_INPUT_EN_IP_PROTO) }
  else pure st

/-- IPv6 item case of the parser switch. -/
def parseIpv6Item (use_ntuple : Nat) (ipv6_spec ipv6_mask : Ipv6SpecC)
    (st : PSt) : Except BnxtErr PSt := do
  -- Only IP DST and SRC fields are maskable.
  if ipv6_mask.vtc_flow != 0 || ipv6_mask.payload_len != 0 ||
     ipv6_mask.proto != 0 || ipv6_mask.hop_limits != 0 then
    throw .ipv6MaskInvalid
  let st := { st with
    en := st.en |||
      (if use_ntuple != 0 then
        NTUPLE_FLTR_ALLOC_INPUT_EN_SRC_IPADDR |||
        NTUPLE_FLTR_ALLOC_INPUT_EN_DST_IPADDR
       else
        EM_FLOW_ALLOC_INPUT_EN_SRC_IPADDR |||
        EM_FLOW_ALLOC_INPUT_EN_DST_IPADDR),
    f := { st.f with
      src_ipaddr := ipv6_spec.src_addr,
      dst_ipaddr := ipv6_spec.dst_addr } }
  let st :=
    if !(ipv6_mask.src_addr.all (· == 0)) then
      { st with
        f := { st.f with src_ipaddr_mask := ipv6_mask.src_addr },
        en := st.en |||
          (if use_ntuple == 0 then 0 else NTUPLE_FLTR_ALLOC_INPUT_EN_SRC_IPADDR_MASK) }
    else st
  let st :=
    if !(ipv6_mask.dst_addr.all (· == 0)) then
      { st with
        f := { st.f with dst_ipaddr_mask := ipv6_mask.dst_addr },
        en := st.en |||
          (if use_ntuple == 0 then 0 else NTUPLE_FLTR_ALLOC_INPUT_EN_DST_IPADDR_MASK) }
    else st
  pure { st with f := { st.f with ip_addr_type := IP_ADDR_TYPE_IPV6 } }

/-- TCP item case of the parser switch. -/
def parseTcpItem (use_ntuple : Nat) (tcp_spec tcp_mask : TcpSpecC)
    (st : PSt) : Except BnxtErr PSt := do
  -- Check TCP mask. Only DST and SRC ports are maskable.
  if tcp_mask.sent_seq != 0 || tcp_mask.recv_ack != 0 ||
     tcp_mask.data_off != 0 || tcp_mask.tcp_flags != 0 ||
     tcp_mask.rx_win != 0 || tcp_mask.cksum != 0 || tcp_mask.tcp_urp != 0 then
    throw .tcpMaskInvalid
  let st := { st with
    f := { st.f with src_port := tcp_spec.src_port, dst_port := tcp_spec.dst_port },
    en := st.en |||
      (if use_ntuple != 0 then
        NTUPLE_FLTR_ALLOC_INPUT_EN_SRC_PORT ||| NTUPLE_FLTR_ALLOC_INPUT_EN_DST_PORT
       else
        EM_FLOW_ALLOC_INPUT_EN_SRC_PORT ||| EM_FLOW_ALLOC_INPUT_EN_DST_PORT) }
  let st :=
    if tcp_mask.dst_port != 0 then
      { st with
        f := { st.f with dst_port_mask := tcp_mask.dst_port },
        en := st.en |||
          (if use_ntuple == 0 then 0 else NTUPLE_FLTR_ALLOC_INPUT_EN_DST_PORT_MASK) }
    else st
  if tcp_mask.src_port != 0 then
    pure { st with
      f := { st.f with src_port_mask := tcp_mask.src_port },
      en := st.en |||
        (if use_ntuple == 0 then 0 else NTUPLE_FLTR_ALLOC_INPUT_EN_SRC_PORT_MASK) }
  else pure st

/-- UDP item case of the parser switch. -/
def parseUdpItem (use_ntuple : Nat) (udp_spec udp_mask : UdpSpecC)
    (st : PSt) : Except BnxtErr PSt := do
  if udp_mask.dgram_len != 0 || udp_mask.dgram_cksum != 0 then
    throw .udpMaskInvalid
  let st := { st with
    f := { st.f with src_port := udp_spec.src_port, dst_port := udp_spec.dst_port },
    en := st.en |||
      (if use_ntuple != 0 then
        NTUPLE_FLTR_ALLOC_INPUT_EN_SRC_PORT ||| NTUPLE_FLTR_ALLOC_INPUT_EN_DST_PORT
       else
        EM_FLOW_ALLOC_INPUT_EN_SRC_PORT ||| EM_FLOW_ALLOC_INPUT_EN_DST_PORT) }
  let st :=
    if udp_mask.dst_port != 0 then
      { st with
        f := { st.f with dst_port_mask := udp_mask.dst_port },
        en := st.en |||
          (if use_ntuple == 0 then 0 else NTUPLE_FLTR_ALLOC_INPUT_EN_DST_PORT_MASK) }
    else st
  if udp_mask.src_port != 0 then
    pure { st with
      f := { st.f with src_port_mask := udp_mask.src_port },
      en := st.en |||
        (if use_ntuple == 0 then 0 else NTUPLE_FLTR_ALLOC_INPUT_EN_SRC_PORT_MASK) }
  else pure st

/-- Three big-endian bytes assembled into the tenant-id value
(`rte_memcpy` into bytes 1..3 of a `uint32_t` followed by
`rte_be_to_cpu_32`). -/
def vniOfBytes (b : List Nat) : Nat :=
  (b.getD 0 0) * 65536 + (b.getD 1 0) * 256 + b.getD 2 0

/-- VXLAN item case of the parser switch.  The two spec/mask-null branches
mirror the source but are unreachable below the loop's blanket
spec/mask-null check. -/
def parseVxlanItem (ospec omask : Option VxlanSpecC) (st : PSt) :
    Except BnxtErr PSt := do
  match ospec, omask with
  | none, some _ | some _, none => throw .vxlanItemInvalid
  | none, none =>
      pure { st with f := { st.f with
        tunnel_type := CFA_NTUPLE_FILTER_ALLOC_REQ_TUNNEL_TYPE_VXLAN } }
  | some vxlan_spec, some vxlan_mask =>
      if vxlan_spec.rsvd1 != 0 || vxlan_spec.rsvd0.getD 0 0 != 0 ||
         vxlan_spec.rsvd0.getD 1 0 != 0 || vxlan_spec.rsvd0.getD 2 0 != 0 ||
         vxlan_spec.flags != 0x8 then
        throw .vxlanItemInvalid
      else if vxlan_mask.vni != [0xff, 0xff, 0xff] then
        throw .vniMaskInvalid
      else
        pure { st with f := { st.f with
          vni := vniOfBytes vxlan_spec.vni,
          tunnel_type := CFA_NTUPLE_FILTER_ALLOC_REQ_TUNNEL_TYPE_VXLAN } }

/-- NVGRE item case of the parser switch. -/
def parseNvgreItem (ospec omask : Option NvgreSpecC) (st : PSt) :
    Except BnxtErr PSt := do
  match ospec, omask with
  | none, some _ | some _, none => throw .nvgreItemInvalid
  | none, none =>
      pure { st with f := { st.f with
        tunnel_type := CFA_NTUPLE_FILTER_ALLOC_REQ_TUNNEL_TYPE_NVGRE } }
  | some nvgre_spec, some nvgre_mask =>
      if nvgre_spec.c_k_s_rsvd0_ver != 0x2000 || nvgre_spec.protocol != 0x6558 then
        throw .nvgreItemInvalid
      else if nvgre_mask.tni != [0xff, 0xff, 0xff] then
        throw .tniMaskInvalid
      else
        pure { st with f := { st.f with
          vni := vniOfBytes nvgre_spec.tni,
          tunnel_type := CFA_NTUPLE_FILTER_ALLOC_REQ_TUNNEL_TYPE_NVGRE } }

/-- GRE item case of the parser switch: with both spec and mask present the
source performs no further checks. -/
def parseGreItem (ospec omask : Option GreSpecC) (st : PSt) :
    Except BnxtErr PSt := do
  match ospec, omask with
  | none, some _ | some _, none => throw .greItemInvalid
  | none, none =>
      pure { st with f := { st.f with
        tunnel_type := CFA_NTUPLE_FILTER_ALLOC_REQ_TUNNEL_TYPE_IPGRE } }
  | some _, some _ => pure st

/-- Static device/configuration facts read by the flow code
(`struct bnxt` / `struct rte_eth_dev` fields that no flow operation
mutates).  `vf_dflt_vnic` models `bnxt_hwrm_func_qcfg_vf_dflt_vnic_id`
(negative = no driver loaded). -/
structure BpCfg where
  pf : Bool := true
  vfFlag : Bool := false
  trusted_vf : Bool := false
  max_vfs : Nat := 0
  vf_dflt_vnic : List Int := []
  rx_nr_rings : Nat := 0
  mq_rss : Bool := true
  vlan_strip_offload : Bool := false
  dev_started : Bool := true
  fw_fid : Nat := 0
  first_vf_id : Nat := 0
  grp_fw_ids : List Nat := []
deriving DecidableEq, Repr

/-- VF item case of the parser switch. -/
def parseVfItem (bp : BpCfg) (attr : FlowAttr) (vf_spec : VfSpecC)
    (st : PSt) : Except BnxtErr PSt := do
  let vf := vf_spec.id
  if !bp.pf then throw .vfOnVf
  if vf ≥ bp.max_vfs then throw .vfIdInvalid
  if !attr.transfer then throw .transferRequired
  let dflt_vnic := bp.vf_dflt_vnic.getD vf (-1)
  if dflt_vnic < 0 then throw .vfDfltVnicUnavailable
  pure { st with
    f := { st.f with mirror_vnic_id := dflt_vnic.toNat },
    en := st.en ||| NTUPLE_FLTR_ALLOC_INPUT_EN_MIRROR_VNIC_ID }

/-- One iteration of the parser's `switch` (after the range and
spec/mask-null checks).  Cases whose spec/mask turn out absent despite the
blanket check mirror the source's dead in-case null checks by falling
through. -/
def parseItemStep (bp : BpCfg) (attr : FlowAttr) (use_ntuple en_ethertype : Nat)
    (item : FlowItem) (st : PSt) : Except BnxtErr PSt := do
  match item with
  | .anyi ospec _ _ =>
      match ospec with
      | some spec => pure { st with inner := spec.num > 3 }
      | none => pure st
  | .eth ospec omask _ =>
      match ospec, omask with
      | some s, some m => parseEthItem attr use_ntuple en_ethertype s m st
      | _, _ => pure st
  | .vlan ospec omask _ =>
      match ospec, omask with
      | some s, some m => parseVlanItem en_ethertype s m st
      | _, _ => pure st
  | .ipv4 ospec omask _ =>
      match ospec, omask with
      | some s, some m => parseIpv4Item use_ntuple s m st
      | _, _ => pure st
  | .ipv6 ospec omask _ =>
      match ospec, omask with
      | some s, some m => parseIpv6Item use_ntuple s m st
      | _, _ => pure st
  | .tcp ospec omask _ =>
      match ospec, omask with
      | some s, some m => parseTcpItem use_ntuple s m st
      | _, _ => pure st
  | .udp ospec omask _ =>
      match ospec, omask with
      | some s, some m => parseUdpItem use_ntuple s m st
      | _, _ => pure st
  | .vxlan ospec omask _ => parseVxlanItem ospec omask st
  | .nvgre ospec omask _ => parseNvgreItem ospec omask st
  | .gre ospec omask _ => parseGreItem ospec omask st
  | .vf ospec _ _ =>
      match ospec with
      | some s => parseVfItem bp attr s st
      | none => pure st
  | _ => pure st

/-- The parser's item `while` loop: per item, reject a non-null `last`
(range) pointer, reject a null spec or mask, then run the switch. -/
def parseItems (bp : BpCfg) (attr : FlowAttr) (use_ntuple en_ethertype : Nat) :
    List FlowItem → PSt → Except BnxtErr PSt
  | [], st => pure st
  | item :: rest, st => do
      if item.hasLast then throw .rangeNotSupported
      if !item.specPresent || !item.maskPresent then throw .specMaskNull
      let st' ← parseItemStep bp attr use_ntuple en_ethertype item st
      parseItems bp attr use_ntuple en_ethertype rest st'

/-- `bnxt_validate_and_parse_flow_type`: compiles a pattern into a Match
Descriptor, starting from the caller-supplied blank filter. -/
def bnxt_validate_and_parse_flow_type (bp : BpCfg) (attr : FlowAttr)
    (pattern : List FlowItem) (filter : FilterInfo) : Except BnxtErr FilterInfo := do
  let use_ntuple ← bnxt_filter_type_check pattern
  let filter := { filter with
    filter_type := if use_ntuple != 0 then FilterType.ntuple else FilterType.em }
  let en_ethertype :=
    if use_ntuple != 0 then NTUPLE_FLTR_ALLOC_INPUT_EN_ETHERTYPE
    else EM_FLOW_ALLOC_INPUT_EN_ETHERTYPE
  let st ← parseItems bp attr use_ntuple en_ethertype
      (pattern.dropWhile FlowItem.isVoid) { f := filter }
  pure { st.f with enables := st.en, valid_flags := st.vflags }

/-- `bnxt_flow_parse_attr`: ingress only, no egress. -/
def bnxt_flow_parse_attr (attr : FlowAttr) : Except BnxtErr Unit := do
  if !attr.ingress then throw .ingressOnly
  if attr.egress then throw .egressUnsupported
  pure ()

/-- One receive queue (`struct bnxt_rx_queue`): the Receive Context it is
bound to (`rxq->vnic`, as a vnic index) and its started flag. -/
structure RxQueue where
  vnicIdx : Nat := 0
  rx_started : Bool := false
deriving DecidableEq, Repr

instance : Inhabited RxQueue := ⟨{}⟩

/-- One Receive Context (`struct bnxt_vnic_info`).  `fw_vnic_id = none` is
the `INVALID_VNIC_ID` / `INVALID_HW_RING_ID` sentinel; the two `STAILQ`s
become id lists into the filter and flow arenas; `fw_grp_ids` is the
per-slot hardware group-id array (`none` = `INVALID_HW_RING_ID`). -/
structure VnicInfo where
  fw_vnic_id : Option Nat := none
  rx_queue_cnt : Nat := 0
  start_grp_id : Nat := 0
  end_grp_id : Nat := 0
  func_default : Bool := false
  ff_pool_idx : Nat := 0
  vlan_strip : Bool := false
  filterIds : List Nat := []
  flowIds : List Nat := []
  fw_grp_ids : List (Option Nat) := []
deriving DecidableEq, Repr

instance : Inhabited VnicInfo := ⟨{}⟩

/-- One installed flow (`struct rte_flow`): its filter and its Receive
Context (nullable). -/
structure RteFlow where
  filterId : Nat := 0
  vnicIdx : Option Nat := none
deriving DecidableEq, Repr

instance : Inhabited RteFlow := ⟨{}⟩

/-- The mutable state of the flow subsystem: the vnic array
(`bp->vnic_info`), the receive queues, arenas for the filter and flow pools
(C pointers become ids), fresh-id counters, `bp->nr_vnics`, and the active
tunnel-redirect state kept by the firmware (modelled). -/
structure BnxtSt where
  vnics : List VnicInfo := []
  rxqs : List RxQueue := []
  filters : List (Nat × FilterInfo) := []
  flows : List (Nat × RteFlow) := []
  nextFilterId : Nat := 0
  nextFlowId : Nat := 0
  nextFwId : Nat := 0
  nr_vnics : Nat := 0
  tunnelRedirBitmap : Nat := 0
  tunnelRedirOwnerFid : Nat := 0
deriving DecidableEq, Repr

/-- Read `bp->vnic_info[i]`. -/
def vGet (s : BnxtSt) (i : Nat) : VnicInfo := s.vnics.getD i {}

/-- Write `bp->vnic_info[i]`. -/
def vSet (s : BnxtSt) (i : Nat) (v : VnicInfo) : BnxtSt :=
  { s with vnics := s.vnics.set i v }

/-- Read `bp->rx_queues[q]`. -/
def rxqGet (s : BnxtSt) (q : Nat) : RxQueue := s.rxqs.getD q {}

/-- Write `bp->rx_queues[q]`. -/
def rxqSet (s : BnxtSt) (q : Nat) (r : RxQueue) : BnxtSt :=
  { s with rxqs := s.rxqs.set q r }

/-- Dereference a filter id. -/
def fGet (s : BnxtSt) (fid : Nat) : FilterInfo := (s.filters.lookup fid).getD {}

/-- Update the filter behind an id. -/
def fSet (s : BnxtSt) (fid : Nat) (f : FilterInfo) : BnxtSt :=
  { s with filters := s.filters.map (fun p => if p.1 == fid then (fid, f) else p) }

/-- Put a filter into the arena under a fresh id. -/
def fAdd (s : BnxtSt) (f : FilterInfo) : Nat × BnxtSt :=
  (s.nextFilterId,
   { s with filters := s.filters ++ [(s.nextFilterId, f)],
            nextFilterId := s.nextFilterId + 1 })

/-- Modelled from the spec: `bnxt_free_filter` returns a filter object to
the device pool; in the arena model the entry is dropped. -/
def fRemove (s : BnxtSt) (fid : Nat) : BnxtSt :=
  { s with filters := s.filters.filter (fun p => p.1 != fid) }

/-- Dereference a flow id. -/
def flowGet (s : BnxtSt) (id : Nat) : RteFlow := (s.flows.lookup id).getD {}

/-- Update the flow behind an id. -/
def flowSet (s : BnxtSt) (id : Nat) (fl : RteFlow) : BnxtSt :=
  { s with flows := s.flows.map (fun p => if p.1 == id then (id, fl) else p) }

/-- Allocate a flow object (`rte_zmalloc` of a `struct rte_flow`). -/
def flowAdd (s : BnxtSt) (fl : RteFlow) : Nat × BnxtSt :=
  (s.nextFlowId,
   { s with flows := s.flows ++ [(s.nextFlowId, fl)],
            nextFlowId := s.nextFlowId + 1 })

/-- Free a flow object (`rte_free`). -/
def flowRemove (s : BnxtSt) (id : Nat) : BnxtSt :=
  { s with flows := s.flows.filter (fun p => p.1 != id) }

/-- Modelled from the spec: the Hardware Control Channel hands out fresh
hardware identifiers and all installs succeed. -/
def freshFwId (s : BnxtSt) : Nat × BnxtSt :=
  (s.nextFwId, { s with nextFwId := s.nextFwId + 1 })

/-- The L2-field comparison of `bnxt_find_matching_l2_filter`. -/
def l2FieldsMatch (mf nf : FilterInfo) : Bool :=
  mf.ethertype == nf.ethertype &&
  mf.l2_ovlan == nf.l2_ovlan && mf.l2_ovlan_mask == nf.l2_ovlan_mask &&
  mf.l2_ivlan == nf.l2_ivlan && mf.l2_ivlan_mask == nf.l2_ivlan_mask &&
  mf.src_macaddr == nf.src_macaddr && mf.dst_macaddr == nf.dst_macaddr

/-- The filter ids visited by `bnxt_find_matching_l2_filter`'s scan: every
flow's filter, walking the vnics from `max_vnics - 1` down to 0 and each
flow list front to back, skipping invalid vnics. -/
def l2ScanFilterIds (s : BnxtSt) : List Nat :=
  (((List.range s.vnics.length).reverse).filter
      (fun i => (vGet s i).fw_vnic_id.isSome)).flatMap
    (fun i => (vGet s i).flowIds.map (fun flid => (flowGet s flid).filterId))

/-- `bnxt_find_matching_l2_filter`: first the default-vnic fast path (the
flow's destination MAC equals the port L2 filter's address), then the scan
over all flows for an equal-L2-fields filter that is itself not a
shared-filter reference.  When the default vnic's filter list is empty the
C would dereference a null `STAILQ_FIRST`; the model skips the fast path. -/
def bnxt_find_matching_l2_filter (s : BnxtSt) (nf : FilterInfo) : Option Nat :=
  let scan := (l2ScanFilterIds s).find? (fun fid =>
    let mf := fGet s fid
    !mf.matching_l2_fltr_ptr.isSome && l2FieldsMatch mf nf)
  match (vGet s 0).filterIds.head? with
  | some f0 => if (fGet s f0).l2_addr == nf.dst_macaddr then some f0 else scan
  | none => scan

/-- `bnxt_create_l2_filter`: build a fresh shared L2 filter from the rule's
L2 fields (source MAC when the rule is source-keyed and of L2 kind,
destination MAC otherwise), install it through the Hardware Control Channel
(modelled as succeeding), and take the first reference. -/
def bnxt_create_l2_filter (s : BnxtSt) (nf : FilterInfo) : FilterInfo × BnxtSt :=
  let flags := HWRM_CFA_L2_FILTER_ALLOC_INPUT_FLAGS_XDP_DISABLE |||
               HWRM_CFA_L2_FILTER_ALLOC_INPUT_FLAGS_PATH_RX
  let flags :=
    if nf.valid_flags &&& BNXT_FLOW_L2_SRC_VALID_FLAG != 0 ||
       nf.valid_flags &&& BNXT_FLOW_L2_DST_VALID_FLAG != 0 then
      flags ||| HWRM_CFA_L2_FILTER_ALLOC_INPUT_FLAGS_OUTERMOST
    else flags
  let srcPath := nf.filter_type == FilterType.l2 &&
      (nf.valid_flags &&& BNXT_FLOW_L2_SRC_VALID_FLAG != 0 ||
       nf.valid_flags &&& BNXT_FLOW_L2_INNER_SRC_VALID_FLAG != 0)
  let flags :=
    if srcPath then flags ||| HWRM_CFA_L2_FILTER_ALLOC_INPUT_FLAGS_SOURCE_VALID
    else flags
  let l2addr := if srcPath then nf.src_macaddr else nf.dst_macaddr
  let hint :=
    if nf.priority != 0 &&
       (nf.valid_flags &&& BNXT_FLOW_L2_DST_VALID_FLAG != 0 ||
        nf.valid_flags &&& BNXT_FLOW_L2_INNER_DST_VALID_FLAG != 0) &&
       nf.priority > 65535 then
      (HWRM_CFA_L2_FILTER_ALLOC_INPUT_PRI_HINT_BELOW_FILTER, 1)
    else (0, 0)
  let w := freshFwId s
  ({ flags := flags, l2_addr := l2addr, l2_addr_mask := macBcast,
     pri_hint := hint.1, l2_filter_id_hint := hint.2,
     enables := HWRM_CFA_L2_FILTER_ALLOC_INPUT_ENABLES_L2_ADDR |||
                L2_FILTER_ALLOC_INPUT_EN_L2_ADDR_MASK,
     fw_l2_filter_id := some w.1, l2_ref_cnt := 1 : FilterInfo }, w.2)

/-- `bnxt_get_l2_filter`: find-and-share (bump the reference count, record
the shared filter in `matching_l2_fltr_ptr`) or create a new L2 filter.
The returned `Sum` is the C `filter1` pointer: an arena id when shared, a
transient object when newly created. -/
def bnxt_get_l2_filter (s : BnxtSt) (nf : FilterInfo) (_vnicIdx : Nat) :
    Sum Nat FilterInfo × FilterInfo × BnxtSt :=
  match bnxt_find_matching_l2_filter s nf with
  | some fid =>
      let l2 := fGet s fid
      let s := fSet s fid { l2 with l2_ref_cnt := l2.l2_ref_cnt + 1 }
      (.inl fid, { nf with matching_l2_fltr_ptr := some fid }, s)
  | none =>
      let c := bnxt_create_l2_filter s nf
      (.inr c.1, { nf with matching_l2_fltr_ptr := none }, c.2)

/-- Resolve the `filter1` pointer returned by `bnxt_get_l2_filter`. -/
def l2FilterVal (s : BnxtSt) : Sum Nat FilterInfo → FilterInfo
  | .inl fid => fGet s fid
  | .inr f => f

/-- `bnxt_update_filter_flags_en`: for a pure-L2 rule (no ntuple kind and
only the four L2 valid flags, which occupy the low four bits, so the C
test `!(valid_flags & ~(...))` is `valid_flags < 16`) the rule becomes the
L2 filter itself; always copy the hardware L2 id and reference count. -/
def bnxt_update_filter_flags_en (filter filter1 : FilterInfo)
    (use_ntuple : Nat) : FilterInfo :=
  let filter :=
    if use_ntuple == 0 && filter.valid_flags < 16 then
      { filter with
        flags := filter1.flags,
        enables := filter1.enables,
        filter_type := FilterType.l2,
        l2_addr := filter1.l2_addr,
        l2_addr_mask := macBcast,
        pri_hint := filter1.pri_hint,
        l2_filter_id_hint := filter1.l2_filter_id_hint }
    else filter
  { filter with
    fw_l2_filter_id := filter1.fw_l2_filter_id,
    l2_ref_cnt := filter1.l2_ref_cnt }

/-- Modelled from the spec: `bnxt_vnic_prep` (group allocation, hardware
VNIC allocation, optional RSS context, VLAN-strip policy, configuration;
all Hardware Control Channel calls succeed).  The vnic receives a fresh
hardware id and `bp->nr_vnics` grows. -/
def bnxt_vnic_prep (s : BnxtSt) (bp : BpCfg) (i : Nat) : BnxtSt :=
  let w := freshFwId s
  let s1 := vSet w.2 i
    { vGet w.2 i with
      fw_vnic_id := some w.1,
      vlan_strip := bp.vlan_strip_offload }
  { s1 with nr_vnics := s1.nr_vnics + 1 }

/-- `match_vnic_rss_cfg`: `true` when the requested RSS queue set matches
the vnic's existing configuration (queue count equal, every requested queue
live, and the group-id match count equals the queue count). -/
def match_vnic_rss_cfg (s : BnxtSt) (bp : BpCfg) (vnic_id : Nat)
    (queues : List Nat) : Bool :=
  let vnic := vGet s vnic_id
  if vnic.rx_queue_cnt != queues.length then false
  else if queues.any (fun q =>
      (vGet s (rxqGet s q).vnicIdx).rx_queue_cnt == 0 &&
      !(rxqGet s q).rx_started) then false
  else
    let cnt := vnic.rx_queue_cnt
    let m := ((List.range cnt).map (fun i =>
        ((List.range cnt).filter (fun j =>
          vnic.fw_grp_ids.getD j none ==
            some (bp.grp_fw_ids.getD (queues.getD i 0) 0))).length)).sum
    m == cnt

/-- Modelled from the spec: `bnxt_hwrm_clear_l2_filter`.  Releasing a
compiled filter decrements the shared L2 filter's reference count (through
`matching_l2_fltr_ptr` when the reference is shared, on the filter itself
otherwise) and uninstalls the hardware L2 filter only at count zero; a
filter whose hardware L2 id is already invalid is a no-op. -/
def bnxt_hwrm_clear_l2_filter (s : BnxtSt) (f : FilterInfo) :
    FilterInfo × BnxtSt :=
  if f.fw_l2_filter_id == none then (f, s)
  else
    match f.matching_l2_fltr_ptr with
    | some fid =>
        let l2 := fGet s fid
        let l2 := { l2 with l2_ref_cnt := l2.l2_ref_cnt - 1 }
        let s := fSet s fid l2
        if l2.l2_ref_cnt > 0 then (f, s)
        else ({ f with fw_l2_filter_id := none }, s)
    | none =>
        let f := { f with l2_ref_cnt := f.l2_ref_cnt - 1 }
        if f.l2_ref_cnt > 0 then (f, s)
        else ({ f with fw_l2_filter_id := none }, s)

/-- Modelled from the spec: `bnxt_hwrm_clear_em_filter` frees the
exact-match hardware flow and releases the compiled filter's L2 reference
(the spec's “always uninstall/release the compiled filter”), invalidating
both hardware ids. -/
def bnxt_hwrm_clear_em_filter (s : BnxtSt) (f : FilterInfo) :
    FilterInfo × BnxtSt :=
  let c := bnxt_hwrm_clear_l2_filter s f
  ({ c.1 with fw_em_filter_id := none, fw_l2_filter_id := none }, c.2)

/-- Modelled from the spec: `bnxt_hwrm_clear_ntuple_filter`, the ntuple
counterpart of the exact-match clear. -/
def bnxt_hwrm_clear_ntuple_filter (s : BnxtSt) (f : FilterInfo) :
    FilterInfo × BnxtSt :=
  let c := bnxt_hwrm_clear_l2_filter s f
  ({ c.1 with fw_ntuple_filter_id := none, fw_l2_filter_id := none }, c.2)

/-- `struct rte_flow_action`: one action of the END-terminated list (END
itself is the end of the Lean list). -/
inductive FlowAction where
  | voidAct
  | queue (index : Nat)
  | drop
  | count
  | vfAct (id : Nat)
  | rss (queues : List Nat) (key : List Nat) (types : Nat)
  | unknownAct
deriving DecidableEq, Repr

/-- Whether the action is a `RTE_FLOW_ACTION_TYPE_VOID` placeholder. -/
def FlowAction.isVoid : FlowAction → Bool
  | .voidAct => true
  | _ => false

/-- Successful outcome of the action switch: the finalized filter plus the
`vnic`/`rxq` locals that the error-cleanup code at `ret:` would use if a
later step fails. -/
structure ActOk where
  filter : FilterInfo
  ovnic : Option Nat := none
  orxq : Option Nat := none
deriving Repr

/-- The cleanup at `bnxt_validate_and_parse_flow`'s `ret:` label: with
`rte_errno` set, a still-filterless vnic loses its queue count-in-progress
and an orphaned rxq reverts to the default vnic. -/
def actionErrRet (s : BnxtSt) (ovnic orxq : Option Nat) (e : BnxtErr) :
    Except BnxtErr ActOk × BnxtSt :=
  let s1 := match ovnic with
    | some vi =>
        if (vGet s vi).filterIds == [] then
          vSet s vi { vGet s vi with rx_queue_cnt := 0 }
        else s
    | none => s
  let s2 := match orxq, ovnic with
    | some qi, some vi =>
        if (vGet s1 vi).rx_queue_cnt == 0 then
          rxqSet s1 qi { rxqGet s1 qi with vnicIdx := 0 }
        else s1
    | _, _ => s1
  (.error e, s2)

/-- The `vnic_found:` tail of the queue/RSS actions: point the filter at
the vnic's hardware id, take the shared L2 filter, and merge its fields
(`bnxt_update_filter_flags_en`).  Filter-pool exhaustion cannot occur in
the model (the pool is unbounded), so the `ENOSPC` branch is absent. -/
def vnicFound (s : BnxtSt) (use_ntuple : Nat) (filter : FilterInfo)
    (vnic_id : Nat) (orxq : Option Nat) : Except BnxtErr ActOk × BnxtSt :=
  let filter := { filter with dst_id := (vGet s vnic_id).fw_vnic_id.getD 0 }
  let g := bnxt_get_l2_filter s filter vnic_id
  let filter2 := bnxt_update_filter_flags_en g.2.1 (l2FilterVal g.2.2 g.1) use_ntuple
  (.ok { filter := filter2, ovnic := some vnic_id, orxq := orxq }, g.2.2)

/-- The `use_vnic:` label of the queue action: record the pool index, then
the `vnic_found` tail. -/
def useVnic (s : BnxtSt) (use_ntuple : Nat) (filter : FilterInfo)
    (vnic_id : Nat) (orxq : Option Nat) : Except BnxtErr ActOk × BnxtSt :=
  let s := vSet s vnic_id { vGet s vnic_id with ff_pool_idx := vnic_id }
  vnicFound s use_ntuple filter vnic_id orxq

/-- `RTE_FLOW_ACTION_TYPE_QUEUE`: queue 0 and out-of-range queues are
invalid; an active vnic must already start at this queue; otherwise the
queue must exist and be unowned, and the vnic is lazily provisioned. -/
def queueAction (s : BnxtSt) (bp : BpCfg) (attr : FlowAttr) (use_ntuple : Nat)
    (filter : FilterInfo) (index : Nat) : Except BnxtErr ActOk × BnxtSt :=
  if index == 0 || index ≥ bp.rx_nr_rings then (.error .invalidQueue, s)
  else
    let vnic_id := if attr.group != 0 then attr.group else index
    let vnic := vGet s vnic_id
    if vnic.rx_queue_cnt != 0 then
      if vnic.start_grp_id != index then
        actionErrRet s (some vnic_id) none .vnicInUse
      else useVnic s use_ntuple filter vnic_id none
    else
      let rxqExists := index < s.rxqs.length
      if !bp.mq_rss && rxqExists && vnic.fw_vnic_id.isSome then
        useVnic s use_ntuple filter vnic_id (some index)
      else if !rxqExists || ((vGet s 0).fw_grp_ids.getD index none).isSome then
        actionErrRet s (some vnic_id)
          (if rxqExists then some index else none) .queueInUse
      else
        let s := rxqSet s index { vnicIdx := vnic_id, rx_started := true }
        let s := vSet s vnic_id { vGet s vnic_id with
          rx_queue_cnt := (vGet s vnic_id).rx_queue_cnt + 1,
          start_grp_id := index, end_grp_id := index,
          func_default := false }
        let s := bnxt_vnic_prep s bp vnic_id
        useVnic s use_ntuple filter vnic_id (some index)

/-- `RTE_FLOW_ACTION_TYPE_DROP`: bind to the default vnic's shared L2
filter and set the per-kind drop flag. -/
def dropAction (s : BnxtSt) (filter : FilterInfo) :
    Except BnxtErr ActOk × BnxtSt :=
  let g := bnxt_get_l2_filter s filter 0
  let filter1 :=
    { g.2.1 with fw_l2_filter_id := (l2FilterVal g.2.2 g.1).fw_l2_filter_id }
  let filter2 :=
    if filter1.filter_type == FilterType.em then
      { filter1 with flags := HWRM_CFA_EM_FLOW_ALLOC_INPUT_FLAGS_DROP }
    else
      { filter1 with flags := HWRM_CFA_NTUPLE_FILTER_ALLOC_INPUT_FLAGS_DROP }
  (.ok { filter := filter2 }, g.2.2)

/-- `RTE_FLOW_ACTION_TYPE_COUNT`: like drop, with the meter flag. -/
def countAction (s : BnxtSt) (filter : FilterInfo) :
    Except BnxtErr ActOk × BnxtSt :=
  let g := bnxt_get_l2_filter s filter 0
  let filter1 :=
    { g.2.1 with fw_l2_filter_id := (l2FilterVal g.2.2 g.1).fw_l2_filter_id,
                 flags := HWRM_CFA_NTUPLE_FILTER_ALLOC_INPUT_FLAGS_METER }
  (.ok { filter := filter1 }, g.2.2)

/-- `RTE_FLOW_ACTION_TYPE_VF`: tunnel types become a tunnel-redirect filter
(trusted-VF check when issued on a VF); a plain VF redirect records the
VF's default vnic as mirror target over the default vnic's L2 filter. -/
def vfAction (s : BnxtSt) (bp : BpCfg) (filter : FilterInfo) (vfId : Nat) :
    Except BnxtErr ActOk × BnxtSt :=
  if filter.tunnel_type == CFA_NTUPLE_FILTER_ALLOC_REQ_TUNNEL_TYPE_VXLAN ||
     filter.tunnel_type == CFA_NTUPLE_FILTER_ALLOC_REQ_TUNNEL_TYPE_IPGRE then
    if bp.vfFlag && (!bp.trusted_vf || vfId != 0) then (.error .incorrectVf, s)
    else
      (.ok { filter := { filter with
        enables := filter.enables ||| filter.tunnel_type,
        filter_type := FilterType.tunnelRedirect } }, s)
  else
    if vfId ≥ bp.max_vfs then (.error .vfIdInvalid, s)
    else
      let dflt := bp.vf_dflt_vnic.getD vfId (-1)
      if dflt < 0 then (.error .vfDfltVnicUnavailable, s)
      else
        let filter := { filter with
          mirror_vnic_id := dflt.toNat,
          enables := filter.enables ||| NTUPLE_FLTR_ALLOC_INPUT_EN_MIRROR_VNIC_ID }
        let g := bnxt_get_l2_filter s filter 0
        (.ok { filter := { g.2.1 with
          fw_l2_filter_id := (l2FilterVal g.2.2 g.1).fw_l2_filter_id } }, g.2.2)

/-- The RSS action's queue-binding loop: validate and bind each requested
queue in order; on failure report which rxq the C locals held. -/
def rssBindQueues (bp : BpCfg) (vnic_id : Nat) :
    List Nat → BnxtSt → Option Nat →
    Except (BnxtErr × Option Nat × BnxtSt) (BnxtSt × Option Nat)
  | [], s, orxq => .ok (s, orxq)
  | q :: rest, s, orxq =>
      if q == 0 || q ≥ bp.rx_nr_rings || q ≥ s.rxqs.length then
        .error (.invalidQueueRss, orxq, s)
      else if ((vGet s 0).fw_grp_ids.getD q none).isSome then
        .error (.rssQueueActive, some q, s)
      else
        let s := rxqSet s q { vnicIdx := vnic_id, rx_started := true }
        let s := vSet s vnic_id { vGet s vnic_id with
          rx_queue_cnt := (vGet s vnic_id).rx_queue_cnt + 1 }
        rssBindQueues bp vnic_id rest s (some q)

/-- After binding, the vnic takes its queues' hardware group ids and they
are marked invalid in the default vnic's table. -/
def rssAssignGrpIds (s : BnxtSt) (bp : BpCfg) (vnic_id : Nat)
    (queues : List Nat) : BnxtSt :=
  let s := vSet s vnic_id { vGet s vnic_id with
    fw_grp_ids := queues.map (fun q => some (bp.grp_fw_ids.getD q 0)) }
  queues.foldl (fun s q =>
    vSet s 0 { vGet s 0 with fw_grp_ids := (vGet s 0).fw_grp_ids.set q none }) s

/-- `RTE_FLOW_ACTION_TYPE_RSS`: needs a non-zero group; an already
configured vnic must match the requested queue set; otherwise bind all
queues, provision the vnic, and record group ids.  The RSS indirection
table and hash key programming only touch fields outside the model. -/
def rssAction (s : BnxtSt) (bp : BpCfg) (attr : FlowAttr) (use_ntuple : Nat)
    (filter : FilterInfo) (queues : List Nat) :
    Except BnxtErr ActOk × BnxtSt :=
  let vnic_id := attr.group
  if vnic_id == 0 then (.error .groupIdZero, s)
  else if (vGet s vnic_id).rx_queue_cnt != 0 then
    if !(match_vnic_rss_cfg s bp vnic_id queues) then
      actionErrRet s (some vnic_id) none .rssMismatch
    else vnicFound s use_ntuple filter vnic_id none
  else
    match rssBindQueues bp vnic_id queues s none with
    | .error (e, orxq, s') => actionErrRet s' (some vnic_id) orxq e
    | .ok (s, orxq) =>
        let s := vSet s vnic_id { vGet s vnic_id with
          start_grp_id := queues.getD 0 0,
          end_grp_id := queues.getD (queues.length - 1) 0,
          func_default := false }
        let s := bnxt_vnic_prep s bp vnic_id
        let s := vSet s vnic_id { vGet s vnic_id with ff_pool_idx := vnic_id }
        let s := rssAssignGrpIds s bp vnic_id queues
        vnicFound s use_ntuple filter vnic_id orxq

/-- `bnxt_validate_and_parse_flow`: pattern compilation, attribute check,
then the action switch, then the recognized action must be the last one.
The transient `filter1` release at the end of the C function only touches
pool objects outside the arena, so it has no modelled effect. -/
def bnxt_validate_and_parse_flow (s : BnxtSt) (bp : BpCfg) (attr : FlowAttr)
    (pattern : List FlowItem) (actions : List FlowAction) :
    Except BnxtErr FilterInfo × BnxtSt :=
  match bnxt_validate_and_parse_flow_type bp attr pattern {} with
  | .error e => (.error e, s)
  | .ok filter =>
    match bnxt_flow_parse_attr attr with
    | .error e => (.error e, s)
    | .ok _ =>
      let filter :=
        if filter.filter_type == FilterType.em then
          { filter with flags := HWRM_CFA_EM_FLOW_ALLOC_INPUT_FLAGS_PATH_RX }
        else filter
      let use_ntuple := match bnxt_filter_type_check pattern with
        | .ok u => u
        | .error _ => 0
      let acts := actions.dropWhile FlowAction.isVoid
      let r := match acts.headD .unknownAct with
        | .queue index => queueAction s bp attr use_ntuple filter index
        | .drop => dropAction s filter
        | .count => countAction s filter
        | .vfAct vfId => vfAction s bp filter vfId
        | .rss queues _ _ => rssAction s bp attr use_ntuple filter queues
        | _ => (.error .invalidAction, s)
      match r with
      | (.error e, s') => (.error e, s')
      | (.ok ok, s') =>
          if ((acts.drop 1).dropWhile FlowAction.isVoid) != [] then
            let r' := actionErrRet s' ok.ovnic ok.orxq .invalidAction
            (.error .invalidAction, r'.2)
          else (.ok ok.filter, s')

/-- `find_matching_vnic`: first valid vnic whose hardware id equals the
filter's destination. -/
def find_matching_vnic (s : BnxtSt) (filter : FilterInfo) : Option Nat :=
  (List.range s.vnics.length).find? (fun i =>
    (vGet s i).fw_vnic_id == some filter.dst_id)

/-- Outcome of `bnxt_match_filter`: no match (0), duplicate (-EEXIST), or
updated-in-place (-EXDEV, carrying the arena id the candidate was installed
under). -/
inductive MatchRes where
  | noMatch
  | exist
  | xdev (newFilterId : Nat)
deriving DecidableEq, Repr

/-- The (vnic index, flow id) pairs visited by `bnxt_match_filter`: vnics
from `max_vnics - 1` down to 0, flows front to back, invalid vnics
skipped. -/
def matchScan (s : BnxtSt) : List (Nat × Nat) :=
  (((List.range s.vnics.length).reverse).filter
      (fun i => (vGet s i).fw_vnic_id.isSome)).flatMap
    (fun i => (vGet s i).flowIds.map (fun flid => (i, flid)))

/-- The full field comparison of `bnxt_match_filter`. -/
def filtersMatch (mf nf : FilterInfo) : Bool :=
  mf.filter_type == nf.filter_type &&
  mf.flags == nf.flags &&
  mf.src_port == nf.src_port && mf.src_port_mask == nf.src_port_mask &&
  mf.dst_port == nf.dst_port && mf.dst_port_mask == nf.dst_port_mask &&
  mf.ip_protocol == nf.ip_protocol && mf.ip_addr_type == nf.ip_addr_type &&
  mf.ethertype == nf.ethertype && mf.vni == nf.vni &&
  mf.tunnel_type == nf.tunnel_type &&
  mf.l2_ovlan == nf.l2_ovlan && mf.l2_ovlan_mask == nf.l2_ovlan_mask &&
  mf.l2_ivlan == nf.l2_ivlan && mf.l2_ivlan_mask == nf.l2_ivlan_mask &&
  mf.l2_addr == nf.l2_addr && mf.l2_addr_mask == nf.l2_addr_mask &&
  mf.src_macaddr == nf.src_macaddr && mf.dst_macaddr == nf.dst_macaddr &&
  mf.src_ipaddr == nf.src_ipaddr && mf.src_ipaddr_mask == nf.src_ipaddr_mask &&
  mf.dst_ipaddr == nf.dst_ipaddr && mf.dst_ipaddr_mask == nf.dst_ipaddr_mask

/-- `bnxt_update_filter`: on the destination-update path, uninstall the old
filter from hardware and install the new one (L2 kind reprograms the L2
filter; EM/ntuple kinds clear the old flow and are reinstalled later by
`bnxt_flow_create`). -/
def bnxt_update_filter (s : BnxtSt) (oldId : Nat) (nf : FilterInfo) :
    FilterInfo × BnxtSt :=
  if nf.filter_type == FilterType.l2 then
    let c := bnxt_hwrm_clear_l2_filter s (fGet s oldId)
    let s1 := fSet c.2 oldId c.1
    let w := freshFwId s1
    ({ nf with fw_l2_filter_id := some w.1 }, w.2)
  else if nf.filter_type == FilterType.em then
    let c := bnxt_hwrm_clear_em_filter s (fGet s oldId)
    (nf, fSet c.2 oldId c.1)
  else if nf.filter_type == FilterType.ntuple then
    let c := bnxt_hwrm_clear_ntuple_filter s (fGet s oldId)
    (nf, fSet c.2 oldId c.1)
  else (nf, s)

/-- The destination-update arm of `bnxt_match_filter`: uninstall/replace
hardware state (`bnxt_update_filter`), install the candidate in the filter
arena, swap it for the old filter in the owning vnic's filter list, free
the old filter, and repoint the flow at the candidate. -/
def matchUpdateFlow (s : BnxtSt) (vi flid : Nat) (nf : FilterInfo) :
    Nat × BnxtSt :=
  let mfId := (flowGet s flid).filterId
  let u := bnxt_update_filter s mfId nf
  let newId := u.2.nextFilterId
  let s2 := (fAdd u.2 u.1).2
  let v := vGet s2 vi
  let s3 := vSet s2 vi { v with
    filterIds := (v.filterIds.filter (fun x => x != mfId)) ++ [newId] }
  let s4 := fRemove s3 mfId
  let s5 := flowSet s4 flid { flowGet s4 flid with filterId := newId }
  (newId, s5)

/-- `bnxt_match_filter`: scan all flows for a field-for-field identical
filter.  Equal destination: report the duplicate and change nothing.
Different destination: the in-place update (`matchUpdateFlow`).  The C loop
mutates nothing before the first match and returns immediately after it,
so find-first followed by the action is the same computation. -/
def bnxt_match_filter (s : BnxtSt) (nf : FilterInfo) : MatchRes × BnxtSt :=
  match (matchScan s).find?
      (fun p => filtersMatch (fGet s (flowGet s p.2).filterId) nf) with
  | none => (.noMatch, s)
  | some (vi, flid) =>
      let mfId := (flowGet s flid).filterId
      if (fGet s mfId).dst_id == nf.dst_id then (.exist, s)
      else
        let r := matchUpdateFlow s vi flid nf
        (.xdev r.1, r.2)

/-- Result of `bnxt_flow_create`: a new flow handle, a successful
destination update (the C returns NULL but sets error code 0 /
`RTE_FLOW_ERROR_TYPE_NONE`, explicitly not a failure), or a failure. -/
inductive CreateResult where
  | created (flowId : Nat)
  | updatedDest
  | failed (e : BnxtErr)
deriving DecidableEq, Repr

/-- Modelled from the spec: `bnxt_hwrm_tunnel_redirect_query` returns the
firmware's active tunnel-type bitmap. -/
def bnxt_hwrm_tunnel_redirect_query (s : BnxtSt) : Nat := s.tunnelRedirBitmap

/-- The tunnel-redirect branch of `bnxt_flow_create`: query, free a
pre-existing redirect of this type, then redirect the tunnel to this
function (hwrm calls modelled as succeeding). -/
def tunnelRedirectCreate (s : BnxtSt) (bp : BpCfg) (t : Nat) : BnxtSt :=
  let tun_type := bnxt_hwrm_tunnel_redirect_query s
  let s :=
    if tun_type == (1 <<< t) then
      { s with tunnelRedirBitmap := s.tunnelRedirBitmap - (1 <<< t) }
    else s
  { s with tunnelRedirBitmap := s.tunnelRedirBitmap ||| (1 <<< t),
           tunnelRedirOwnerFid := bp.fw_fid }

/-- The `done:` block of `bnxt_flow_create`: register the flow, or on the
update path free the transient flow object and report success-with-update.
With a null vnic the C inserts into a null list head — undefined behaviour,
surfaced as `nullVnicDeref`. -/
def finishCreate (s : BnxtSt) (nfIdOpt : Option Nat) (nf : FilterInfo)
    (ovnic : Option Nat) (update_flow : Bool) : CreateResult × BnxtSt :=
  match ovnic with
  | some vi =>
      if update_flow then (.updatedDest, s)
      else
        let r := match nfIdOpt with
          | some i => (i, s)
          | none => fAdd s nf
        let fid := r.1
        let s1 := vSet r.2 vi
          { vGet r.2 vi with filterIds := (vGet r.2 vi).filterIds ++ [fid] }
        let flid := s1.nextFlowId
        let s2 := (flowAdd s1 { filterId := fid, vnicIdx := some vi }).2
        let s3 := vSet s2 vi
          { vGet s2 vi with flowIds := (vGet s2 vi).flowIds ++ [flid] }
        (.created flid, s3)
  | none => (.failed .nullVnicDeref, s)

/-- `bnxt_flow_create` from the `bnxt_match_filter` call onward, taking the
already-compiled Match Descriptor: duplicate check / destination update,
the direct tunnel-redirect path, hardware install of EM/ntuple filters, and
flow registration. -/
def bnxt_flow_create_compiled (s : BnxtSt) (bp : BpCfg) (nf : FilterInfo) :
    CreateResult × BnxtSt :=
  let mr := bnxt_match_filter s nf
  match mr.1 with
  | .exist =>
      (.failed .duplicateRule, (bnxt_hwrm_clear_l2_filter mr.2 nf).2)
  | res =>
      let s1 := mr.2
      let update_flow := match res with | .xdev _ => true | _ => false
      let nfIdOpt := match res with | .xdev i => some i | _ => none
      let nfCur := match nfIdOpt with | some i => fGet s1 i | none => nf
      if nfCur.filter_type == FilterType.tunnelRedirect &&
         nfCur.enables == nfCur.tunnel_type then
        let s2 := tunnelRedirectCreate s1 bp nfCur.tunnel_type
        finishCreate s2 nfIdOpt nfCur (some 0) update_flow
      else
        let em := nfCur.filter_type == FilterType.em
        let nfCur2 :=
          if em then
            { nfCur with
              enables := nfCur.enables |||
                HWRM_CFA_EM_FLOW_ALLOC_INPUT_ENABLES_L2_FILTER_ID,
              fw_em_filter_id := some s1.nextFwId }
          else nfCur
        let s2 := if em then (freshFwId s1).2 else s1
        let nt := nfCur2.filter_type == FilterType.ntuple
        let nfCur3 :=
          if nt then
            { nfCur2 with
              enables := nfCur2.enables |||
                HWRM_CFA_NTUPLE_FILTER_ALLOC_INPUT_ENABLES_L2_FILTER_ID,
              fw_ntuple_filter_id := some s2.nextFwId }
          else nfCur2
        let s3 := if nt then (freshFwId s2).2 else s2
        let s4 := match nfIdOpt with | some i => fSet s3 i nfCur3 | none => s3
        finishCreate s4 nfIdOpt nfCur3 (find_matching_vnic s4 nfCur3) update_flow

/-- `bnxt_flow_create`: trusted-VF and device-started guards, argument
validation, compilation, then the compiled-create path. -/
def bnxt_flow_create (s : BnxtSt) (bp : BpCfg) (attr : FlowAttr)
    (pattern : List FlowItem) (actions : List FlowAction) :
    CreateResult × BnxtSt :=
  if bp.vfFlag && !bp.trusted_vf then (.failed .notTrustedVf, s)
  else if !bp.dev_started then (.failed .deviceNotStarted, s)
  else
    match bnxt_validate_and_parse_flow s bp attr pattern actions with
    | (.error e, s1) => (.failed e, s1)
    | (.ok nf, s1) => bnxt_flow_create_compiled s1 bp nf

/-- `bnxt_flow_validate`: run the compile pipeline on a throwaway filter;
on success free a vnic the compilation provisioned that carries no filters,
then uninstall the compiled filter by kind; on compile failure jump
straight to the pool release (`goto exit`), skipping the hardware clears. -/
def bnxt_flow_validate (s : BnxtSt) (bp : BpCfg) (attr : FlowAttr)
    (pattern : List FlowItem) (actions : List FlowAction) :
    Except BnxtErr Unit × BnxtSt :=
  match bnxt_validate_and_parse_flow s bp attr pattern actions with
  | (.error e, s1) => (.error e, s1)
  | (.ok nf, s1) =>
      let s2 := match find_matching_vnic s1 nf with
        | some vi =>
            if (vGet s1 vi).filterIds == [] then
              let s2 := vSet s1 vi { vGet s1 vi with
                fw_vnic_id := none, rx_queue_cnt := 0, fw_grp_ids := [] }
              { s2 with nr_vnics := s2.nr_vnics - 1 }
            else s1
        | none => s1
      let s3 :=
        if nf.filter_type == FilterType.em then
          (bnxt_hwrm_clear_em_filter s2 nf).2
        else if nf.filter_type == FilterType.ntuple then
          (bnxt_hwrm_clear_ntuple_filter s2 nf).2
        else (bnxt_hwrm_clear_l2_filter s2 nf).2
      (.ok (), s3)

/-- `bnxt_handle_tunnel_redirect_destroy`: query the active redirect; when
it is this filter's tunnel type, free it only if owned by this function
(`tun_dst_fid + first_vf_id` folded into the stored absolute owner id);
otherwise just let the caller delete the flow. -/
def bnxt_handle_tunnel_redirect_destroy (s : BnxtSt) (bp : BpCfg)
    (f : FilterInfo) : BnxtSt :=
  let tun_type := bnxt_hwrm_tunnel_redirect_query s
  if tun_type == (1 <<< f.tunnel_type) then
    if bp.fw_fid != s.tunnelRedirOwnerFid then s
    else { s with tunnelRedirBitmap := s.tunnelRedirBitmap - (1 <<< f.tunnel_type) }
  else s

/-- `bnxt_flow_destroy`: per-kind hardware uninstall (tunnel redirects have
their own teardown), then deregistration; a vnic whose flow list empties is
torn down — its group-id table freed, hardware contexts freed, queue count
zeroed — with no default-vnic exemption. -/
def bnxt_flow_destroy (s : BnxtSt) (bp : BpCfg) (flowId : Nat) :
    Except BnxtErr Unit × BnxtSt :=
  if (s.flows.lookup flowId).isNone then (.error .flowNull, s)
  else
    let flow := flowGet s flowId
    let fid := flow.filterId
    let filter := fGet s fid
    let s1 :=
      if filter.filter_type == FilterType.tunnelRedirect &&
         filter.enables == filter.tunnel_type then
        bnxt_handle_tunnel_redirect_destroy s bp filter
      else
        let c0 := (bnxt_match_filter s filter).2
        let c1 :=
          if filter.filter_type == FilterType.em then
            bnxt_hwrm_clear_em_filter c0 filter
          else (filter, c0)
        let c2 :=
          if c1.1.filter_type == FilterType.ntuple then
            bnxt_hwrm_clear_ntuple_filter c1.2 c1.1
          else c1
        let c3 := bnxt_hwrm_clear_l2_filter c2.2 c2.1
        fSet c3.2 fid c3.1
    match flow.vnicIdx with
    | none => (.error .nullVnicDeref, s1)
    | some vi =>
        let v := vGet s1 vi
        let s2 := vSet s1 vi { v with
          filterIds := v.filterIds.filter (fun x => x != fid),
          flowIds := v.flowIds.filter (fun x => x != flowId) }
        let s3 := flowRemove (fRemove s2 fid) flowId
        let v' := vGet s3 vi
        if v'.flowIds == [] then
          let s4 := vSet s3 vi { v' with
            fw_vnic_id := none, rx_queue_cnt := 0, fw_grp_ids := [] }
          (.ok (), { s4 with nr_vnics := s4.nr_vnics - 1 })
        else (.ok (), s3)

/-- One flow's teardown inside `bnxt_flow_flush`: tunnel redirects use
their own helper; EM flows are cleared; ntuple flows are cleared, and
otherwise only vnic 0's flows get their L2 filter cleared (the source's
`else if (!i)`); then the filter is freed and the flow removed from the
flow list (flush does not touch `vnic->filter`). -/
def flushFlowStep (s : BnxtSt) (bp : BpCfg) (i : Nat) (flowId : Nat) : BnxtSt :=
  let flow := flowGet s flowId
  let fid := flow.filterId
  let filter := fGet s fid
  let s1 :=
    if filter.filter_type == FilterType.tunnelRedirect &&
       filter.enables == filter.tunnel_type then
      bnxt_handle_tunnel_redirect_destroy s bp filter
    else
      let c1 :=
        if filter.filter_type == FilterType.em then
          bnxt_hwrm_clear_em_filter s filter
        else (filter, s)
      let c2 :=
        if c1.1.filter_type == FilterType.ntuple then
          bnxt_hwrm_clear_ntuple_filter c1.2 c1.1
        else if i == 0 then
          bnxt_hwrm_clear_l2_filter c1.2 c1.1
        else c1
      fSet c2.2 fid c2.1
  let s2 := fRemove s1 fid
  let v := vGet s2 i
  let s3 := vSet s2 i { v with flowIds := v.flowIds.filter (fun x => x != flowId) }
  flowRemove s3 flowId

/-- Flush one vnic's flow list, in list order. -/
def flushVnicFlows (bp : BpCfg) (i : Nat) : List Nat → BnxtSt → BnxtSt
  | [], s => s
  | flid :: rest, s => flushVnicFlows bp i rest (flushFlowStep s bp i flid)

/-- Flush all vnics in ascending index order, skipping invalid ones. -/
def flushVnics (bp : BpCfg) : List Nat → BnxtSt → BnxtSt
  | [], s => s
  | i :: rest, s =>
      let s' := if (vGet s i).fw_vnic_id.isSome then
          flushVnicFlows bp i (vGet s i).flowIds s
        else s
      flushVnics bp rest s'

/-- `bnxt_flow_flush`: destroy every flow of every valid vnic; with the
Hardware Control Channel modelled as succeeding the walk always completes
and reports success. -/
def bnxt_flow_flush (s : BnxtSt) (bp : BpCfg) : Except BnxtErr Unit × BnxtSt :=
  (.ok (), flushVnics bp (List.range s.vnics.length) s)

/-! Specification-side predicates and concrete scenario states used by the
theorems below. -/

/-- A plain Ethernet/Any/VLAN matcher (clears `use_ntuple`). -/
def FlowItem.isL2Kind : FlowItem → Bool
  | .anyi _ _ _ | .eth _ _ _ | .vlan _ _ _ => true
  | _ => false

/-- An IPv4/IPv6/TCP/UDP matcher (sets `use_ntuple`). -/
def FlowItem.isL34Kind : FlowItem → Bool
  | .ipv4 _ _ _ | .ipv6 _ _ _ | .tcp _ _ _ | .udp _ _ _ => true
  | _ => false

/-- A VLAN matcher. -/
def FlowItem.isVlanItem : FlowItem → Bool
  | .vlan _ _ _ => true
  | _ => false

/-- The kind of the last filter-relevant matcher in the pattern:
`some false` when it is a plain L2 matcher (no L3/L4 refinement follows
it), `some true` when it is an L3/L4 matcher, `none` when no relevant
matcher occurs. -/
def lastRelevantKind : List FlowItem → Option Bool
  | [] => none
  | i :: rest =>
      match lastRelevantKind rest with
      | some b => some b
      | none =>
          if i.isL34Kind then some true
          else if i.isL2Kind then some false
          else none

/-- Whether the pattern contains a VLAN matcher. -/
def hasVlanItem (l : List FlowItem) : Bool := l.any FlowItem.isVlanItem

/-- The mask violations enumerated by claim C4: a partial (neither all-zero
nor all-ones) MAC mask, an ethertype mask other than 0 or 0xffff, any
nonzero IPv4/IPv6 mask on a non-address header field, and any nonzero
TCP/UDP mask on a non-port field. -/
def badMaskItem : FlowItem → Bool
  | .eth _ (some m) _ =>
      (!m.src.isZero && !m.src.isBroadcast) ||
      (!m.dst.isZero && !m.dst.isBroadcast) ||
      (m.typ != 0 && m.typ != 0xffff)
  | .ipv4 _ (some m) _ =>
      m.version_ihl != 0 || m.type_of_service != 0 || m.total_length != 0 ||
      m.packet_id != 0 || m.fragment_offset != 0 || m.time_to_live != 0 ||
      m.next_proto_id != 0 || m.hdr_checksum != 0
  | .ipv6 _ (some m) _ =>
      m.vtc_flow != 0 || m.payload_len != 0 || m.proto != 0 || m.hop_limits != 0
  | .tcp _ (some m) _ =>
      m.sent_seq != 0 || m.recv_ack != 0 || m.data_off != 0 ||
      m.tcp_flags != 0 || m.rx_win != 0 || m.cksum != 0 || m.tcp_urp != 0
  | .udp _ (some m) _ =>
      m.dgram_len != 0 || m.dgram_cksum != 0
  | _ => false

/-- A flow handle is installed: it sits on the flow list of some valid
Receive Context. -/
def InstalledFlow (s : BnxtSt) (flid : Nat) : Prop :=
  ∃ i, i < s.vnics.length ∧ (vGet s i).fw_vnic_id.isSome ∧
    flid ∈ (vGet s i).flowIds

/-- Scenario: the destination MAC the rules of the reference-counting
scenario match on (a unicast address). -/
def c3MacA : MacAddr := ⟨0xAA, 0xBB, 0xCC, 0xDD, 0xEE, 0xFF⟩

/-- Scenario: the port's own default L2 filter sitting first on the default
vnic's filter list (a different MAC, so the fast path misses). -/
def c3F0Filter : FilterInfo :=
  { filter_type := .l2, l2_addr := ⟨0, 0, 0, 0, 0, 1⟩,
    l2_addr_mask := macBcast, fw_l2_filter_id := some 5, l2_ref_cnt := 1 }

/-- Scenario: device configuration with four receive rings. -/
def c3Bp : BpCfg := { rx_nr_rings := 4 }

/-- Scenario: initial state — default vnic 0 active with the port filter,
vnics 1–3 unused, queues 1–3 free. -/
def c3S0 : BnxtSt :=
  { vnics := [{ fw_vnic_id := some 50, rx_queue_cnt := 1, func_default := true,
                filterIds := [0], fw_grp_ids := [some 7, none, none, none] },
              {}, {}, {}],
    rxqs := [{ vnicIdx := 0, rx_started := true }, {}, {}, {}],
    filters := [(0, c3F0Filter)],
    nextFilterId := 1, nextFwId := 10, nr_vnics := 1 }

/-- Scenario: the `k`-th rule's pattern — identical L2 match fields
(destination MAC `c3MacA`, exact mask), distinguished only by the TCP
destination port `k + 1`. -/
def c3Pattern (k : Nat) : List FlowItem :=
  [.eth (some { dst := c3MacA }) (some { dst := macBcast }) false,
   .tcp (some { dst_port := k + 1 }) (some {}) false]

/-- Scenario: default (ingress, group 0) attributes. -/
def c3Attr : FlowAttr := {}

/-- Scenario: every rule steers to queue 3. -/
def c3Actions : List FlowAction := [.queue 3]

/-- Scenario: one full `bnxt_flow_create` of the `k`-th rule. -/
def c3Step (k : Nat) (s : BnxtSt) : BnxtSt :=
  (bnxt_flow_create s c3Bp c3Attr (c3Pattern k) c3Actions).2

/-- Scenario: the state after creating rules `0 … n-1` in order. -/
def c3StateAfter : Nat → BnxtSt
  | 0 => c3S0
  | n + 1 => c3Step n (c3StateAfter n)

/-- Scenario: a probe filter carrying the scenario's shared L2 match
fields, for counting Shared L2 Filters in the arena. -/
def c3L2Probe : FilterInfo := { dst_macaddr := c3MacA }

/-- Count of Shared L2 Filters in the arena for given L2 fields: live
filters with those fields that are not themselves references to another
shared filter. -/
def sharedL2Count (s : BnxtSt) (probe : FilterInfo) : Nat :=
  (s.filters.filter (fun p =>
    l2FieldsMatch p.2 probe && p.2.matching_l2_fltr_ptr == none)).length

/-- Scenario (C9): a tunnel-redirect Match Descriptor (VXLAN, enables equal
to the tunnel type) as compiled by a `VF` action on a VXLAN pattern. -/
def c9TunFilter : FilterInfo :=
  { filter_type := .tunnelRedirect, enables := 1, tunnel_type := 1 }

/-- Scenario (C9): the default vnic holds the port filter and one
tunnel-redirect flow (id 5, filter id 7), exactly as `bnxt_flow_create`
leaves it after installing a tunnel redirect. -/
def c9S : BnxtSt :=
  { vnics := [{ fw_vnic_id := some 50, rx_queue_cnt := 1, func_default := true,
                filterIds := [0, 7], flowIds := [5], fw_grp_ids := [some 7] }],
    rxqs := [{ vnicIdx := 0, rx_started := true }],
    filters := [(0, c3F0Filter), (7, c9TunFilter)],
    flows := [(5, { filterId := 7, vnicIdx := some 0 })],
    nextFilterId := 8, nextFlowId := 6, nextFwId := 10, nr_vnics := 1,
    tunnelRedirBitmap := 2 }

/-- Scenario (C1/C2 witnesses): the Match Descriptor of an installed ntuple
flow steering `c3MacA` / TCP port 1 traffic to the vnic with hardware id
10. -/
def c1FlowFilter : FilterInfo :=
  { filter_type := .ntuple, dst_macaddr := c3MacA, dst_port := 1,
    dst_id := 10, enables := 4736, valid_flags := 1,
    fw_l2_filter_id := some 11, fw_ntuple_filter_id := some 12,
    l2_ref_cnt := 1 }

/-- Scenario (C1/C2 witnesses): two vnics — the default one with the port
filter, and vnic 1 (hardware id 10) carrying one installed flow (flow id 0,
filter id 1). -/
def c1S : BnxtSt :=
  { vnics := [{ fw_vnic_id := some 50, rx_queue_cnt := 1, func_default := true,
                filterIds := [0], fw_grp_ids := [some 7, none] },
              { fw_vnic_id := some 10, rx_queue_cnt := 1, start_grp_id := 1,
                filterIds := [1], flowIds := [0] }],
    rxqs := [{ vnicIdx := 0, rx_started := true },
             { vnicIdx := 1, rx_started := true }],
    filters := [(0, c3F0Filter), (1, c1FlowFilter)],
    flows := [(0, { filterId := 1, vnicIdx := some 1 })],
    nextFilterId := 2, nextFlowId := 1, nextFwId := 13, nr_vnics := 2 }

/-- Scenario (C2 witness): a vnic with hardware id 20 available as the new
destination, added to `c1S`. -/
def c2S : BnxtSt :=
  { c1S with
    vnics := c1S.vnics ++ [{ fw_vnic_id := some 20, rx_queue_cnt := 1,
                             start_grp_id := 2 }],
    rxqs := c1S.rxqs ++ [{ vnicIdx := 2, rx_started := true }] }

/-- Scenario (C2 witness): the same compiled Match Descriptor re-targeted
at the vnic with hardware id 20. -/
def c2Nf : FilterInfo := { c1FlowFilter with dst_id := 20 }

/-- Side effects of the action handlers' vnic bookkeeping: the flow and
filter arenas, every vnic's flow list and filter list, and the vnic count
are untouched. -/
def vnicSidePres (s t : BnxtSt) : Prop :=
  t.flows = s.flows ∧ t.filters = s.filters ∧
  t.vnics.length = s.vnics.length ∧
  (∀ j, (vGet t j).flowIds = (vGet s j).flowIds) ∧
  (∀ j, (vGet t j).filterIds = (vGet s j).filterIds)

/-- The persistent flow state of claim C7: the flow arena and every
Receive Context's flow list. -/
def flowSidePres (s t : BnxtSt) : Prop :=
  t.flows = s.flows ∧ ∀ j, (vGet t j).flowIds = (vGet s j).flowIds

/-- What a successful action handler guarantees about the filter arena:
either no shared L2 filter was referenced (the compiled filter carries no
`matching_l2_fltr_ptr` and the arena is unchanged), or exactly one arena
filter had its reference count bumped and the compiled filter records it
with a live hardware id. -/
def okArenaInv (s : BnxtSt) (r : Except BnxtErr ActOk × BnxtSt) : Prop :=
  ∀ a, r.1 = Except.ok a →
    (a.filter.matching_l2_fltr_ptr = none ∧ r.2.filters = s.filters) ∨
    (∃ fid, a.filter.matching_l2_fltr_ptr = some fid ∧
      a.filter.fw_l2_filter_id.isSome = true ∧
      (s.filters.lookup fid).isSome = true ∧
      r.2.filters = (fSet s fid
        { fGet s fid with
          l2_ref_cnt := (fGet s fid).l2_ref_cnt + 1 }).filters)

/-! ## Theorems -/

/-- Bind on an `Except.ok` reduces. -/
theorem except_bind_ok {ε α β : Type} (a : α) (f : α → Except ε β) :
    ((Except.ok a : Except ε α) >>= f) = f a := rfl

/-- Bind on an `Except.error` short-circuits. -/
theorem except_bind_error {ε α β : Type} (e : ε) (f : α → Except ε β) :
    ((Except.error e : Except ε α) >>= f) = Except.error e := rfl

/-- A failed computation stays failed under bind. -/
theorem except_bind_isOk_false {ε α β : Type} (x : Except ε α)
    (f : α → Except ε β) (hx : x.isOk = false) : (x >>= f).isOk = false := by
  cases x with
  | error e => rfl
  | ok a => simp [Except.isOk, Except.toBool] at hx

/-- A bad-mask item is never a void placeholder. -/
theorem badMaskItem_not_void {i : FlowItem} (h : badMaskItem i = true) :
    i.isVoid = false := by
  cases i <;> simp_all [badMaskItem, FlowItem.isVoid]

/-- Non-void members survive the leading-void strip. -/
theorem mem_dropWhile_void {i : FlowItem} {l : List FlowItem}
    (hm : i ∈ l) (hv : i.isVoid = false) :
    i ∈ l.dropWhile FlowItem.isVoid := by
  induction l with
  | nil => cases hm
  | cons a t ih =>
      by_cases ha : a.isVoid = true
      · rw [List.dropWhile_cons_of_pos ha]
        rcases List.mem_cons.mp hm with rfl | hit
        · rw [ha] at hv; cases hv
        · exact ih hit
      · rw [List.dropWhile_cons_of_neg (by simpa using ha)]
        exact hm

/-- The ETH case rejects a bad mask. -/
theorem parseEthItem_isOk_of_bad (attr : FlowAttr) (u e : Nat)
    (sp m : EthSpecC) (st : PSt)
    (h : ((!m.src.isZero && !m.src.isBroadcast) ||
          (!m.dst.isZero && !m.dst.isBroadcast) ||
          (m.typ != 0 && m.typ != 0xffff)) = true) :
    (parseEthItem attr u e sp m st).isOk = false := by
  unfold parseEthItem
  rcases Bool.eq_false_or_eq_true
      ((!m.src.isZero && !m.src.isBroadcast) ||
       (!m.dst.isZero && !m.dst.isBroadcast)) with h1 | h1
  · simp only [h1]
    rfl
  · have h2 : (m.typ != 0 && m.typ != 0xffff) = true := by
      rw [h1] at h
      simpa using h
    simp only [h1, h2]
    rfl

/-- The IPv4 case rejects a mask on a non-address field. -/
theorem parseIpv4Item_isOk_of_bad (u : Nat) (sp m : Ipv4SpecC) (st : PSt)
    (h : (m.version_ihl != 0 || m.type_of_service != 0 || m.total_length != 0 ||
          m.packet_id != 0 || m.fragment_offset != 0 || m.time_to_live != 0 ||
          m.next_proto_id != 0 || m.hdr_checksum != 0) = true) :
    (parseIpv4Item u sp m st).isOk = false := by
  unfold parseIpv4Item
  simp only [h]
  rfl

/-- The IPv6 case rejects a mask on a non-address field. -/
theorem parseIpv6Item_isOk_of_bad (u : Nat) (sp m : Ipv6SpecC) (st : PSt)
    (h : (m.vtc_flow != 0 || m.payload_len != 0 || m.proto != 0 ||
          m.hop_limits != 0) = true) :
    (parseIpv6Item u sp m st).isOk = false := by
  unfold parseIpv6Item
  simp only [h]
  rfl

/-- The TCP case rejects a mask on a non-port field. -/
theorem parseTcpItem_isOk_of_bad (u : Nat) (sp m : TcpSpecC) (st : PSt)
    (h : (m.sent_seq != 0 || m.recv_ack != 0 || m.data_off != 0 ||
          m.tcp_flags != 0 || m.rx_win != 0 || m.cksum != 0 ||
          m.tcp_urp != 0) = true) :
    (parseTcpItem u sp m st).isOk = false := by
  unfold parseTcpItem
  simp only [h]
  rfl

/-- The UDP case rejects a mask on a non-port field. -/
theorem parseUdpItem_isOk_of_bad (u : Nat) (sp m : UdpSpecC) (st : PSt)
    (h : (m.dgram_len != 0 || m.dgram_cksum != 0) = true) :
    (parseUdpItem u sp m st).isOk = false := by
  unfold parseUdpItem
  simp only [h]
  rfl

/-- A bad-mask item with its spec present makes the switch step fail. -/
theorem parseItemStep_isOk_of_bad (bp : BpCfg) (attr : FlowAttr) (u e : Nat)
    {i : FlowItem} (st : PSt) (h : badMaskItem i = true)
    (hsp : i.specPresent = true) :
    (parseItemStep bp attr u e i st).isOk = false := by
  cases i with
  | eth sp mk l =>
      cases mk with
      | none => simp [badMaskItem] at h
      | some m =>
          cases sp with
          | none => simp [FlowItem.specPresent] at hsp
          | some s =>
              simp only [badMaskItem] at h
              exact parseEthItem_isOk_of_bad attr u e s m st h
  | ipv4 sp mk l =>
      cases mk with
      | none => simp [badMaskItem] at h
      | some m =>
          cases sp with
          | none => simp [FlowItem.specPresent] at hsp
          | some s =>
              simp only [badMaskItem] at h
              exact parseIpv4Item_isOk_of_bad u s m st h
  | ipv6 sp mk l =>
      cases mk with
      | none => simp [badMaskItem] at h
      | some m =>
          cases sp with
          | none => simp [FlowItem.specPresent] at hsp
          | some s =>
              simp only [badMaskItem] at h
              exact parseIpv6Item_isOk_of_bad u s m st h
  | tcp sp mk l =>
      cases mk with
      | none => simp [badMaskItem] at h
      | some m =>
          cases sp with
          | none => simp [FlowItem.specPresent] at hsp
          | some s =>
              simp only [badMaskItem] at h
              exact parseTcpItem_isOk_of_bad u s m st h
  | udp sp mk l =>
      cases mk with
      | none => simp [badMaskItem] at h
      | some m =>
          cases sp with
          | none => simp [FlowItem.specPresent] at hsp
          | some s =>
              simp only [badMaskItem] at h
              exact parseUdpItem_isOk_of_bad u s m st h
  | void => exact absurd h (by simp [badMaskItem])
  | anyi sp mk l => exact absurd h (by simp [badMaskItem])
  | vlan sp mk l => exact absurd h (by simp [badMaskItem])
  | vxlan sp mk l => exact absurd h (by simp [badMaskItem])
  | nvgre sp mk l => exact absurd h (by simp [badMaskItem])
  | gre sp mk l => exact absurd h (by simp [badMaskItem])
  | vf sp mk l => exact absurd h (by simp [badMaskItem])
  | other sp mk l => exact absurd h (by simp [badMaskItem])

/-- The item loop fails whenever some item of the list is bad. -/
theorem parseItems_isOk_of_bad (bp : BpCfg) (attr : FlowAttr) (u e : Nat) :
    ∀ (l : List FlowItem) (st : PSt), (∃ i ∈ l, badMaskItem i = true) →
    (parseItems bp attr u e l st).isOk = false := by
  intro l
  induction l with
  | nil => rintro st ⟨i, hi, _⟩; cases hi
  | cons a t ih =>
      rintro st ⟨i, hi, hbad⟩
      unfold parseItems
      rcases Bool.eq_false_or_eq_true a.hasLast with hl | hl
      case inl => simp only [hl]; rfl
      rcases Bool.eq_false_or_eq_true (!a.specPresent || !a.maskPresent) with hsm | hsm
      case inl => simp only [hl, hsm]; rfl
      have hsp : a.specPresent = true := by
        rcases Bool.eq_false_or_eq_true a.specPresent with hx | hx
        · exact hx
        · rw [hx] at hsm; simp at hsm
      rcases List.mem_cons.mp hi with heq | hit
      · rw [heq] at hbad
        have hstep := parseItemStep_isOk_of_bad bp attr u e st hbad hsp
        cases hs : parseItemStep bp attr u e a st with
        | error err => simp only [hl, hsm, hs]; rfl
        | ok st' => rw [hs] at hstep; simp [Except.isOk, Except.toBool] at hstep
      · cases hs : parseItemStep bp attr u e a st with
        | error err => simp only [hl, hsm, hs]; rfl
        | ok st' =>
            have hrec := ih st' ⟨i, hit, hbad⟩
            simp only [hl, hsm, hs]
            exact hrec

/-- Claim C4: any partial MAC mask, non-exact ethertype mask, IPv4/IPv6 mask
on a non-address header field, or TCP/UDP mask on a non-port field anywhere
in the pattern makes the Field Extractor reject the pattern, so a
successfully compiled Match Descriptor never carries such a mask. -/
theorem c4_partial_mask_rejected (bp : BpCfg) (attr : FlowAttr)
    (pattern : List FlowItem) (f : FilterInfo)
    (h : ∃ i ∈ pattern, badMaskItem i = true) :
    (bnxt_validate_and_parse_flow_type bp attr pattern f).isOk = false := by
  unfold bnxt_validate_and_parse_flow_type
  cases hftc : bnxt_filter_type_check pattern with
  | error err => simp only [hftc, except_bind_error]; rfl
  | ok u =>
      obtain ⟨i, hi, hbad⟩ := h
      simp only [hftc, except_bind_ok]
      apply except_bind_isOk_false
      exact parseItems_isOk_of_bad _ _ _ _ _ _
        ⟨i, mem_dropWhile_void hi (badMaskItem_not_void hbad), hbad⟩

/-- Witness for C4 at a concrete input: a pattern with a partially-masked
source MAC is rejected. -/
theorem c4_partial_mask_rejected_witness :
    (bnxt_validate_and_parse_flow_type {} {}
      [FlowItem.eth (some {}) (some { src := ⟨1, 0, 0, 0, 0, 0⟩ }) false]
      {}).isOk = false :=
  c4_partial_mask_rejected {} {} _ {} (by decide)

/-- Claim C5 (code-bug evidence): a VXLAN/NVGRE/GRE matcher with both spec
and mask absent — which the in-case comments ("If VXLAN item is used to
describe protocol, both spec and mask should be NULL") and the matching
both-null branches of the switch are written to accept as a generic
tunnel-type match — is instead rejected by the loop's blanket spec/mask
null check at the top of the item loop, which runs before the tunnel case
is reached; no tunnel type is ever recorded.  (An item with exactly one of
spec/mask present is rejected by the same check, as the claim states.) -/
theorem c5_tunnel_protocol_item_rejected_bug :
    bnxt_validate_and_parse_flow_type {} {} [FlowItem.vxlan none none false] {} =
      Except.error BnxtErr.specMaskNull ∧
    bnxt_validate_and_parse_flow_type {} {} [FlowItem.nvgre none none false] {} =
      Except.error BnxtErr.specMaskNull ∧
    bnxt_validate_and_parse_flow_type {} {} [FlowItem.gre none none false] {} =
      Except.error BnxtErr.specMaskNull ∧
    bnxt_validate_and_parse_flow_type {} {}
      [FlowItem.vxlan (some {}) none false] {} =
      Except.error BnxtErr.specMaskNull := by
  refine ⟨?_, ?_, ?_, ?_⟩ <;> rfl

/-- The `bnxt_filter_type_check` loop computes: `use_ntuple` ends 0 exactly
when the last filter-relevant matcher is a plain L2 one, 1 when it is an
L3/L4 one, and keeps its (0/1) starting value otherwise; `has_vlan`
accumulates the presence of a VLAN matcher. -/
theorem ftc_loop_spec (l : List FlowItem) :
    ∀ (u : Nat) (v : Bool), (u = 0 ∨ u = 1) →
    bnxt_filter_type_check_loop l u v =
      ((match lastRelevantKind l with
        | some false => 0
        | some true => 1
        | none => u), (v || hasVlanItem l)) := by
  induction l with
  | nil =>
      intro u v _
      simp [bnxt_filter_type_check_loop, lastRelevantKind, hasVlanItem]
  | cons i rest ih =>
      intro u v hu
      cases i with
      | anyi sp mk lt =>
          simp only [bnxt_filter_type_check_loop]
          rw [ih 0 v (Or.inl rfl)]
          cases hrel : lastRelevantKind rest with
          | none =>
              simp [lastRelevantKind, hrel, hasVlanItem, List.any_cons,
                FlowItem.isVlanItem, FlowItem.isL2Kind, FlowItem.isL34Kind]
          | some b =>
              cases b <;>
                simp [lastRelevantKind, hrel, hasVlanItem, List.any_cons,
                  FlowItem.isVlanItem, FlowItem.isL2Kind, FlowItem.isL34Kind]
      | eth sp mk lt =>
          simp only [bnxt_filter_type_check_loop]
          rw [ih 0 v (Or.inl rfl)]
          cases hrel : lastRelevantKind rest with
          | none =>
              simp [lastRelevantKind, hrel, hasVlanItem, List.any_cons,
                FlowItem.isVlanItem, FlowItem.isL2Kind, FlowItem.isL34Kind]
          | some b =>
              cases b <;>
                simp [lastRelevantKind, hrel, hasVlanItem, List.any_cons,
                  FlowItem.isVlanItem, FlowItem.isL2Kind, FlowItem.isL34Kind]
      | vlan sp mk lt =>
          simp only [bnxt_filter_type_check_loop]
          rw [ih 0 true (Or.inl rfl)]
          cases hrel : lastRelevantKind rest with
          | none =>
              simp [lastRelevantKind, hrel, hasVlanItem, List.any_cons,
                FlowItem.isVlanItem, FlowItem.isL2Kind, FlowItem.isL34Kind]
          | some b =>
              cases b <;>
                simp [lastRelevantKind, hrel, hasVlanItem, List.any_cons,
                  FlowItem.isVlanItem, FlowItem.isL2Kind, FlowItem.isL34Kind]
      | ipv4 sp mk lt =>
          simp only [bnxt_filter_type_check_loop]
          rw [ih (u ||| 1) v (by rcases hu with rfl | rfl <;> exact Or.inr rfl)]
          cases hrel : lastRelevantKind rest with
          | none =>
              rcases hu with rfl | rfl <;>
                simp [lastRelevantKind, hrel, hasVlanItem, List.any_cons,
                  FlowItem.isVlanItem, FlowItem.isL2Kind, FlowItem.isL34Kind]
          | some b =>
              cases b <;>
                simp [lastRelevantKind, hrel, hasVlanItem, List.any_cons,
                  FlowItem.isVlanItem, FlowItem.isL2Kind, FlowItem.isL34Kind]
      | ipv6 sp mk lt =>
          simp only [bnxt_filter_type_check_loop]
          rw [ih (u ||| 1) v (by rcases hu with rfl | rfl <;> exact Or.inr rfl)]
          cases hrel : lastRelevantKind rest with
          | none =>
              rcases hu with rfl | rfl <;>
                simp [lastRelevantKind, hrel, hasVlanItem, List.any_cons,
                  FlowItem.isVlanItem, FlowItem.isL2Kind, FlowItem.isL34Kind]
          | some b =>
              cases b <;>
                simp [lastRelevantKind, hrel, hasVlanItem, List.any_cons,
                  FlowItem.isVlanItem, FlowItem.isL2Kind, FlowItem.isL34Kind]
      | tcp sp mk lt =>
          simp only [bnxt_filter_type_check_loop]
          rw [ih (u ||| 1) v (by rcases hu with rfl | rfl <;> exact Or.inr rfl)]
          cases hrel : lastRelevantKind rest with
          | none =>
              rcases hu with rfl | rfl <;>
                simp [lastRelevantKind, hrel, hasVlanItem, List.any_cons,
                  FlowItem.isVlanItem, FlowItem.isL2Kind, FlowItem.isL34Kind]
          | some b =>
              cases b <;>
                simp [lastRelevantKind, hrel, hasVlanItem, List.any_cons,
                  FlowItem.isVlanItem, FlowItem.isL2Kind, FlowItem.isL34Kind]
      | udp sp mk lt =>
          simp only [bnxt_filter_type_check_loop]
          rw [ih (u ||| 1) v (by rcases hu with rfl | rfl <;> exact Or.inr rfl)]
          cases hrel : lastRelevantKind rest with
          | none =>
              rcases hu with rfl | rfl <;>
                simp [lastRelevantKind, hrel, hasVlanItem, List.any_cons,
                  FlowItem.isVlanItem, FlowItem.isL2Kind, FlowItem.isL34Kind]
          | some b =>
              cases b <;>
                simp [lastRelevantKind, hrel, hasVlanItem, List.any_cons,
                  FlowItem.isVlanItem, FlowItem.isL2Kind, FlowItem.isL34Kind]
      | void =>
          simp only [bnxt_filter_type_check_loop]
          rw [ih u v hu]
          cases hrel : lastRelevantKind rest with
          | none =>
              simp [lastRelevantKind, hrel, hasVlanItem, List.any_cons,
                FlowItem.isVlanItem, FlowItem.isL2Kind, FlowItem.isL34Kind]
          | some b =>
              cases b <;>
                simp [lastRelevantKind, hrel, hasVlanItem, List.any_cons,
                  FlowItem.isVlanItem, FlowItem.isL2Kind, FlowItem.isL34Kind]
      | vxlan sp mk lt =>
          simp only [bnxt_filter_type_check_loop]
          rw [ih u v hu]
          cases hrel : lastRelevantKind rest with
          | none =>
              simp [lastRelevantKind, hrel, hasVlanItem, List.any_cons,
                FlowItem.isVlanItem, FlowItem.isL2Kind, FlowItem.isL34Kind]
          | some b =>
              cases b <;>
                simp [lastRelevantKind, hrel, hasVlanItem, List.any_cons,
                  FlowItem.isVlanItem, FlowItem.isL2Kind, FlowItem.isL34Kind]
      | nvgre sp mk lt =>
          simp only [bnxt_filter_type_check_loop]
          rw [ih u v hu]
          cases hrel : lastRelevantKind rest with
          | none =>
              simp [lastRelevantKind, hrel, hasVlanItem, List.any_cons,
                FlowItem.isVlanItem, FlowItem.isL2Kind, FlowItem.isL34Kind]
          | some b =>
              cases b <;>
                simp [lastRelevantKind, hrel, hasVlanItem, List.any_cons,
                  FlowItem.isVlanItem, FlowItem.isL2Kind, FlowItem.isL34Kind]
      | gre sp mk lt =>
          simp only [bnxt_filter_type_check_loop]
          rw [ih u v hu]
          cases hrel : lastRelevantKind rest with
          | none =>
              simp [lastRelevantKind, hrel, hasVlanItem, List.any_cons,
                FlowItem.isVlanItem, FlowItem.isL2Kind, FlowItem.isL34Kind]
          | some b =>
              cases b <;>
                simp [lastRelevantKind, hrel, hasVlanItem, List.any_cons,
                  FlowItem.isVlanItem, FlowItem.isL2Kind, FlowItem.isL34Kind]
      | vf sp mk lt =>
          simp only [bnxt_filter_type_check_loop]
          rw [ih u v hu]
          cases hrel : lastRelevantKind rest with
          | none =>
              simp [lastRelevantKind, hrel, hasVlanItem, List.any_cons,
                FlowItem.isVlanItem, FlowItem.isL2Kind, FlowItem.isL34Kind]
          | some b =>
              cases b <;>
                simp [lastRelevantKind, hrel, hasVlanItem, List.any_cons,
                  FlowItem.isVlanItem, FlowItem.isL2Kind, FlowItem.isL34Kind]
      | other sp mk lt =>
          simp only [bnxt_filter_type_check_loop]
          rw [ih u v hu]
          cases hrel : lastRelevantKind rest with
          | none =>
              simp [lastRelevantKind, hrel, hasVlanItem, List.any_cons,
                FlowItem.isVlanItem, FlowItem.isL2Kind, FlowItem.isL34Kind]
          | some b =>
              cases b <;>
                simp [lastRelevantKind, hrel, hasVlanItem, List.any_cons,
                  FlowItem.isVlanItem, FlowItem.isL2Kind, FlowItem.isL34Kind]

/-- Stripping leading voids does not change the last relevant matcher. -/
theorem lastRelevantKind_dropWhile (l : List FlowItem) :
    lastRelevantKind (l.dropWhile FlowItem.isVoid) = lastRelevantKind l := by
  induction l with
  | nil => rfl
  | cons i t ih =>
      by_cases hv : i.isVoid = true
      · have hi : i = FlowItem.void := by
          cases i <;> simp_all [FlowItem.isVoid]
        subst hi
        rw [List.dropWhile_cons_of_pos (by rfl), ih]
        cases hrel : lastRelevantKind t with
        | none =>
            simp [lastRelevantKind, hrel, FlowItem.isL2Kind, FlowItem.isL34Kind]
        | some b =>
            simp [lastRelevantKind, hrel, FlowItem.isL2Kind, FlowItem.isL34Kind]
      · rw [List.dropWhile_cons_of_neg (by simpa using hv)]

/-- Stripping leading voids does not change VLAN presence. -/
theorem hasVlanItem_dropWhile (l : List FlowItem) :
    hasVlanItem (l.dropWhile FlowItem.isVoid) = hasVlanItem l := by
  induction l with
  | nil => rfl
  | cons i t ih =>
      by_cases hv : i.isVoid = true
      · have hi : i = FlowItem.void := by
          cases i <;> simp_all [FlowItem.isVoid]
        subst hi
        rw [List.dropWhile_cons_of_pos (by rfl), ih]
        simp [hasVlanItem, List.any_cons, FlowItem.isVlanItem]
      · rw [List.dropWhile_cons_of_neg (by simpa using hv)]

/-- Claim C6: `bnxt_filter_type_check` selects the ntuple kind (`.ok 1`)
unless the pattern's last filter-relevant matcher is a plain
Ethernet/Any/VLAN one with no later IPv4/IPv6/TCP/UDP refinement, in which
case it selects exact-match (`.ok 0`); and when a VLAN matcher is present
while the tuple kind would be selected, it returns an error instead. -/
theorem c6_filter_type_check_spec (pattern : List FlowItem) :
    bnxt_filter_type_check pattern =
      (if hasVlanItem pattern && !(lastRelevantKind pattern == some false) then
        Except.error BnxtErr.cannotUseVlanWithNtuple
       else if lastRelevantKind pattern == some false then Except.ok 0
       else Except.ok 1) := by
  simp only [bnxt_filter_type_check]
  rw [ftc_loop_spec _ 1 false (Or.inr rfl), lastRelevantKind_dropWhile,
      hasVlanItem_dropWhile]
  cases hrel : lastRelevantKind pattern with
  | none => simp
  | some b => cases b <;> simp

end BnxtFlow

namespace BnxtFlow

/-- Claim C10: a Queue action with queue index 0 is rejected by both
`validate` and `create` with the invalid-queue error and no state change,
regardless of how many receive queues the device has, whenever the pattern
and attributes themselves compile (queue 0 is reserved for the default
context and never usable as a flow destination). -/
theorem c10_queue_zero_rejected (s : BnxtSt) (bp : BpCfg) (attr : FlowAttr)
    (pattern : List FlowItem) (actions : List FlowAction)
    (rest : List FlowAction) (f : FilterInfo)
    (hp : bnxt_validate_and_parse_flow_type bp attr pattern {} = Except.ok f)
    (ha : bnxt_flow_parse_attr attr = Except.ok ())
    (hact : actions.dropWhile FlowAction.isVoid = FlowAction.queue 0 :: rest)
    (hg1 : (bp.vfFlag && !bp.trusted_vf) = false)
    (hg2 : bp.dev_started = true) :
    bnxt_flow_validate s bp attr pattern actions =
      (Except.error BnxtErr.invalidQueue, s) ∧
    bnxt_flow_create s bp attr pattern actions =
      (CreateResult.failed BnxtErr.invalidQueue, s) := by
  have hcore : bnxt_validate_and_parse_flow s bp attr pattern actions =
      (Except.error BnxtErr.invalidQueue, s) := by
    simp only [bnxt_validate_and_parse_flow, hp, ha, hact, queueAction,
      List.headD]
    rfl
  constructor
  · simp only [bnxt_flow_validate, hcore]
  · simp only [bnxt_flow_create, hg1, hg2, Bool.false_eq_true, if_false,
      hcore]
    rfl

/-- Witness for C10 at concrete inputs: queue 0 on a four-ring device. -/
theorem c10_queue_zero_rejected_witness :
    bnxt_flow_validate c3S0 c3Bp c3Attr (c3Pattern 0) [FlowAction.queue 0] =
      (Except.error BnxtErr.invalidQueue, c3S0) ∧
    bnxt_flow_create c3S0 c3Bp c3Attr (c3Pattern 0) [FlowAction.queue 0] =
      (CreateResult.failed BnxtErr.invalidQueue, c3S0) :=
  c10_queue_zero_rejected c3S0 c3Bp c3Attr (c3Pattern 0) _ [] _
    rfl rfl rfl rfl rfl

end BnxtFlow

namespace BnxtFlow

/-- Membership in the duplicate-detection scan is exactly being an
installed flow (paired with its vnic's index). -/
theorem mem_matchScan (s : BnxtSt) (i flid : Nat) :
    ((i, flid) ∈ matchScan s) ↔
      (i < s.vnics.length ∧ (vGet s i).fw_vnic_id.isSome = true ∧
       flid ∈ (vGet s i).flowIds) := by
  simp only [matchScan, List.mem_flatMap, List.mem_filter, List.mem_reverse,
    List.mem_range, List.mem_map, Prod.mk.injEq]
  constructor
  · rintro ⟨a, ⟨ha, hv⟩, x, hx, rfl, rfl⟩
    exact ⟨ha, hv, hx⟩
  · rintro ⟨hi, hv, hx⟩
    exact ⟨i, ⟨hi, hv⟩, flid, hx, rfl, rfl⟩

/-- The spec-modelled L2 clear only touches the filter arena. -/
theorem clear_l2_state (s : BnxtSt) (f : FilterInfo) :
    (bnxt_hwrm_clear_l2_filter s f).2.vnics = s.vnics ∧
    (bnxt_hwrm_clear_l2_filter s f).2.flows = s.flows := by
  unfold bnxt_hwrm_clear_l2_filter
  split
  · exact ⟨rfl, rfl⟩
  · split
    · dsimp only
      split <;> exact ⟨rfl, rfl⟩
    · dsimp only
      split <;> exact ⟨rfl, rfl⟩

/-- Claim C1: a create whose compiled Match Descriptor is field-for-field
identical (in the full comparison `bnxt_match_filter` performs) to that of
an installed flow F, with the same destination — given that every installed
flow matching those fields shares that destination, as holds whenever F is
the unique flow for the pattern — fails with the duplicate-rule (EEXIST)
error; no flow is added or removed from any flow list, the flow arena is
untouched, and F remains installed. -/
theorem c1_duplicate_create_rejected (s : BnxtSt) (bp : BpCfg)
    (nf : FilterInfo) (flid : Nat)
    (hin : InstalledFlow s flid)
    (hmatch : filtersMatch (fGet s (flowGet s flid).filterId) nf = true)
    (hall : ∀ g, InstalledFlow s g →
      filtersMatch (fGet s (flowGet s g).filterId) nf = true →
      (fGet s (flowGet s g).filterId).dst_id = nf.dst_id) :
    (bnxt_flow_create_compiled s bp nf).1 =
      CreateResult.failed BnxtErr.duplicateRule ∧
    (bnxt_flow_create_compiled s bp nf).2.flows = s.flows ∧
    (∀ j, (vGet (bnxt_flow_create_compiled s bp nf).2 j).flowIds =
      (vGet s j).flowIds) ∧
    InstalledFlow (bnxt_flow_create_compiled s bp nf).2 flid := by
  obtain ⟨i, hi, hv, hmem⟩ := hin
  have hscanmem : (i, flid) ∈ matchScan s :=
    (mem_matchScan s i flid).mpr ⟨hi, hv, hmem⟩
  cases hfind : (matchScan s).find?
      (fun p => filtersMatch (fGet s (flowGet s p.2).filterId) nf) with
  | none =>
      exfalso
      have := List.find?_eq_none.mp hfind (i, flid) hscanmem
      exact this hmatch
  | some q =>
      have hqmem : q ∈ matchScan s := List.mem_of_find?_eq_some hfind
      have hqpred : filtersMatch (fGet s (flowGet s q.2).filterId) nf = true := by
        have h0 := List.find?_some hfind
        simpa using h0
      have hqin : InstalledFlow s q.2 := by
        obtain ⟨h1, h2, h3⟩ := (mem_matchScan s q.1 q.2).mp hqmem
        exact ⟨q.1, h1, h2, h3⟩
      have hqdst : (fGet s (flowGet s q.2).filterId).dst_id = nf.dst_id :=
        hall q.2 hqin hqpred
      have hmf : bnxt_match_filter s nf = (MatchRes.exist, s) := by
        unfold bnxt_match_filter
        rw [hfind]
        cases q with
        | mk vi fl2 =>
            simp only
            rw [if_pos (by simpa using hqdst)]
      have hcc : bnxt_flow_create_compiled s bp nf =
          (CreateResult.failed BnxtErr.duplicateRule,
           (bnxt_hwrm_clear_l2_filter s nf).2) := by
        unfold bnxt_flow_create_compiled
        rw [hmf]
      rw [hcc]
      obtain ⟨hvn, hfl⟩ := clear_l2_state s nf
      refine ⟨rfl, hfl, ?_, ?_⟩
      · intro j
        simp only [vGet, hvn]
      · exact ⟨i, by simpa only [vGet, hvn] using ⟨hi, hv, hmem⟩⟩

end BnxtFlow

namespace BnxtFlow

/-- Witness for C1 at concrete inputs: re-creating the installed rule of
`c1S` is rejected as a duplicate and the table is unchanged. -/
theorem c1_duplicate_create_rejected_witness :
    (bnxt_flow_create_compiled c1S c3Bp c1FlowFilter).1 =
      CreateResult.failed BnxtErr.duplicateRule ∧
    (bnxt_flow_create_compiled c1S c3Bp c1FlowFilter).2.flows = c1S.flows ∧
    (∀ j, (vGet (bnxt_flow_create_compiled c1S c3Bp c1FlowFilter).2 j).flowIds =
      (vGet c1S j).flowIds) ∧
    InstalledFlow (bnxt_flow_create_compiled c1S c3Bp c1FlowFilter).2 0 :=
  c1_duplicate_create_rejected c1S c3Bp c1FlowFilter 0
    ⟨1, by decide, by decide, by decide⟩
    (by decide)
    (by
      rintro g ⟨i, hi, hv, hmem⟩ hm
      have hi2 : i < 2 := by simpa [c1S] using hi
      interval_cases i
      · simp [c1S, vGet] at hmem
      · have hg : g = 0 := by simpa [c1S, vGet] using hmem
        subst hg
        decide)

end BnxtFlow

namespace BnxtFlow

/-- `getD` after `set` at the written index. -/
theorem list_getD_set_self {α : Type} (l : List α) (i : Nat) (a d : α)
    (h : i < l.length) : (l.set i a).getD i d = a := by
  induction l generalizing i with
  | nil => cases h
  | cons x t ih =>
      cases i with
      | zero => rfl
      | succ n => exact ih n (Nat.lt_of_succ_lt_succ h)

/-- `getD` after `set` at another index. -/
theorem list_getD_set_ne {α : Type} (l : List α) (i j : Nat) (a d : α)
    (h : i ≠ j) : (l.set i a).getD j d = l.getD j d := by
  induction l generalizing i j with
  | nil => rfl
  | cons x t ih =>
      cases i with
      | zero =>
          cases j with
          | zero => exact absurd rfl h
          | succ m => rfl
      | succ n =>
          cases j with
          | zero => rfl
          | succ m => exact ih n m (fun hh => h (by rw [hh]))

/-- Lookup after a pointwise key-preserving overwrite, at the written key. -/
theorem lookup_map_set_self {β : Type} (l : List (Nat × β)) (k : Nat) (b : β)
    (h : (l.lookup k).isSome = true) :
    ((l.map (fun p => if p.1 == k then (k, b) else p)).lookup k) = some b := by
  induction l with
  | nil => simp [List.lookup] at h
  | cons p t ih =>
      obtain ⟨pk, pb⟩ := p
      by_cases hpk : pk = k
      · subst hpk
        rw [List.map_cons, if_pos (by simp)]
        simp [List.lookup]
      · have hsc : (k == pk) = false := by
          simpa using fun hh => hpk hh.symm
        rw [List.map_cons, if_neg (by simpa using hpk)]
        simp only [List.lookup, hsc] at h ⊢
        exact ih h

/-- Lookup after a pointwise key-preserving overwrite, at another key. -/
theorem lookup_map_set_ne {β : Type} (l : List (Nat × β)) (k a : Nat) (b : β)
    (h : a ≠ k) :
    ((l.map (fun p => if p.1 == k then (k, b) else p)).lookup a) =
      l.lookup a := by
  induction l with
  | nil => rfl
  | cons p t ih =>
      obtain ⟨pk, pb⟩ := p
      by_cases hpk : pk = k
      · subst hpk
        have hak : (a == pk) = false := by simpa using h
        rw [List.map_cons, if_pos (by simp)]
        simp only [List.lookup, hak]
        exact ih
      · rw [List.map_cons, if_neg (by simpa using hpk)]
        simp only [List.lookup]
        cases hap : a == pk with
        | true => rfl
        | false => exact ih

/-- Lookup is unchanged by dropping entries with a different key. -/
theorem lookup_filter_ne {β : Type} (l : List (Nat × β)) (k a : Nat)
    (h : a ≠ k) :
    ((l.filter (fun p => p.1 != k)).lookup a) = l.lookup a := by
  induction l with
  | nil => rfl
  | cons p t ih =>
      obtain ⟨pk, pb⟩ := p
      by_cases hpk : pk = k
      · subst hpk
        rw [List.filter_cons_of_neg (by simp)]
        have hak : (a == pk) = false := by simpa using h
        simp only [List.lookup, hak]
        exact ih
      · rw [List.filter_cons_of_pos (by simpa using hpk)]
        simp only [List.lookup]
        cases hap : a == pk with
        | true => rfl
        | false => exact ih

/-- A key absent from every entry yields no lookup result. -/
theorem lookup_none_of_forall {β : Type} (l : List (Nat × β)) (a : Nat)
    (h : ∀ p ∈ l, p.1 ≠ a) : l.lookup a = none := by
  induction l with
  | nil => rfl
  | cons p t ih =>
      obtain ⟨pk, pb⟩ := p
      have hne : pk ≠ a := h (pk, pb) (List.mem_cons_self _ _)
      have hap : (a == pk) = false := by
        simpa using fun hh => hne hh.symm
      simp only [List.lookup, hap]
      exact ih (fun q hq => h q (List.mem_cons_of_mem _ hq))

/-- Lookup over an append when the first part misses. -/
theorem lookup_append_of_none {β : Type} (l1 l2 : List (Nat × β)) (a : Nat)
    (h : l1.lookup a = none) : ((l1 ++ l2).lookup a) = l2.lookup a := by
  induction l1 with
  | nil => rfl
  | cons p t ih =>
      obtain ⟨pk, pb⟩ := p
      simp only [List.cons_append, List.lookup] at h ⊢
      cases hap : a == pk with
      | true => rw [hap] at h; cases h
      | false => rw [hap] at h; exact ih h

/-- A successful lookup means the key occurs. -/
theorem lookup_isSome_mem {β : Type} (l : List (Nat × β)) (a : Nat)
    (h : (l.lookup a).isSome = true) : a ∈ l.map Prod.fst := by
  induction l with
  | nil => simp [List.lookup] at h
  | cons p t ih =>
      obtain ⟨pk, pb⟩ := p
      simp only [List.lookup] at h
      cases hap : a == pk with
      | true =>
          have : a = pk := by simpa using hap
          simp [this]
      | false =>
          rw [hap] at h
          simp only [List.map_cons, List.mem_cons]
          exact Or.inr (ih h)

/-- `fSet` keeps the arena's keys. -/
theorem fSet_keys (s : BnxtSt) (fid : Nat) (f : FilterInfo) :
    (fSet s fid f).filters.map Prod.fst = s.filters.map Prod.fst := by
  simp only [fSet, List.map_map]
  apply List.map_congr_left
  intro p _
  by_cases h : p.1 == fid
  · simp only [Function.comp, h, if_pos]
    have : p.1 = fid := by simpa using h
    exact this.symm
  · simp [Function.comp, h]

/-- `flowSet` keeps the flow arena's keys. -/
theorem flowSet_keys (s : BnxtSt) (id : Nat) (fl : RteFlow) :
    (flowSet s id fl).flows.map Prod.fst = s.flows.map Prod.fst := by
  simp only [flowSet, List.map_map]
  apply List.map_congr_left
  intro p _
  by_cases h : p.1 == id
  · simp only [Function.comp, h, if_pos]
    have : p.1 = id := by simpa using h
    exact this.symm
  · simp [Function.comp, h]

/-- Reading a vnic after writing the same slot. -/
theorem vGet_vSet_self (s : BnxtSt) (i : Nat) (v : VnicInfo)
    (h : i < s.vnics.length) : vGet (vSet s i v) i = v :=
  list_getD_set_self s.vnics i v {} h

/-- Reading a vnic after writing another slot. -/
theorem vGet_vSet_ne (s : BnxtSt) (i j : Nat) (v : VnicInfo) (h : i ≠ j) :
    vGet (vSet s i v) j = vGet s j :=
  list_getD_set_ne s.vnics i j v {} h

/-- The spec-modelled clears and `bnxt_update_filter` leave everything but
the filter arena's values (and the fresh-hardware-id counter) unchanged;
the arena's keys are also kept. -/
theorem clear_l2_comp (s : BnxtSt) (f : FilterInfo) :
    (bnxt_hwrm_clear_l2_filter s f).2.flows = s.flows ∧
    (bnxt_hwrm_clear_l2_filter s f).2.vnics = s.vnics ∧
    (bnxt_hwrm_clear_l2_filter s f).2.rxqs = s.rxqs ∧
    (bnxt_hwrm_clear_l2_filter s f).2.nextFilterId = s.nextFilterId ∧
    (bnxt_hwrm_clear_l2_filter s f).2.nextFlowId = s.nextFlowId ∧
    (bnxt_hwrm_clear_l2_filter s f).2.filters.map Prod.fst =
      s.filters.map Prod.fst := by
  unfold bnxt_hwrm_clear_l2_filter
  split
  · exact ⟨rfl, rfl, rfl, rfl, rfl, rfl⟩
  · split
    · dsimp only
      split <;> exact ⟨rfl, rfl, rfl, rfl, rfl, fSet_keys _ _ _⟩
    · dsimp only
      split <;> exact ⟨rfl, rfl, rfl, rfl, rfl, rfl⟩

/-- Component preservation for the exact-match clear. -/
theorem clear_em_comp (s : BnxtSt) (f : FilterInfo) :
    (bnxt_hwrm_clear_em_filter s f).2.flows = s.flows ∧
    (bnxt_hwrm_clear_em_filter s f).2.vnics = s.vnics ∧
    (bnxt_hwrm_clear_em_filter s f).2.rxqs = s.rxqs ∧
    (bnxt_hwrm_clear_em_filter s f).2.nextFilterId = s.nextFilterId ∧
    (bnxt_hwrm_clear_em_filter s f).2.nextFlowId = s.nextFlowId ∧
    (bnxt_hwrm_clear_em_filter s f).2.filters.map Prod.fst =
      s.filters.map Prod.fst :=
  clear_l2_comp s f

/-- Component preservation for the ntuple clear. -/
theorem clear_ntuple_comp (s : BnxtSt) (f : FilterInfo) :
    (bnxt_hwrm_clear_ntuple_filter s f).2.flows = s.flows ∧
    (bnxt_hwrm_clear_ntuple_filter s f).2.vnics = s.vnics ∧
    (bnxt_hwrm_clear_ntuple_filter s f).2.rxqs = s.rxqs ∧
    (bnxt_hwrm_clear_ntuple_filter s f).2.nextFilterId = s.nextFilterId ∧
    (bnxt_hwrm_clear_ntuple_filter s f).2.nextFlowId = s.nextFlowId ∧
    (bnxt_hwrm_clear_ntuple_filter s f).2.filters.map Prod.fst =
      s.filters.map Prod.fst :=
  clear_l2_comp s f

/-- Component preservation for the update path's hardware swap. -/
theorem update_filter_comp (s : BnxtSt) (oldId : Nat) (nf : FilterInfo) :
    (bnxt_update_filter s oldId nf).2.flows = s.flows ∧
    (bnxt_update_filter s oldId nf).2.vnics = s.vnics ∧
    (bnxt_update_filter s oldId nf).2.rxqs = s.rxqs ∧
    (bnxt_update_filter s oldId nf).2.nextFilterId = s.nextFilterId ∧
    (bnxt_update_filter s oldId nf).2.nextFlowId = s.nextFlowId ∧
    (bnxt_update_filter s oldId nf).2.filters.map Prod.fst =
      s.filters.map Prod.fst := by
  unfold bnxt_update_filter
  split
  · obtain ⟨h1, h2, h3, h4, h5, h6⟩ := clear_l2_comp s (fGet s oldId)
    dsimp only [freshFwId]
    refine ⟨h1, h2, h3, h4, h5, ?_⟩
    rw [show (fSet (bnxt_hwrm_clear_l2_filter s (fGet s oldId)).2 oldId
      (bnxt_hwrm_clear_l2_filter s (fGet s oldId)).1).filters.map Prod.fst =
      (bnxt_hwrm_clear_l2_filter s (fGet s oldId)).2.filters.map Prod.fst
      from fSet_keys _ _ _]
    exact h6
  · split
    · obtain ⟨h1, h2, h3, h4, h5, h6⟩ := clear_em_comp s (fGet s oldId)
      dsimp only
      refine ⟨h1, h2, h3, h4, h5, ?_⟩
      rw [fSet_keys]
      exact h6
    · split
      · obtain ⟨h1, h2, h3, h4, h5, h6⟩ := clear_ntuple_comp s (fGet s oldId)
        dsimp only
        refine ⟨h1, h2, h3, h4, h5, ?_⟩
        rw [fSet_keys]
        exact h6
      · exact ⟨rfl, rfl, rfl, rfl, rfl, rfl⟩

end BnxtFlow

namespace BnxtFlow

/-- Component projections of the small arena operations. -/
theorem flowSet_filters (s : BnxtSt) (id : Nat) (fl : RteFlow) :
    (flowSet s id fl).filters = s.filters := rfl

/-- `flowSet` leaves vnics alone. -/
theorem flowSet_vnics (s : BnxtSt) (id : Nat) (fl : RteFlow) :
    (flowSet s id fl).vnics = s.vnics := rfl

/-- `fRemove` leaves flows alone. -/
theorem fRemove_flows (s : BnxtSt) (fid : Nat) :
    (fRemove s fid).flows = s.flows := rfl

/-- `fRemove` leaves vnics alone. -/
theorem fRemove_vnics (s : BnxtSt) (fid : Nat) :
    (fRemove s fid).vnics = s.vnics := rfl

/-- `fRemove` drops the entry from the arena. -/
theorem fRemove_filters (s : BnxtSt) (fid : Nat) :
    (fRemove s fid).filters = s.filters.filter (fun p => p.1 != fid) := rfl

/-- `vSet` leaves flows alone. -/
theorem vSet_flows (s : BnxtSt) (i : Nat) (v : VnicInfo) :
    (vSet s i v).flows = s.flows := rfl

/-- `vSet` leaves the filter arena alone. -/
theorem vSet_filters (s : BnxtSt) (i : Nat) (v : VnicInfo) :
    (vSet s i v).filters = s.filters := rfl

/-- `vSet` writes the vnic slot. -/
theorem vSet_vnics (s : BnxtSt) (i : Nat) (v : VnicInfo) :
    (vSet s i v).vnics = s.vnics.set i v := rfl

/-- `fAdd` leaves flows alone. -/
theorem fAdd_flows (s : BnxtSt) (f : FilterInfo) :
    (fAdd s f).2.flows = s.flows := rfl

/-- `fAdd` leaves vnics alone. -/
theorem fAdd_vnics (s : BnxtSt) (f : FilterInfo) :
    (fAdd s f).2.vnics = s.vnics := rfl

/-- `fAdd` appends the entry under the fresh id. -/
theorem fAdd_filters (s : BnxtSt) (f : FilterInfo) :
    (fAdd s f).2.filters = s.filters ++ [(s.nextFilterId, f)] := rfl

/-- `fAdd` hands back the fresh id. -/
theorem fAdd_fst (s : BnxtSt) (f : FilterInfo) :
    (fAdd s f).1 = s.nextFilterId := rfl

/-- `flowSet` overwrites pointwise. -/
theorem flowSet_flows (s : BnxtSt) (id : Nat) (fl : RteFlow) :
    (flowSet s id fl).flows =
      s.flows.map (fun p => if p.1 == id then (id, fl) else p) := rfl

/-- The full-field match is reflexive. -/
theorem filtersMatch_refl (f : FilterInfo) : filtersMatch f f = true := by
  simp [filtersMatch]

/-- The filter handed back by `bnxt_update_filter` keeps every compared
match field, the destination, and the kind of the candidate. -/
theorem update_filter_fst_fields (s : BnxtSt) (oldId : Nat)
    (nf : FilterInfo) :
    filtersMatch (bnxt_update_filter s oldId nf).1 nf = filtersMatch nf nf ∧
    (bnxt_update_filter s oldId nf).1.dst_id = nf.dst_id ∧
    (bnxt_update_filter s oldId nf).1.filter_type = nf.filter_type ∧
    (bnxt_update_filter s oldId nf).1.enables = nf.enables ∧
    (bnxt_update_filter s oldId nf).1.tunnel_type = nf.tunnel_type := by
  unfold bnxt_update_filter
  split
  · exact ⟨rfl, rfl, rfl, rfl, rfl⟩
  · split
    · exact ⟨rfl, rfl, rfl, rfl, rfl⟩
    · split
      · exact ⟨rfl, rfl, rfl, rfl, rfl⟩
      · exact ⟨rfl, rfl, rfl, rfl, rfl⟩

end BnxtFlow

namespace BnxtFlow

/-- States with equal vnic arrays read vnics equally. -/
theorem vGet_ext (s t : BnxtSt) (h : s.vnics = t.vnics) (j : Nat) :
    vGet s j = vGet t j := by
  simp [vGet, h]

/-- States with equal flow arenas read flows equally. -/
theorem flowGet_ext (s t : BnxtSt) (h : s.flows = t.flows) (id : Nat) :
    flowGet s id = flowGet t id := by
  simp [flowGet, h]

/-- The destination-update arm: the candidate lands in the arena under the
pre-call fresh id, the flow arena keeps its keys, every vnic keeps its
hardware id and flow list, and the matched flow is repointed in place. -/
theorem matchUpdateFlow_spec (s : BnxtSt) (vi flid : Nat) (nf : FilterInfo)
    (hvi : vi < s.vnics.length)
    (hfl : (s.flows.lookup flid).isSome = true)
    (hkeys : ∀ p ∈ s.filters, p.1 < s.nextFilterId)
    (hmflt : (flowGet s flid).filterId < s.nextFilterId) :
    (matchUpdateFlow s vi flid nf).1 = s.nextFilterId ∧
    (matchUpdateFlow s vi flid nf).2.flows.map Prod.fst =
      s.flows.map Prod.fst ∧
    (matchUpdateFlow s vi flid nf).2.vnics.length = s.vnics.length ∧
    (∀ j, j ≠ vi → vGet (matchUpdateFlow s vi flid nf).2 j = vGet s j) ∧
    (vGet (matchUpdateFlow s vi flid nf).2 vi).fw_vnic_id =
      (vGet s vi).fw_vnic_id ∧
    (vGet (matchUpdateFlow s vi flid nf).2 vi).flowIds =
      (vGet s vi).flowIds ∧
    flowGet (matchUpdateFlow s vi flid nf).2 flid =
      { flowGet s flid with filterId := s.nextFilterId } ∧
    (matchUpdateFlow s vi flid nf).2.filters.lookup s.nextFilterId =
      some (bnxt_update_filter s (flowGet s flid).filterId nf).1 := by
  obtain ⟨h1, h2, h3, h4, h5, h6⟩ :=
    update_filter_comp s (flowGet s flid).filterId nf
  simp only [matchUpdateFlow]
  set u := bnxt_update_filter s (flowGet s flid).filterId nf with hu
  set s2 := (fAdd u.2 u.1).2 with hs2
  set v2 := vGet s2 vi with hv2
  set s3 := vSet s2 vi { v2 with
    filterIds := (v2.filterIds.filter
      (fun x => x != (flowGet s flid).filterId)) ++ [u.2.nextFilterId] }
    with hs3
  set s4 := fRemove s3 (flowGet s flid).filterId with hs4
  set s5 := flowSet s4 flid
    { flowGet s4 flid with filterId := u.2.nextFilterId } with hs5
  have hs2flows : s2.flows = s.flows := by rw [hs2, fAdd_flows, h1]
  have hs2vnics : s2.vnics = s.vnics := by rw [hs2, fAdd_vnics, h2]
  have hs2filters : s2.filters = u.2.filters ++ [(u.2.nextFilterId, u.1)] := by
    rw [hs2, fAdd_filters]
  have hs4flows : s4.flows = s.flows := by
    rw [hs4, fRemove_flows, hs3, vSet_flows, hs2flows]
  have hset : s5.vnics = s2.vnics.set vi { v2 with
      filterIds := (v2.filterIds.filter
        (fun x => x != (flowGet s flid).filterId)) ++ [u.2.nextFilterId] } := by
    rw [hs5, flowSet_vnics, hs4, fRemove_vnics, hs3, vSet_vnics]
  refine ⟨h4, ?_, ?_, ?_, ?_, ?_, ?_, ?_⟩
  · rw [hs5, flowSet_keys, hs4flows]
  · rw [hset, List.length_set, hs2vnics]
  · intro j hj
    simp only [vGet]
    rw [hset, list_getD_set_ne, hs2vnics]
    exact Ne.symm hj
  · have hvgetvi : vGet s5 vi = { v2 with
        filterIds := (v2.filterIds.filter
          (fun x => x != (flowGet s flid).filterId)) ++ [u.2.nextFilterId] } := by
      simp only [vGet]
      rw [hset]
      exact list_getD_set_self _ _ _ _ (by rw [hs2vnics]; exact hvi)
    rw [hvgetvi, hv2]
    simp [vGet, hs2vnics]
  · have hvgetvi : vGet s5 vi = { v2 with
        filterIds := (v2.filterIds.filter
          (fun x => x != (flowGet s flid).filterId)) ++ [u.2.nextFilterId] } := by
      simp only [vGet]
      rw [hset]
      exact list_getD_set_self _ _ _ _ (by rw [hs2vnics]; exact hvi)
    rw [hvgetvi, hv2]
    simp [vGet, hs2vnics]
  · rw [hs5]
    simp only [flowGet, flowSet_flows]
    rw [lookup_map_set_self]
    · simp only [Option.getD_some]
      rw [hs4flows, h4]
    · rw [hs4flows]
      exact hfl
  · have hs5filters : s5.filters =
        (u.2.filters ++ [(u.2.nextFilterId, u.1)]).filter
          (fun p => p.1 != (flowGet s flid).filterId) := by
      rw [hs5, flowSet_filters, hs4, fRemove_filters, hs3, vSet_filters,
        hs2filters]
    rw [hs5filters, List.filter_append,
      List.filter_cons_of_pos (by rw [h4]; simpa using Nat.ne_of_gt hmflt),
      List.filter_nil, lookup_append_of_none]
    · rw [h4]
      simp [List.lookup]
    · apply lookup_none_of_forall
      intro p hp
      have hp1 : p.1 ∈ List.map Prod.fst u.2.filters :=
        List.mem_map_of_mem Prod.fst (List.mem_of_mem_filter hp)
      rw [h6] at hp1
      obtain ⟨q', hq', hq1⟩ := List.mem_map.mp hp1
      have hlt := hkeys q' hq'
      rw [hq1] at hlt
      exact Nat.ne_of_lt hlt

end BnxtFlow

namespace BnxtFlow

/-- `fSet` leaves flows alone. -/
theorem fSet_flows (s : BnxtSt) (fid : Nat) (f : FilterInfo) :
    (fSet s fid f).flows = s.flows := rfl

/-- `fSet` leaves vnics alone. -/
theorem fSet_vnics (s : BnxtSt) (fid : Nat) (f : FilterInfo) :
    (fSet s fid f).vnics = s.vnics := rfl

/-- `fSet` overwrites pointwise. -/
theorem fSet_filters (s : BnxtSt) (fid : Nat) (f : FilterInfo) :
    (fSet s fid f).filters =
      s.filters.map (fun p => if p.1 == fid then (fid, f) else p) := rfl

/-- A fresh hardware id changes no arena. -/
theorem freshFwId_flows (s : BnxtSt) : (freshFwId s).2.flows = s.flows := rfl

/-- A fresh hardware id changes no vnic. -/
theorem freshFwId_vnics (s : BnxtSt) : (freshFwId s).2.vnics = s.vnics := rfl

/-- A fresh hardware id changes no filter. -/
theorem freshFwId_filters (s : BnxtSt) :
    (freshFwId s).2.filters = s.filters := rfl

/-- `fSet` leaves the vnics alone. -/
theorem fSet_vnics2 (s : BnxtSt) (fid : Nat) (f : FilterInfo) :
    (fSet s fid f).vnics = s.vnics := rfl

/-- The tunnel-redirect bookkeeping touches neither arena nor the vnics. -/
theorem tunnelRedirectCreate_comp (s : BnxtSt) (bp : BpCfg) (t : Nat) :
    (tunnelRedirectCreate s bp t).flows = s.flows ∧
    (tunnelRedirectCreate s bp t).vnics = s.vnics ∧
    (tunnelRedirectCreate s bp t).filters = s.filters := by
  unfold tunnelRedirectCreate
  dsimp only
  split <;> exact ⟨rfl, rfl, rfl⟩

/-- A vnic carrying the requested destination makes the vnic scan succeed. -/
theorem find_matching_vnic_isSome (s : BnxtSt) (f : FilterInfo)
    (h : ∃ j, j < s.vnics.length ∧
      (vGet s j).fw_vnic_id = some f.dst_id) :
    (find_matching_vnic s f).isSome = true := by
  obtain ⟨j, hj, hfw⟩ := h
  unfold find_matching_vnic
  rw [List.find?_isSome]
  exact ⟨j, List.mem_range.mpr hj, by simp [hfw]⟩

end BnxtFlow

namespace BnxtFlow

end BnxtFlow

namespace BnxtFlow

/-- Conclusions of the destination-update claim for a terminal state of the
shape `fSet X r1 G`: the flow arena keeps its keys, every vnic keeps its
flow list, the repointed flow keeps its identity and vnic, and its filter
now is `G`. -/
theorem c2_finish_state_fact (s t : BnxtSt) (flid r1 vi : Nat)
    (nf U G : FilterInfo)
    (hGm : filtersMatch G nf = true) (hGd : G.dst_id = nf.dst_id)
    (m1 : r1 = s.nextFilterId)
    (m2 : t.flows.map Prod.fst = s.flows.map Prod.fst)
    (m4 : ∀ j, j ≠ vi → vGet t j = vGet s j)
    (m6 : (vGet t vi).flowIds = (vGet s vi).flowIds)
    (m7 : flowGet t flid = { flowGet s flid with filterId := s.nextFilterId })
    (m8 : t.filters.lookup s.nextFilterId = some U)
    (X : BnxtSt) (hXf : X.flows = t.flows) (hXv : X.vnics = t.vnics)
    (hXfil : X.filters = t.filters) :
    (fSet X r1 G).flows.map Prod.fst = s.flows.map Prod.fst ∧
    (∀ j, (vGet (fSet X r1 G) j).flowIds = (vGet s j).flowIds) ∧
    (flowGet (fSet X r1 G) flid).vnicIdx = (flowGet s flid).vnicIdx ∧
    (∃ g, (fSet X r1 G).filters.lookup
        (flowGet (fSet X r1 G) flid).filterId = some g ∧
      filtersMatch g nf = true ∧ g.dst_id = nf.dst_id) := by
  have hfg : flowGet (fSet X r1 G) flid = flowGet t flid := by
    simp only [flowGet, fSet_flows, hXf]
  refine ⟨?_, ?_, ?_, ?_⟩
  · rw [fSet_flows, hXf]
    exact m2
  · intro j
    have hvg : vGet (fSet X r1 G) j = vGet t j := by
      simp only [vGet, fSet_vnics2, hXv]
    rw [hvg]
    by_cases hj : j = vi
    · rw [hj, m6]
    · rw [m4 j hj]
  · rw [hfg, m7]
  · refine ⟨G, ?_, hGm, hGd⟩
    rw [hfg, m7]
    show (fSet X r1 G).filters.lookup s.nextFilterId = some G
    rw [fSet_filters, hXfil, ← m1]
    apply lookup_map_set_self
    rw [m1, m8]
    rfl

end BnxtFlow

namespace BnxtFlow

/-- C2: a create whose compiled filter matches an installed flow
field-for-field but names a different destination succeeds as a
destination update: no flow is added or removed, every vnic keeps its flow
list, the matched flow keeps its identity and vnic slot, and its filter
now matches the candidate and carries the new destination. -/
theorem c2_update_destination (s : BnxtSt) (bp : BpCfg) (nf : FilterInfo)
    (vi flid : Nat)
    (hfind : (matchScan s).find?
      (fun p => filtersMatch (fGet s (flowGet s p.2).filterId) nf) =
      some (vi, flid))
    (hne : (fGet s (flowGet s flid).filterId).dst_id ≠ nf.dst_id)
    (hvi : vi < s.vnics.length)
    (hfl : (s.flows.lookup flid).isSome = true)
    (hkeys : ∀ p ∈ s.filters, p.1 < s.nextFilterId)
    (hmflt : (flowGet s flid).filterId < s.nextFilterId)
    (hvnic : ∃ j, j < s.vnics.length ∧
      (vGet s j).fw_vnic_id = some nf.dst_id) :
    (bnxt_flow_create_compiled s bp nf).1 = CreateResult.updatedDest ∧
    (bnxt_flow_create_compiled s bp nf).2.flows.map Prod.fst =
      s.flows.map Prod.fst ∧
    (∀ j, (vGet (bnxt_flow_create_compiled s bp nf).2 j).flowIds =
      (vGet s j).flowIds) ∧
    (flowGet (bnxt_flow_create_compiled s bp nf).2 flid).vnicIdx =
      (flowGet s flid).vnicIdx ∧
    (∃ g, (bnxt_flow_create_compiled s bp nf).2.filters.lookup
        (flowGet (bnxt_flow_create_compiled s bp nf).2 flid).filterId =
        some g ∧ filtersMatch g nf = true ∧ g.dst_id = nf.dst_id) := by
  obtain ⟨m1, m2, m3, m4, m5, m6, m7, m8⟩ :=
    matchUpdateFlow_spec s vi flid nf hvi hfl hkeys hmflt
  obtain ⟨f1, f2, f3, f4, f5⟩ :=
    update_filter_fst_fields s (flowGet s flid).filterId nf
  set r1 := (matchUpdateFlow s vi flid nf).1 with hr1
  set t := (matchUpdateFlow s vi flid nf).2 with ht
  set U := bnxt_update_filter s (flowGet s flid).filterId nf with hU
  obtain ⟨j0, hj0len, hj0fw⟩ := hvnic
  have hj0t : (vGet t j0).fw_vnic_id = some nf.dst_id := by
    by_cases hji : j0 = vi
    · rw [hji, m5]
      rw [hji] at hj0fw
      exact hj0fw
    · rw [m4 j0 hji]
      exact hj0fw
  have hmf : bnxt_match_filter s nf = (.xdev r1, t) := by
    unfold bnxt_match_filter
    rw [hfind]
    dsimp only
    rw [if_neg (by simpa using hne)]
  have hnfCur : fGet t r1 = U.1 := by
    simp only [fGet, m1, m8, Option.getD_some]
  simp only [bnxt_flow_create_compiled, hmf, hnfCur]
  by_cases htun :
      (U.1.filter_type == FilterType.tunnelRedirect &&
        U.1.enables == U.1.tunnel_type) = true
  · rw [if_pos htun]
    obtain ⟨tc1, tc2, tc3⟩ := tunnelRedirectCreate_comp t bp U.1.tunnel_type
    have hfg : flowGet (tunnelRedirectCreate t bp U.1.tunnel_type) flid =
        flowGet t flid := by
      simp only [flowGet, tc1]
    refine ⟨rfl, ?_, ?_, ?_, ?_⟩
    · show (tunnelRedirectCreate t bp U.1.tunnel_type).flows.map Prod.fst =
        s.flows.map Prod.fst
      rw [tc1]
      exact m2
    · intro j
      have hvg : vGet (tunnelRedirectCreate t bp U.1.tunnel_type) j =
          vGet t j := by
        simp only [vGet, tc2]
      show (vGet (tunnelRedirectCreate t bp U.1.tunnel_type) j).flowIds =
        (vGet s j).flowIds
      rw [hvg]
      by_cases hj : j = vi
      · rw [hj, m6]
      · rw [m4 j hj]
    · show (flowGet (tunnelRedirectCreate t bp U.1.tunnel_type)
          flid).vnicIdx = (flowGet s flid).vnicIdx
      rw [hfg, m7]
    · refine ⟨U.1, ?_, f1.trans (filtersMatch_refl nf), f2⟩
      show (tunnelRedirectCreate t bp U.1.tunnel_type).filters.lookup
        (flowGet (tunnelRedirectCreate t bp U.1.tunnel_type)
          flid).filterId = some U.1
      rw [hfg, m7]
      show (tunnelRedirectCreate t bp U.1.tunnel_type).filters.lookup
        s.nextFilterId = some U.1
      rw [tc3, m8]
  · rw [if_neg htun]
    by_cases hem : (U.1.filter_type == FilterType.em) = true
    · have hft : U.1.filter_type = FilterType.em := by simpa using hem
      have hnt2 : (U.1.filter_type == FilterType.ntuple) = false := by
        rw [hft]
        rfl
      simp only [hem, eq_self_iff_true, if_true]
      simp only [hnt2, Bool.false_eq_true, if_false]
      obtain ⟨c1, c2, c3, c4⟩ := c2_finish_state_fact s t flid r1 vi nf U.1
        { U.1 with
          enables := U.1.enables |||
            HWRM_CFA_EM_FLOW_ALLOC_INPUT_ENABLES_L2_FILTER_ID,
          fw_em_filter_id := some t.nextFwId }
        (f1.trans (filtersMatch_refl nf)) f2 m1 m2 m4 m6 m7 m8
        (freshFwId t).2 (freshFwId_flows t) (freshFwId_vnics t)
        (freshFwId_filters t)
      have hfv : (find_matching_vnic
          (fSet (freshFwId t).2 r1
            { U.1 with
              enables := U.1.enables |||
                HWRM_CFA_EM_FLOW_ALLOC_INPUT_ENABLES_L2_FILTER_ID,
              fw_em_filter_id := some t.nextFwId })
          { U.1 with
            enables := U.1.enables |||
              HWRM_CFA_EM_FLOW_ALLOC_INPUT_ENABLES_L2_FILTER_ID,
            fw_em_filter_id := some t.nextFwId }).isSome = true := by
        apply find_matching_vnic_isSome
        refine ⟨j0, ?_, ?_⟩
        · rw [fSet_vnics2, freshFwId_vnics, m3]
          exact hj0len
        · have hvg : vGet (fSet (freshFwId t).2 r1
              { U.1 with
                enables := U.1.enables |||
                  HWRM_CFA_EM_FLOW_ALLOC_INPUT_ENABLES_L2_FILTER_ID,
                fw_em_filter_id := some t.nextFwId }) j0 = vGet t j0 := by
            simp only [vGet, fSet_vnics2, freshFwId_vnics]
          rw [hvg, hj0t]
          exact congrArg some f2.symm
      obtain ⟨jv, hjv⟩ := Option.isSome_iff_exists.mp hfv
      rw [hjv]
      exact ⟨rfl, c1, c2, c3, c4⟩
    · have hemF : (U.1.filter_type == FilterType.em) = false :=
        Bool.of_not_eq_true hem
      simp only [hemF, Bool.false_eq_true, if_false]
      by_cases hnt : (U.1.filter_type == FilterType.ntuple) = true
      · simp only [hnt, eq_self_iff_true, if_true]
        obtain ⟨c1, c2, c3, c4⟩ := c2_finish_state_fact s t flid r1 vi nf U.1
          { U.1 with
            enables := U.1.enables |||
              HWRM_CFA_NTUPLE_FILTER_ALLOC_INPUT_ENABLES_L2_FILTER_ID,
            fw_ntuple_filter_id := some t.nextFwId }
          (f1.trans (filtersMatch_refl nf)) f2 m1 m2 m4 m6 m7 m8
          (freshFwId t).2 (freshFwId_flows t) (freshFwId_vnics t)
          (freshFwId_filters t)
        have hfv : (find_matching_vnic
            (fSet (freshFwId t).2 r1
              { U.1 with
                enables := U.1.enables |||
                  HWRM_CFA_NTUPLE_FILTER_ALLOC_INPUT_ENABLES_L2_FILTER_ID,
                fw_ntuple_filter_id := some t.nextFwId })
            { U.1 with
              enables := U.1.enables |||
                HWRM_CFA_NTUPLE_FILTER_ALLOC_INPUT_ENABLES_L2_FILTER_ID,
              fw_ntuple_filter_id := some t.nextFwId }).isSome = true := by
          apply find_matching_vnic_isSome
          refine ⟨j0, ?_, ?_⟩
          · rw [fSet_vnics2, freshFwId_vnics, m3]
            exact hj0len
          · have hvg : vGet (fSet (freshFwId t).2 r1
                { U.1 with
                  enables := U.1.enables |||
                    HWRM_CFA_NTUPLE_FILTER_ALLOC_INPUT_ENABLES_L2_FILTER_ID,
                  fw_ntuple_filter_id := some t.nextFwId }) j0 =
                vGet t j0 := by
              simp only [vGet, fSet_vnics2, freshFwId_vnics]
            rw [hvg, hj0t]
            exact congrArg some f2.symm
        obtain ⟨jv, hjv⟩ := Option.isSome_iff_exists.mp hfv
        rw [hjv]
        exact ⟨rfl, c1, c2, c3, c4⟩
      · have hntF : (U.1.filter_type == FilterType.ntuple) = false :=
          Bool.of_not_eq_true hnt
        simp only [hntF, Bool.false_eq_true, if_false]
        obtain ⟨c1, c2, c3, c4⟩ := c2_finish_state_fact s t flid r1 vi nf U.1
          U.1 (f1.trans (filtersMatch_refl nf)) f2 m1 m2 m4 m6 m7 m8
          t rfl rfl rfl
        have hfv : (find_matching_vnic (fSet t r1 U.1) U.1).isSome = true := by
          apply find_matching_vnic_isSome
          refine ⟨j0, ?_, ?_⟩
          · rw [fSet_vnics2, m3]
            exact hj0len
          · have hvg : vGet (fSet t r1 U.1) j0 = vGet t j0 := by
              simp only [vGet, fSet_vnics2]
            rw [hvg, hj0t, f2]
        obtain ⟨jv, hjv⟩ := Option.isSome_iff_exists.mp hfv
        rw [hjv]
        exact ⟨rfl, c1, c2, c3, c4⟩

end BnxtFlow

namespace BnxtFlow

/-- C2 witness: on the two-vnic scenario, re-creating the installed ntuple
rule with destination 20 instead of 10 finds the installed flow and
succeeds as a destination update. -/
theorem c2_update_destination_witness :
    ((matchScan c2S).find?
      (fun p => filtersMatch (fGet c2S (flowGet c2S p.2).filterId) c2Nf) =
      some (1, 0)) ∧
    (fGet c2S (flowGet c2S 0).filterId).dst_id ≠ c2Nf.dst_id ∧
    (bnxt_flow_create_compiled c2S c3Bp c2Nf).1 =
      CreateResult.updatedDest :=
  ⟨by decide, by decide,
   (c2_update_destination c2S c3Bp c2Nf 1 0 (by decide) (by decide)
     (by decide) (by decide) (by decide) (by decide)
     ⟨2, by decide, by decide⟩).1⟩

end BnxtFlow

namespace BnxtFlow

/-- Projection through `set`/`getD` when the written value agrees on the
projection. -/
theorem list_getD_set_proj {α β : Type} (f : α → β) (l : List α)
    (i j : Nat) (a d : α) (h : f a = f (l.getD i d)) :
    f ((l.set i a).getD j d) = f (l.getD j d) := by
  induction l generalizing i j with
  | nil => rfl
  | cons x t ih =>
      cases i with
      | zero =>
          cases j with
          | zero => exact h
          | succ m => rfl
      | succ n =>
          cases j with
          | zero => rfl
          | succ m => exact ih n m h

/-- A successful lookup's value sits in the list. -/
theorem lookup_mem {β : Type} (l : List (Nat × β)) (a : Nat) (b : β)
    (h : l.lookup a = some b) : (a, b) ∈ l := by
  induction l with
  | nil => cases h
  | cons p t ih =>
      obtain ⟨pk, pb⟩ := p
      simp only [List.lookup] at h
      cases hap : a == pk with
      | true =>
          rw [hap] at h
          cases h
          have hpk : a = pk := by simpa using hap
          rw [hpk]
          exact List.mem_cons_self _ _
      | false =>
          rw [hap] at h
          exact List.mem_cons_of_mem _ (ih h)

/-- Overwriting the same key twice keeps only the second write. -/
theorem map_overwrite_twice {β : Type} (l : List (Nat × β)) (fid : Nat)
    (g h : β) :
    (l.map (fun p => if p.1 == fid then (fid, g) else p)).map
      (fun p => if p.1 == fid then (fid, h) else p) =
      l.map (fun p => if p.1 == fid then (fid, h) else p) := by
  rw [List.map_map]
  apply List.map_congr_left
  intro p _
  by_cases hp : (p.1 == fid) = true
  · simp [Function.comp, hp]
  · simp [Function.comp, hp]

/-- Overwriting a key with its own looked-up value is the identity on an
arena without duplicate keys. -/
theorem map_overwrite_lookup {β : Type} (l : List (Nat × β)) (fid : Nat)
    (v : β) (hnodup : (l.map Prod.fst).Nodup) (hv : l.lookup fid = some v) :
    l.map (fun p => if p.1 == fid then (fid, v) else p) = l := by
  induction l with
  | nil => rfl
  | cons p t ih =>
      obtain ⟨pk, pb⟩ := p
      simp only [List.map_cons, List.nodup_cons] at hnodup
      obtain ⟨hnot, hnd⟩ := hnodup
      by_cases hpk : pk = fid
      · subst hpk
        have hv2 : pb = v := by
          simp only [List.lookup] at hv
          rw [show (pk == pk) = true by simp] at hv
          simpa using hv
        rw [List.map_cons, if_pos (by simp)]
        have htail : t.map (fun q => if q.1 == pk then (pk, v) else q) = t := by
          have hfix : ∀ q ∈ t,
              (if q.1 == pk then (pk, v) else q) = id q := by
            intro q hq
            have hqk : q.1 ≠ pk :=
              fun hh => hnot (hh ▸ List.mem_map_of_mem Prod.fst hq)
            simp [hqk]
          rw [List.map_congr_left hfix, List.map_id]
        rw [htail, hv2]
      · have hv2 : t.lookup fid = some v := by
          simp only [List.lookup] at hv
          rw [show (fid == pk) = false by
            simpa using fun hh => hpk hh.symm] at hv
          exact hv
        rw [List.map_cons, if_neg (by simpa using hpk), ih hnd hv2]

/-- `vnicSidePres` is reflexive. -/
theorem vsp_refl (s : BnxtSt) : vnicSidePres s s :=
  ⟨rfl, rfl, rfl, fun _ => rfl, fun _ => rfl⟩

/-- `vnicSidePres` composes. -/
theorem vsp_trans {s t u : BnxtSt} (a : vnicSidePres s t)
    (b : vnicSidePres t u) : vnicSidePres s u := by
  obtain ⟨a1, a2, a3, a4, a5⟩ := a
  obtain ⟨b1, b2, b3, b4, b5⟩ := b
  exact ⟨b1.trans a1, b2.trans a2, b3.trans a3,
    fun j => (b4 j).trans (a4 j), fun j => (b5 j).trans (a5 j)⟩

/-- Writing a vnic slot without touching its flow or filter list. -/
theorem vsp_vSet (s : BnxtSt) (i : Nat) (v : VnicInfo)
    (h1 : v.flowIds = (vGet s i).flowIds)
    (h2 : v.filterIds = (vGet s i).filterIds) :
    vnicSidePres s (vSet s i v) :=
  ⟨rfl, rfl, List.length_set s.vnics i v,
   fun j => list_getD_set_proj VnicInfo.flowIds s.vnics i j v {} h1,
   fun j => list_getD_set_proj VnicInfo.filterIds s.vnics i j v {} h2⟩

/-- Writing a receive queue never touches the vnics or arenas. -/
theorem vsp_rxqSet (s : BnxtSt) (q : Nat) (r : RxQueue) :
    vnicSidePres s (rxqSet s q r) :=
  ⟨rfl, rfl, rfl, fun _ => rfl, fun _ => rfl⟩

/-- A fresh hardware id never touches the vnics or arenas. -/
theorem vsp_freshFwId (s : BnxtSt) : vnicSidePres s (freshFwId s).2 :=
  ⟨rfl, rfl, rfl, fun _ => rfl, fun _ => rfl⟩

/-- Provisioning a vnic keeps flows, filters and both per-vnic lists. -/
theorem vsp_vnic_prep (s : BnxtSt) (bp : BpCfg) (i : Nat) :
    vnicSidePres s (bnxt_vnic_prep s bp i) :=
  vsp_trans (vsp_trans (vsp_freshFwId s)
    (vsp_vSet (freshFwId s).2 i
      { vGet (freshFwId s).2 i with
        fw_vnic_id := some (freshFwId s).1,
        vlan_strip := bp.vlan_strip_offload } rfl rfl))
    ⟨rfl, rfl, rfl, fun _ => rfl, fun _ => rfl⟩

/-- The `ret:` cleanup keeps flows, filters and both per-vnic lists. -/
theorem vsp_actionErrRet (s : BnxtSt) (ovnic orxq : Option Nat)
    (e : BnxtErr) : vnicSidePres s (actionErrRet s ovnic orxq e).2 := by
  unfold actionErrRet
  dsimp only
  have h1 : ∀ s1 : BnxtSt, vnicSidePres s s1 →
      vnicSidePres s (match orxq, ovnic with
        | some qi, some vi =>
            if (vGet s1 vi).rx_queue_cnt == 0 then
              rxqSet s1 qi { rxqGet s1 qi with vnicIdx := 0 }
            else s1
        | _, _ => s1) := by
    intro s1 hp
    match orxq, ovnic with
    | some qi, some vi =>
        dsimp only
        split
        · exact vsp_trans hp (vsp_rxqSet s1 qi _)
        · exact hp
    | none, _ => exact hp
    | some _, none => exact hp
  apply h1
  match ovnic with
  | some vi =>
      dsimp only
      split
      · exact vsp_vSet s vi _ rfl rfl
      · exact vsp_refl s
  | none => exact vsp_refl s

/-- Folding vnic-side-preserving steps preserves. -/
theorem vsp_foldl (step : BnxtSt → Nat → BnxtSt)
    (hstep : ∀ s q, vnicSidePres s (step s q)) :
    ∀ (l : List Nat) (s : BnxtSt), vnicSidePres s (l.foldl step s) := by
  intro l
  induction l with
  | nil => intro s; exact vsp_refl s
  | cons q rest ih =>
      intro s
      exact vsp_trans (hstep s q) (ih (step s q))

end BnxtFlow

namespace BnxtFlow

/-- The RSS queue-binding loop only performs vnic bookkeeping. -/
theorem vsp_rssBind (bp : BpCfg) (vnic_id : Nat) :
    ∀ (l : List Nat) (s : BnxtSt) (orxq : Option Nat),
      (∀ s2 o2, rssBindQueues bp vnic_id l s orxq = .ok (s2, o2) →
        vnicSidePres s s2) ∧
      (∀ e o2 s2, rssBindQueues bp vnic_id l s orxq = .error (e, o2, s2) →
        vnicSidePres s s2) := by
  intro l
  induction l with
  | nil =>
      intro s orxq
      constructor
      · intro s2 o2 h
        cases h
        exact vsp_refl s
      · intro e o2 s2 h
        cases h
  | cons q rest ih =>
      intro s orxq
      unfold rssBindQueues
      split
      · constructor
        · intro s2 o2 h
          cases h
        · intro e o2 s2 h
          cases h
          exact vsp_refl s
      · split
        · constructor
          · intro s2 o2 h
            cases h
          · intro e o2 s2 h
            cases h
            exact vsp_refl s
        · constructor
          · intro s2 o2 h
            dsimp only at h
            have hp := (ih _ (some q)).1 s2 o2 h
            refine vsp_trans
              (vsp_trans (vsp_rxqSet s q _) (vsp_vSet _ vnic_id _ ?_ ?_))
              hp <;> rfl
          · intro e o2 s2 h
            dsimp only at h
            have hp := (ih _ (some q)).2 e o2 s2 h
            refine vsp_trans
              (vsp_trans (vsp_rxqSet s q _) (vsp_vSet _ vnic_id _ ?_ ?_))
              hp <;> rfl

/-- Recording RSS group ids only performs vnic bookkeeping. -/
theorem vsp_rssAssign (s : BnxtSt) (bp : BpCfg) (vnic_id : Nat)
    (queues : List Nat) :
    vnicSidePres s (rssAssignGrpIds s bp vnic_id queues) := by
  unfold rssAssignGrpIds
  dsimp only
  refine vsp_trans
    (vsp_vSet s vnic_id
      { vGet s vnic_id with
        fw_grp_ids := queues.map (fun q => some (bp.grp_fw_ids.getD q 0)) }
      rfl rfl)
    (vsp_foldl
      (fun s q => vSet s 0
        { vGet s 0 with fw_grp_ids := (vGet s 0).fw_grp_ids.set q none })
      (fun s q => vsp_vSet s 0 _ ?_ ?_) queues _) <;> rfl

/-- `flowSidePres` from vnic-side preservation. -/
theorem fsp_of_vsp {s t : BnxtSt} (h : vnicSidePres s t) :
    flowSidePres s t := ⟨h.1, h.2.2.2.1⟩

/-- `flowSidePres` is reflexive. -/
theorem fsp_refl (s : BnxtSt) : flowSidePres s s := ⟨rfl, fun _ => rfl⟩

/-- `flowSidePres` composes. -/
theorem fsp_trans {s t u : BnxtSt} (a : flowSidePres s t)
    (b : flowSidePres t u) : flowSidePres s u :=
  ⟨b.1.trans a.1, fun j => (b.2 j).trans (a.2 j)⟩

/-- Overwriting a filter keeps the flow side. -/
theorem fsp_fSet (s : BnxtSt) (fid : Nat) (f : FilterInfo) :
    flowSidePres s (fSet s fid f) := ⟨rfl, fun _ => rfl⟩

/-- Taking or creating the shared L2 filter keeps the flow side. -/
theorem fsp_get_l2 (s : BnxtSt) (nf : FilterInfo) (v : Nat) :
    flowSidePres s (bnxt_get_l2_filter s nf v).2.2 := by
  unfold bnxt_get_l2_filter
  split
  · exact fsp_fSet s _ _
  · exact ⟨rfl, fun _ => rfl⟩

/-- A compiled filter with no shared-filter reference makes the
hardware L2 release a no-op on the state. -/
theorem clear_l2_ptr_none (s : BnxtSt) (f : FilterInfo)
    (h : f.matching_l2_fltr_ptr = none) :
    (bnxt_hwrm_clear_l2_filter s f).2 = s := by
  unfold bnxt_hwrm_clear_l2_filter
  split
  · rfl
  · simp only [h]
    split <;> rfl

end BnxtFlow

namespace BnxtFlow

/-- Every id the L2 scan visits on a bookkeeping-modified state is the
filter of an installed flow of the original state, so it is in the arena. -/
theorem l2Scan_lookup (s sx : BnxtSt) (hpres : vnicSidePres s sx)
    (hflow : ∀ j, j < s.vnics.length → ∀ flid ∈ (vGet s j).flowIds,
      (s.filters.lookup ((flowGet s flid).filterId)).isSome = true)
    (fid : Nat) (h : fid ∈ l2ScanFilterIds sx) :
    (s.filters.lookup fid).isSome = true := by
  obtain ⟨h1, h2, h3, h4, h5⟩ := hpres
  simp only [l2ScanFilterIds, List.mem_flatMap, List.mem_filter,
    List.mem_reverse, List.mem_range, List.mem_map] at h
  obtain ⟨i, ⟨hi, hvalid⟩, flid, hfl, rfl⟩ := h
  have hfe : flowGet sx flid = flowGet s flid := by
    simp [flowGet, h1]
  rw [hfe]
  apply hflow i (by rw [← h3]; exact hi) flid
  rw [← h4 i]
  exact hfl

/-- Whatever filter the L2 search returns is in the arena. -/
theorem find_l2_lookup (s sx : BnxtSt) (nf : FilterInfo) (fid : Nat)
    (hpres : vnicSidePres s sx)
    (hflow : ∀ j, j < s.vnics.length → ∀ flid ∈ (vGet s j).flowIds,
      (s.filters.lookup ((flowGet s flid).filterId)).isSome = true)
    (hids0 : ∀ f0 ∈ (vGet s 0).filterIds,
      (s.filters.lookup f0).isSome = true)
    (h : bnxt_find_matching_l2_filter sx nf = some fid) :
    (s.filters.lookup fid).isSome = true := by
  unfold bnxt_find_matching_l2_filter at h
  dsimp only at h
  cases hh : (vGet sx 0).filterIds.head? with
  | some f0 =>
      rw [hh] at h
      dsimp only at h
      by_cases hc : ((fGet sx f0).l2_addr == nf.dst_macaddr) = true
      · rw [if_pos hc] at h
        cases h
        apply hids0
        rw [← hpres.2.2.2.2 0]
        exact List.mem_of_mem_head? hh
      · rw [if_neg hc] at h
        exact l2Scan_lookup s sx ⟨hpres.1, hpres.2.1, hpres.2.2.1,
          hpres.2.2.2.1, hpres.2.2.2.2⟩ hflow fid
          (List.mem_of_find?_eq_some h)
  | none =>
      rw [hh] at h
      exact l2Scan_lookup s sx hpres hflow fid (List.mem_of_find?_eq_some h)

end BnxtFlow

namespace BnxtFlow

/-- `bnxt_get_l2_filter` either creates a fresh L2 filter (arena untouched,
no shared reference recorded) or takes a reference on an arena filter with
a live hardware id, bumping exactly its count. -/
theorem get_l2_cases (s sx : BnxtSt) (nf : FilterInfo) (v : Nat)
    (hpres : vnicSidePres s sx)
    (hflow : ∀ j, j < s.vnics.length → ∀ flid ∈ (vGet s j).flowIds,
      (s.filters.lookup ((flowGet s flid).filterId)).isSome = true)
    (hids0 : ∀ f0 ∈ (vGet s 0).filterIds,
      (s.filters.lookup f0).isSome = true)
    (hfwall : ∀ p ∈ s.filters, p.2.fw_l2_filter_id.isSome = true) :
    ((bnxt_get_l2_filter sx nf v).2.1.matching_l2_fltr_ptr = none ∧
     (bnxt_get_l2_filter sx nf v).2.2.filters = s.filters) ∨
    (∃ fid,
      (bnxt_get_l2_filter sx nf v).2.1.matching_l2_fltr_ptr = some fid ∧
      (l2FilterVal (bnxt_get_l2_filter sx nf v).2.2
        (bnxt_get_l2_filter sx nf v).1).fw_l2_filter_id.isSome = true ∧
      (s.filters.lookup fid).isSome = true ∧
      (bnxt_get_l2_filter sx nf v).2.2.filters =
        (fSet s fid { fGet s fid with
          l2_ref_cnt := (fGet s fid).l2_ref_cnt + 1 }).filters) := by
  cases hfind : bnxt_find_matching_l2_filter sx nf with
  | none =>
      left
      unfold bnxt_get_l2_filter
      rw [hfind]
      exact ⟨rfl, hpres.2.1⟩
  | some fid =>
      right
      have hmem : (s.filters.lookup fid).isSome = true :=
        find_l2_lookup s sx nf fid hpres hflow hids0 hfind
      obtain ⟨w, hw⟩ := Option.isSome_iff_exists.mp hmem
      have hfg : fGet sx fid = fGet s fid := by
        simp [fGet, hpres.2.1]
      refine ⟨fid, ?_, ?_, hmem, ?_⟩
      · unfold bnxt_get_l2_filter
        rw [hfind]
      · unfold bnxt_get_l2_filter
        rw [hfind]
        dsimp only [l2FilterVal]
        have hBv : fGet (fSet sx fid { fGet sx fid with
            l2_ref_cnt := (fGet sx fid).l2_ref_cnt + 1 }) fid =
            { fGet sx fid with
              l2_ref_cnt := (fGet sx fid).l2_ref_cnt + 1 } := by
          simp only [fGet, fSet_filters]
          rw [lookup_map_set_self]
          · rfl
          · rw [hpres.2.1]
            exact hmem
        rw [hBv]
        show (fGet sx fid).fw_l2_filter_id.isSome = true
        rw [hfg, show fGet s fid = w by simp [fGet, hw]]
        exact hfwall (fid, w) (lookup_mem s.filters fid w hw)
      · unfold bnxt_get_l2_filter
        rw [hfind]
        dsimp only
        rw [fSet_filters, fSet_filters, hpres.2.1, hfg]

/-- Releasing a compiled filter that holds the only new reference restores
the arena exactly. -/
theorem clear_l2_restore (s2 s : BnxtSt) (fid : Nat) (f : FilterInfo)
    (hnodup : (s.filters.map Prod.fst).Nodup)
    (hmem : (s.filters.lookup fid).isSome = true)
    (harena : s2.filters = (fSet s fid { fGet s fid with
      l2_ref_cnt := (fGet s fid).l2_ref_cnt + 1 }).filters)
    (hptr : f.matching_l2_fltr_ptr = some fid)
    (hfw : f.fw_l2_filter_id.isSome = true) :
    (bnxt_hwrm_clear_l2_filter s2 f).2.filters = s.filters := by
  obtain ⟨x, hx⟩ := Option.isSome_iff_exists.mp hfw
  obtain ⟨v, hv⟩ := Option.isSome_iff_exists.mp hmem
  have hfgs : fGet s fid = v := by simp [fGet, hv]
  have hB : fGet s2 fid = { fGet s fid with
      l2_ref_cnt := (fGet s fid).l2_ref_cnt + 1 } := by
    simp only [fGet, harena, fSet_filters]
    rw [lookup_map_set_self _ _ _ hmem]
    rfl
  have hdec : { fGet s2 fid with
      l2_ref_cnt := (fGet s2 fid).l2_ref_cnt - 1 } = v := by
    rw [hB, hfgs]
    show { v with l2_ref_cnt := v.l2_ref_cnt + 1 - 1 } = v
    rw [Nat.add_sub_cancel]
  unfold bnxt_hwrm_clear_l2_filter
  rw [if_neg (by simp [hx])]
  simp only [hptr]
  split
  · rw [fSet_filters, hdec, harena, fSet_filters,
      map_overwrite_twice,
      map_overwrite_lookup s.filters fid v hnodup hv]
  · rw [fSet_filters, hdec, harena, fSet_filters,
      map_overwrite_twice,
      map_overwrite_lookup s.filters fid v hnodup hv]

end BnxtFlow

namespace BnxtFlow

/-- Merging the shared filter's fields never touches the shared-filter
reference. -/
theorem update_flags_en_ptr (f f1 : FilterInfo) (u : Nat) :
    (bnxt_update_filter_flags_en f f1 u).matching_l2_fltr_ptr =
      f.matching_l2_fltr_ptr := by
  unfold bnxt_update_filter_flags_en
  dsimp only
  split <;> rfl

/-- Merging the shared filter's fields copies its hardware L2 id. -/
theorem update_flags_en_fw (f f1 : FilterInfo) (u : Nat) :
    (bnxt_update_filter_flags_en f f1 u).fw_l2_filter_id =
      f1.fw_l2_filter_id := rfl

/-- The `ret:` cleanup reports the error it is given. -/
theorem actionErrRet_fst (s : BnxtSt) (ovnic orxq : Option Nat)
    (e : BnxtErr) : (actionErrRet s ovnic orxq e).1 = Except.error e := rfl

/-- The `vnic_found:` tail: flow side preserved and the arena invariant. -/
theorem vnicFound_spec (s sx : BnxtSt) (u : Nat) (filter : FilterInfo)
    (vnic_id : Nat) (orxq : Option Nat)
    (hpres : vnicSidePres s sx)
    (hflow : ∀ j, j < s.vnics.length → ∀ flid ∈ (vGet s j).flowIds,
      (s.filters.lookup ((flowGet s flid).filterId)).isSome = true)
    (hids0 : ∀ f0 ∈ (vGet s 0).filterIds,
      (s.filters.lookup f0).isSome = true)
    (hfwall : ∀ p ∈ s.filters, p.2.fw_l2_filter_id.isSome = true) :
    flowSidePres s (vnicFound sx u filter vnic_id orxq).2 ∧
    okArenaInv s (vnicFound sx u filter vnic_id orxq) := by
  constructor
  · exact fsp_trans (fsp_of_vsp hpres) (fsp_get_l2 sx _ vnic_id)
  · intro a ha
    injection ha with hrec
    subst hrec
    rcases get_l2_cases s sx
        { filter with dst_id := (vGet sx vnic_id).fw_vnic_id.getD 0 }
        vnic_id hpres hflow hids0 hfwall with
      ⟨hp, hf⟩ | ⟨fid, hp, hfw2, hmem, hf⟩
    · left
      refine ⟨?_, hf⟩
      rw [update_flags_en_ptr]
      exact hp
    · right
      refine ⟨fid, ?_, ?_, hmem, hf⟩
      · rw [update_flags_en_ptr]
        exact hp
      · rw [update_flags_en_fw]
        exact hfw2

/-- The `use_vnic:` label: flow side preserved and the arena invariant. -/
theorem useVnic_spec (s sx : BnxtSt) (u : Nat) (filter : FilterInfo)
    (vnic_id : Nat) (orxq : Option Nat)
    (hpres : vnicSidePres s sx)
    (hflow : ∀ j, j < s.vnics.length → ∀ flid ∈ (vGet s j).flowIds,
      (s.filters.lookup ((flowGet s flid).filterId)).isSome = true)
    (hids0 : ∀ f0 ∈ (vGet s 0).filterIds,
      (s.filters.lookup f0).isSome = true)
    (hfwall : ∀ p ∈ s.filters, p.2.fw_l2_filter_id.isSome = true) :
    flowSidePres s (useVnic sx u filter vnic_id orxq).2 ∧
    okArenaInv s (useVnic sx u filter vnic_id orxq) := by
  refine vnicFound_spec s
    (vSet sx vnic_id { vGet sx vnic_id with ff_pool_idx := vnic_id })
    u filter vnic_id orxq
    (vsp_trans hpres (vsp_vSet sx vnic_id _ ?_ ?_)) hflow hids0 hfwall <;>
    rfl

end BnxtFlow

namespace BnxtFlow

/-- The queue action: flow side preserved and the arena invariant. -/
theorem queueAction_spec (s : BnxtSt) (bp : BpCfg) (attr : FlowAttr)
    (u : Nat) (filter : FilterInfo) (index : Nat)
    (hflow : ∀ j, j < s.vnics.length → ∀ flid ∈ (vGet s j).flowIds,
      (s.filters.lookup ((flowGet s flid).filterId)).isSome = true)
    (hids0 : ∀ f0 ∈ (vGet s 0).filterIds,
      (s.filters.lookup f0).isSome = true)
    (hfwall : ∀ p ∈ s.filters, p.2.fw_l2_filter_id.isSome = true) :
    flowSidePres s (queueAction s bp attr u filter index).2 ∧
    okArenaInv s (queueAction s bp attr u filter index) := by
  unfold queueAction
  split
  · exact ⟨fsp_refl s, fun a ha => Except.noConfusion ha⟩
  · dsimp only
    generalize (if (attr.group != 0) = true then attr.group else index) =
      vnic_id
    split
    · split
      · refine ⟨fsp_of_vsp (vsp_actionErrRet s _ _ _), ?_⟩
        intro a ha
        rw [actionErrRet_fst] at ha
        exact Except.noConfusion ha
      · exact useVnic_spec s s u filter _ none (vsp_refl s)
          hflow hids0 hfwall
    · split
      · exact useVnic_spec s s u filter _ (some index) (vsp_refl s)
          hflow hids0 hfwall
      · split
        · refine ⟨fsp_of_vsp (vsp_actionErrRet s _ _ _), ?_⟩
          intro a ha
          rw [actionErrRet_fst] at ha
          exact Except.noConfusion ha
        · refine useVnic_spec s _ u filter _ (some index) ?_
            hflow hids0 hfwall
          refine vsp_trans
            (vsp_trans (vsp_rxqSet s index _) (vsp_vSet _ _ _ ?_ ?_))
            (vsp_vnic_prep _ bp _) <;> rfl

/-- The drop action: flow side preserved and the arena invariant. -/
theorem dropAction_spec (s : BnxtSt) (filter : FilterInfo)
    (hflow : ∀ j, j < s.vnics.length → ∀ flid ∈ (vGet s j).flowIds,
      (s.filters.lookup ((flowGet s flid).filterId)).isSome = true)
    (hids0 : ∀ f0 ∈ (vGet s 0).filterIds,
      (s.filters.lookup f0).isSome = true)
    (hfwall : ∀ p ∈ s.filters, p.2.fw_l2_filter_id.isSome = true) :
    flowSidePres s (dropAction s filter).2 ∧
    okArenaInv s (dropAction s filter) := by
  constructor
  · exact fsp_get_l2 s filter 0
  · intro a ha
    injection ha with hrec
    subst hrec
    rcases get_l2_cases s s filter 0 (vsp_refl s) hflow hids0 hfwall with
      ⟨hp, hf⟩ | ⟨fid, hp, hfw2, hmem, hf⟩
    · left
      refine ⟨?_, hf⟩
      show (if _ then _ else _ : FilterInfo).matching_l2_fltr_ptr = none
      split <;> exact hp
    · right
      refine ⟨fid, ?_, ?_, hmem, hf⟩
      · show (if _ then _ else _ : FilterInfo).matching_l2_fltr_ptr = some fid
        split <;> exact hp
      · show (if _ then _ else _ : FilterInfo).fw_l2_filter_id.isSome = true
        split <;> exact hfw2

/-- The count action: flow side preserved and the arena invariant. -/
theorem countAction_spec (s : BnxtSt) (filter : FilterInfo)
    (hflow : ∀ j, j < s.vnics.length → ∀ flid ∈ (vGet s j).flowIds,
      (s.filters.lookup ((flowGet s flid).filterId)).isSome = true)
    (hids0 : ∀ f0 ∈ (vGet s 0).filterIds,
      (s.filters.lookup f0).isSome = true)
    (hfwall : ∀ p ∈ s.filters, p.2.fw_l2_filter_id.isSome = true) :
    flowSidePres s (countAction s filter).2 ∧
    okArenaInv s (countAction s filter) := by
  constructor
  · exact fsp_get_l2 s filter 0
  · intro a ha
    injection ha with hrec
    subst hrec
    rcases get_l2_cases s s filter 0 (vsp_refl s) hflow hids0 hfwall with
      ⟨hp, hf⟩ | ⟨fid, hp, hfw2, hmem, hf⟩
    · exact Or.inl ⟨hp, hf⟩
    · exact Or.inr ⟨fid, hp, hfw2, hmem, hf⟩

/-- The VF action: flow side preserved and the arena invariant. -/
theorem vfAction_spec (s : BnxtSt) (bp : BpCfg) (filter : FilterInfo)
    (vfId : Nat)
    (hflow : ∀ j, j < s.vnics.length → ∀ flid ∈ (vGet s j).flowIds,
      (s.filters.lookup ((flowGet s flid).filterId)).isSome = true)
    (hids0 : ∀ f0 ∈ (vGet s 0).filterIds,
      (s.filters.lookup f0).isSome = true)
    (hfwall : ∀ p ∈ s.filters, p.2.fw_l2_filter_id.isSome = true)
    (hptr0 : filter.matching_l2_fltr_ptr = none) :
    flowSidePres s (vfAction s bp filter vfId).2 ∧
    okArenaInv s (vfAction s bp filter vfId) := by
  unfold vfAction
  split
  · split
    · exact ⟨fsp_refl s, fun a ha => Except.noConfusion ha⟩
    · constructor
      · exact fsp_refl s
      · intro a ha
        injection ha with hrec
        subst hrec
        exact Or.inl ⟨hptr0, rfl⟩
  · split
    · exact ⟨fsp_refl s, fun a ha => Except.noConfusion ha⟩
    · dsimp only
      split
      · exact ⟨fsp_refl s, fun a ha => Except.noConfusion ha⟩
      · constructor
        · exact fsp_get_l2 s _ 0
        · intro a ha
          injection ha with hrec
          subst hrec
          rcases get_l2_cases s s
              { filter with
                mirror_vnic_id := (bp.vf_dflt_vnic.getD vfId (-1)).toNat,
                enables := filter.enables |||
                  NTUPLE_FLTR_ALLOC_INPUT_EN_MIRROR_VNIC_ID }
              0 (vsp_refl s) hflow hids0 hfwall with
            ⟨hp, hf⟩ | ⟨fid, hp, hfw2, hmem, hf⟩
          · exact Or.inl ⟨hp, hf⟩
          · exact Or.inr ⟨fid, hp, hfw2, hmem, hf⟩

/-- The RSS action: flow side preserved and the arena invariant. -/
theorem rssAction_spec (s : BnxtSt) (bp : BpCfg) (attr : FlowAttr)
    (u : Nat) (filter : FilterInfo) (queues : List Nat)
    (hflow : ∀ j, j < s.vnics.length → ∀ flid ∈ (vGet s j).flowIds,
      (s.filters.lookup ((flowGet s flid).filterId)).isSome = true)
    (hids0 : ∀ f0 ∈ (vGet s 0).filterIds,
      (s.filters.lookup f0).isSome = true)
    (hfwall : ∀ p ∈ s.filters, p.2.fw_l2_filter_id.isSome = true) :
    flowSidePres s (rssAction s bp attr u filter queues).2 ∧
    okArenaInv s (rssAction s bp attr u filter queues) := by
  unfold rssAction
  dsimp only
  split
  · exact ⟨fsp_refl s, fun a ha => Except.noConfusion ha⟩
  · split
    · split
      · refine ⟨fsp_of_vsp (vsp_actionErrRet s _ _ _), ?_⟩
        intro a ha
        rw [actionErrRet_fst] at ha
        exact Except.noConfusion ha
      · exact vnicFound_spec s s u filter _ none (vsp_refl s)
          hflow hids0 hfwall
    · cases hbind : rssBindQueues bp attr.group queues s none with
      | error t3 =>
          obtain ⟨e, orxq, s2⟩ := t3
          dsimp only
          have hpre : vnicSidePres s s2 :=
            (vsp_rssBind bp attr.group queues s none).2 e orxq s2 hbind
          refine ⟨fsp_of_vsp (vsp_trans hpre (vsp_actionErrRet s2 _ _ _)), ?_⟩
          intro a ha
          rw [actionErrRet_fst] at ha
          exact Except.noConfusion ha
      | ok t2 =>
          obtain ⟨s2, orxq⟩ := t2
          dsimp only
          have hpre : vnicSidePres s s2 :=
            (vsp_rssBind bp attr.group queues s none).1 s2 orxq hbind
          refine vnicFound_spec s _ u filter _ orxq ?_ hflow hids0 hfwall
          refine vsp_trans hpre (vsp_trans (vsp_vSet s2 _ _ ?_ ?_)
            (vsp_trans (vsp_vnic_prep _ bp _)
              (vsp_trans (vsp_vSet _ _ _ ?_ ?_) (vsp_rssAssign _ bp _ _)))) <;>
            rfl

end BnxtFlow

namespace BnxtFlow

/-- The ETH item parser never writes the shared-filter reference. -/
theorem parseEthItem_ptr (attr : FlowAttr) (u e : Nat)
    (sp m : EthSpecC) (st st' : PSt)
    (h : parseEthItem attr u e sp m st = .ok st') :
    st'.f.matching_l2_fltr_ptr = st.f.matching_l2_fltr_ptr := by
  unfold parseEthItem at h
  repeat' split at h
  all_goals first
    | exact Except.noConfusion h
    | (injection h with hh; subst hh; rfl)

/-- The VLAN item parser never writes the shared-filter reference. -/
theorem parseVlanItem_ptr (e : Nat) (sp m : VlanSpecC) (st st' : PSt)
    (h : parseVlanItem e sp m st = .ok st') :
    st'.f.matching_l2_fltr_ptr = st.f.matching_l2_fltr_ptr := by
  unfold parseVlanItem at h
  repeat' split at h
  all_goals first
    | exact Except.noConfusion h
    | (injection h with hh; subst hh; rfl)

/-- The IPv4 item parser never writes the shared-filter reference. -/
theorem parseIpv4Item_ptr (u : Nat) (sp m : Ipv4SpecC) (st st' : PSt)
    (h : parseIpv4Item u sp m st = .ok st') :
    st'.f.matching_l2_fltr_ptr = st.f.matching_l2_fltr_ptr := by
  unfold parseIpv4Item at h
  repeat' split at h
  all_goals first
    | exact Except.noConfusion h
    | (injection h with hh; subst hh; rfl)

/-- The IPv6 item parser never writes the shared-filter reference. -/
theorem parseIpv6Item_ptr (u : Nat) (sp m : Ipv6SpecC) (st st' : PSt)
    (h : parseIpv6Item u sp m st = .ok st') :
    st'.f.matching_l2_fltr_ptr = st.f.matching_l2_fltr_ptr := by
  unfold parseIpv6Item at h
  repeat' split at h
  all_goals first
    | exact Except.noConfusion h
    | (injection h with hh; subst hh; rfl)

/-- The TCP item parser never writes the shared-filter reference. -/
theorem parseTcpItem_ptr (u : Nat) (sp m : TcpSpecC) (st st' : PSt)
    (h : parseTcpItem u sp m st = .ok st') :
    st'.f.matching_l2_fltr_ptr = st.f.matching_l2_fltr_ptr := by
  unfold parseTcpItem at h
  repeat' split at h
  all_goals first
    | exact Except.noConfusion h
    | (injection h with hh; subst hh; rfl)

/-- The UDP item parser never writes the shared-filter reference. -/
theorem parseUdpItem_ptr (u : Nat) (sp m : UdpSpecC) (st st' : PSt)
    (h : parseUdpItem u sp m st = .ok st') :
    st'.f.matching_l2_fltr_ptr = st.f.matching_l2_fltr_ptr := by
  unfold parseUdpItem at h
  repeat' split at h
  all_goals first
    | exact Except.noConfusion h
    | (injection h with hh; subst hh; rfl)

/-- The VXLAN item parser never writes the shared-filter reference. -/
theorem parseVxlanItem_ptr (ospec omask : Option VxlanSpecC) (st st' : PSt)
    (h : parseVxlanItem ospec omask st = .ok st') :
    st'.f.matching_l2_fltr_ptr = st.f.matching_l2_fltr_ptr := by
  unfold parseVxlanItem at h
  repeat' split at h
  all_goals first
    | exact Except.noConfusion h
    | (injection h with hh; subst hh; rfl)

/-- The NVGRE item parser never writes the shared-filter reference. -/
theorem parseNvgreItem_ptr (ospec omask : Option NvgreSpecC) (st st' : PSt)
    (h : parseNvgreItem ospec omask st = .ok st') :
    st'.f.matching_l2_fltr_ptr = st.f.matching_l2_fltr_ptr := by
  unfold parseNvgreItem at h
  repeat' split at h
  all_goals first
    | exact Except.noConfusion h
    | (injection h with hh; subst hh; rfl)

/-- The GRE item parser never writes the shared-filter reference. -/
theorem parseGreItem_ptr (ospec omask : Option GreSpecC) (st st' : PSt)
    (h : parseGreItem ospec omask st = .ok st') :
    st'.f.matching_l2_fltr_ptr = st.f.matching_l2_fltr_ptr := by
  unfold parseGreItem at h
  repeat' split at h
  all_goals first
    | exact Except.noConfusion h
    | (injection h with hh; subst hh; rfl)

/-- The VF item parser never writes the shared-filter reference. -/
theorem parseVfItem_ptr (bp : BpCfg) (attr : FlowAttr) (sp : VfSpecC)
    (st st' : PSt) (h : parseVfItem bp attr sp st = .ok st') :
    st'.f.matching_l2_fltr_ptr = st.f.matching_l2_fltr_ptr := by
  unfold parseVfItem at h
  dsimp only at h
  repeat' split at h
  all_goals first
    | exact Except.noConfusion h
    | (injection h with hh; subst hh; rfl)

/-- The parser switch never writes the shared-filter reference. -/
theorem parseItemStep_ptr (bp : BpCfg) (attr : FlowAttr) (u e : Nat)
    (item : FlowItem) (st st' : PSt)
    (h : parseItemStep bp attr u e item st = .ok st') :
    st'.f.matching_l2_fltr_ptr = st.f.matching_l2_fltr_ptr := by
  unfold parseItemStep at h
  repeat' split at h
  all_goals first
    | exact Except.noConfusion h
    | (injection h with hh; subst hh; rfl)
    | exact parseEthItem_ptr _ _ _ _ _ _ _ h
    | exact parseVlanItem_ptr _ _ _ _ _ h
    | exact parseIpv4Item_ptr _ _ _ _ _ h
    | exact parseIpv6Item_ptr _ _ _ _ _ h
    | exact parseTcpItem_ptr _ _ _ _ _ h
    | exact parseUdpItem_ptr _ _ _ _ _ h
    | exact parseVxlanItem_ptr _ _ _ _ h
    | exact parseNvgreItem_ptr _ _ _ _ h
    | exact parseGreItem_ptr _ _ _ _ h
    | exact parseVfItem_ptr _ _ _ _ _ h

/-- The parse loop never writes the shared-filter reference. -/
theorem parseItems_ptr (bp : BpCfg) (attr : FlowAttr) (u e : Nat) :
    ∀ (items : List FlowItem) (st st' : PSt),
      parseItems bp attr u e items st = .ok st' →
      st'.f.matching_l2_fltr_ptr = st.f.matching_l2_fltr_ptr := by
  intro items
  induction items with
  | nil =>
      intro st st' h
      injection h with hh
      subst hh
      rfl
  | cons item rest ih =>
      intro st st' h
      unfold parseItems at h
      repeat' split at h
      all_goals try exact Except.noConfusion h
      cases hstep : parseItemStep bp attr u e item st with
      | error ee =>
          rw [hstep] at h
          exact Except.noConfusion h
      | ok st1 =>
          rw [hstep] at h
          simp only [except_bind_ok] at h
          exact (ih st1 st' h).trans (parseItemStep_ptr bp attr u e item st st1 hstep)

/-- The pattern compiler hands back the caller-supplied shared-filter
reference untouched. -/
theorem parse_type_ptr (bp : BpCfg) (attr : FlowAttr)
    (pattern : List FlowItem) (filter nf : FilterInfo)
    (h : bnxt_validate_and_parse_flow_type bp attr pattern filter = .ok nf) :
    nf.matching_l2_fltr_ptr = filter.matching_l2_fltr_ptr := by
  unfold bnxt_validate_and_parse_flow_type at h
  cases hu : bnxt_filter_type_check pattern with
  | error ee =>
      rw [hu] at h
      exact Except.noConfusion h
  | ok u =>
      rw [hu] at h
      simp only [except_bind_ok] at h
      cases hp : parseItems bp attr u
          (if u != 0 then NTUPLE_FLTR_ALLOC_INPUT_EN_ETHERTYPE
           else EM_FLOW_ALLOC_INPUT_EN_ETHERTYPE)
          (pattern.dropWhile FlowItem.isVoid)
          { f := { filter with
              filter_type :=
                if u != 0 then FilterType.ntuple else FilterType.em } } with
      | error ee =>
          rw [hp] at h
          exact Except.noConfusion h
      | ok st =>
          rw [hp] at h
          simp only [except_bind_ok] at h
          injection h with hh
          subst hh
          exact parseItems_ptr bp attr u _ _ _ _ hp

end BnxtFlow

namespace BnxtFlow

/-- The recognized-action-must-be-last tail of
`bnxt_validate_and_parse_flow`. -/
theorem vapf_tail (s : BnxtSt) (v1 : Except BnxtErr ActOk) (s' : BnxtSt)
    (acts : List FlowAction)
    (hfsp : flowSidePres s s') (harena : okArenaInv s (v1, s')) :
    flowSidePres s (match (v1, s') with
      | (.error e, s2) => ((Except.error e : Except BnxtErr FilterInfo), s2)
      | (.ok ok, s2) =>
          if ((acts.drop 1).dropWhile FlowAction.isVoid) != [] then
            let r' := actionErrRet s2 ok.ovnic ok.orxq .invalidAction
            ((Except.error BnxtErr.invalidAction :
              Except BnxtErr FilterInfo), r'.2)
          else (Except.ok ok.filter, s2)).2 ∧
    ∀ nf, (match (v1, s') with
      | (.error e, s2) => ((Except.error e : Except BnxtErr FilterInfo), s2)
      | (.ok ok, s2) =>
          if ((acts.drop 1).dropWhile FlowAction.isVoid) != [] then
            let r' := actionErrRet s2 ok.ovnic ok.orxq .invalidAction
            ((Except.error BnxtErr.invalidAction :
              Except BnxtErr FilterInfo), r'.2)
          else (Except.ok ok.filter, s2)).1 = .ok nf →
      (((nf.matching_l2_fltr_ptr = none ∧ s'.filters = s.filters) ∨
        (∃ fid, nf.matching_l2_fltr_ptr = some fid ∧
          nf.fw_l2_filter_id.isSome = true ∧
          (s.filters.lookup fid).isSome = true ∧
          s'.filters = (fSet s fid { fGet s fid with
            l2_ref_cnt := (fGet s fid).l2_ref_cnt + 1 }).filters)) ∧
       (match (v1, s') with
        | (.error e, s2) => ((Except.error e : Except BnxtErr FilterInfo), s2)
        | (.ok ok, s2) =>
            if ((acts.drop 1).dropWhile FlowAction.isVoid) != [] then
              let r' := actionErrRet s2 ok.ovnic ok.orxq .invalidAction
              ((Except.error BnxtErr.invalidAction :
                Except BnxtErr FilterInfo), r'.2)
            else (Except.ok ok.filter, s2)).2 = s') := by
  cases v1 with
  | error e =>
      exact ⟨hfsp, fun nf hnf => Except.noConfusion hnf⟩
  | ok a =>
      dsimp only
      split
      · constructor
        · exact fsp_trans hfsp (fsp_of_vsp
            (vsp_actionErrRet s' a.ovnic a.orxq .invalidAction))
        · intro nf hnf
          exact Except.noConfusion hnf
      · constructor
        · exact hfsp
        · intro nf hnf
          injection hnf with hh
          subst hh
          rcases harena a rfl with ⟨hp, hf⟩ | ⟨fid, hp, hfw2, hmem, hf⟩
          · exact ⟨Or.inl ⟨hp, hf⟩, rfl⟩
          · exact ⟨Or.inr ⟨fid, hp, hfw2, hmem, hf⟩, rfl⟩

end BnxtFlow

namespace BnxtFlow

/-- `bnxt_validate_and_parse_flow`: the flow side is preserved on every
path, and a successful compile either recorded no shared-filter reference
(arena untouched) or bumped exactly one arena filter's count, recording it
in the compiled filter together with a live hardware id. -/
theorem vapf_spec (s : BnxtSt) (bp : BpCfg) (attr : FlowAttr)
    (pattern : List FlowItem) (actions : List FlowAction)
    (hflow : ∀ j, j < s.vnics.length → ∀ flid ∈ (vGet s j).flowIds,
      (s.filters.lookup ((flowGet s flid).filterId)).isSome = true)
    (hids0 : ∀ f0 ∈ (vGet s 0).filterIds,
      (s.filters.lookup f0).isSome = true)
    (hfwall : ∀ p ∈ s.filters, p.2.fw_l2_filter_id.isSome = true) :
    flowSidePres s
      (bnxt_validate_and_parse_flow s bp attr pattern actions).2 ∧
    ∀ nf, (bnxt_validate_and_parse_flow s bp attr pattern actions).1 =
        .ok nf →
      ((nf.matching_l2_fltr_ptr = none ∧
        (bnxt_validate_and_parse_flow s bp attr pattern
          actions).2.filters = s.filters) ∨
       (∃ fid, nf.matching_l2_fltr_ptr = some fid ∧
         nf.fw_l2_filter_id.isSome = true ∧
         (s.filters.lookup fid).isSome = true ∧
         (bnxt_validate_and_parse_flow s bp attr pattern
           actions).2.filters =
           (fSet s fid { fGet s fid with
             l2_ref_cnt := (fGet s fid).l2_ref_cnt + 1 }).filters)) := by
  unfold bnxt_validate_and_parse_flow
  cases hpt : bnxt_validate_and_parse_flow_type bp attr pattern {} with
  | error e => exact ⟨fsp_refl s, fun nf h => Except.noConfusion h⟩
  | ok fP =>
      have hptr0 : fP.matching_l2_fltr_ptr = none :=
        parse_type_ptr bp attr pattern {} fP hpt
      cases hpa : bnxt_flow_parse_attr attr with
      | error e => exact ⟨fsp_refl s, fun nf h => Except.noConfusion h⟩
      | ok u =>
          dsimp only
          cases hact : (actions.dropWhile FlowAction.isVoid).headD
              FlowAction.unknownAct with
          | voidAct => exact ⟨fsp_refl s, fun nf h => Except.noConfusion h⟩
          | unknownAct =>
              exact ⟨fsp_refl s, fun nf h => Except.noConfusion h⟩
          | queue index =>
              dsimp only
              obtain ⟨hfsp, harena⟩ :=
                queueAction_spec s bp attr
                (match bnxt_filter_type_check pattern with
                  | .ok u => u | .error _ => 0)
                (if (fP.filter_type == FilterType.em) = true then
                  { fP with
                    flags := HWRM_CFA_EM_FLOW_ALLOC_INPUT_FLAGS_PATH_RX }
                 else fP)
                index hflow hids0 hfwall
              obtain ⟨ht1, ht2⟩ := vapf_tail s _ _ (actions.dropWhile FlowAction.isVoid) hfsp harena
              refine ⟨ht1, fun nf hnf => ?_⟩
              obtain ⟨hinv, heq⟩ := ht2 nf hnf
              rcases hinv with ⟨hp, hf⟩ | ⟨fid, hp, hfw2, hmem, hf⟩
              · exact Or.inl ⟨hp, (congrArg BnxtSt.filters heq).trans hf⟩
              · exact Or.inr ⟨fid, hp, hfw2, hmem,
                  (congrArg BnxtSt.filters heq).trans hf⟩
          | drop =>
              dsimp only
              obtain ⟨hfsp, harena⟩ :=
                dropAction_spec s
                (if (fP.filter_type == FilterType.em) = true then
                  { fP with
                    flags := HWRM_CFA_EM_FLOW_ALLOC_INPUT_FLAGS_PATH_RX }
                 else fP)
                hflow hids0 hfwall
              obtain ⟨ht1, ht2⟩ := vapf_tail s _ _ (actions.dropWhile FlowAction.isVoid) hfsp harena
              refine ⟨ht1, fun nf hnf => ?_⟩
              obtain ⟨hinv, heq⟩ := ht2 nf hnf
              rcases hinv with ⟨hp, hf⟩ | ⟨fid, hp, hfw2, hmem, hf⟩
              · exact Or.inl ⟨hp, (congrArg BnxtSt.filters heq).trans hf⟩
              · exact Or.inr ⟨fid, hp, hfw2, hmem,
                  (congrArg BnxtSt.filters heq).trans hf⟩
          | count =>
              dsimp only
              obtain ⟨hfsp, harena⟩ :=
                countAction_spec s
                (if (fP.filter_type == FilterType.em) = true then
                  { fP with
                    flags := HWRM_CFA_EM_FLOW_ALLOC_INPUT_FLAGS_PATH_RX }
                 else fP)
                hflow hids0 hfwall
              obtain ⟨ht1, ht2⟩ := vapf_tail s _ _ (actions.dropWhile FlowAction.isVoid) hfsp harena
              refine ⟨ht1, fun nf hnf => ?_⟩
              obtain ⟨hinv, heq⟩ := ht2 nf hnf
              rcases hinv with ⟨hp, hf⟩ | ⟨fid, hp, hfw2, hmem, hf⟩
              · exact Or.inl ⟨hp, (congrArg BnxtSt.filters heq).trans hf⟩
              · exact Or.inr ⟨fid, hp, hfw2, hmem,
                  (congrArg BnxtSt.filters heq).trans hf⟩
          | vfAct vfId =>
              dsimp only
              obtain ⟨hfsp, harena⟩ :=
                vfAction_spec s bp
                (if (fP.filter_type == FilterType.em) = true then
                  { fP with
                    flags := HWRM_CFA_EM_FLOW_ALLOC_INPUT_FLAGS_PATH_RX }
                 else fP)
                vfId hflow hids0 hfwall
                  (by split <;> exact hptr0)
              obtain ⟨ht1, ht2⟩ := vapf_tail s _ _ (actions.dropWhile FlowAction.isVoid) hfsp harena
              refine ⟨ht1, fun nf hnf => ?_⟩
              obtain ⟨hinv, heq⟩ := ht2 nf hnf
              rcases hinv with ⟨hp, hf⟩ | ⟨fid, hp, hfw2, hmem, hf⟩
              · exact Or.inl ⟨hp, (congrArg BnxtSt.filters heq).trans hf⟩
              · exact Or.inr ⟨fid, hp, hfw2, hmem,
                  (congrArg BnxtSt.filters heq).trans hf⟩
          | rss queues key types =>
              dsimp only
              obtain ⟨hfsp, harena⟩ :=
                rssAction_spec s bp attr
                (match bnxt_filter_type_check pattern with
                  | .ok u => u | .error _ => 0)
                (if (fP.filter_type == FilterType.em) = true then
                  { fP with
                    flags := HWRM_CFA_EM_FLOW_ALLOC_INPUT_FLAGS_PATH_RX }
                 else fP)
                queues hflow hids0 hfwall
              obtain ⟨ht1, ht2⟩ := vapf_tail s _ _ (actions.dropWhile FlowAction.isVoid) hfsp harena
              refine ⟨ht1, fun nf hnf => ?_⟩
              obtain ⟨hinv, heq⟩ := ht2 nf hnf
              rcases hinv with ⟨hp, hf⟩ | ⟨fid, hp, hfw2, hmem, hf⟩
              · exact Or.inl ⟨hp, (congrArg BnxtSt.filters heq).trans hf⟩
              · exact Or.inr ⟨fid, hp, hfw2, hmem,
                  (congrArg BnxtSt.filters heq).trans hf⟩

end BnxtFlow

namespace BnxtFlow

/-- The success path of `bnxt_flow_validate` after compilation: freeing the
provisioned vnic and uninstalling the compiled filter restores the flow
side and the filter arena. -/
theorem validate_ok_tail (s s1 : BnxtSt) (nf : FilterInfo)
    (hnodup : (s.filters.map Prod.fst).Nodup)
    (hfsp : flowSidePres s s1)
    (hi : (nf.matching_l2_fltr_ptr = none ∧ s1.filters = s.filters) ∨
      (∃ fid, nf.matching_l2_fltr_ptr = some fid ∧
        nf.fw_l2_filter_id.isSome = true ∧
        (s.filters.lookup fid).isSome = true ∧
        s1.filters = (fSet s fid { fGet s fid with
          l2_ref_cnt := (fGet s fid).l2_ref_cnt + 1 }).filters)) :
    ∀ s2 : BnxtSt, vnicSidePres s1 s2 →
      (if nf.filter_type == FilterType.em then
          (bnxt_hwrm_clear_em_filter s2 nf).2
        else if nf.filter_type == FilterType.ntuple then
          (bnxt_hwrm_clear_ntuple_filter s2 nf).2
        else (bnxt_hwrm_clear_l2_filter s2 nf).2).flows = s.flows ∧
      (∀ j, (vGet (if nf.filter_type == FilterType.em then
          (bnxt_hwrm_clear_em_filter s2 nf).2
        else if nf.filter_type == FilterType.ntuple then
          (bnxt_hwrm_clear_ntuple_filter s2 nf).2
        else (bnxt_hwrm_clear_l2_filter s2 nf).2) j).flowIds =
        (vGet s j).flowIds) ∧
      (if nf.filter_type == FilterType.em then
          (bnxt_hwrm_clear_em_filter s2 nf).2
        else if nf.filter_type == FilterType.ntuple then
          (bnxt_hwrm_clear_ntuple_filter s2 nf).2
        else (bnxt_hwrm_clear_l2_filter s2 nf).2).filters = s.filters := by
  intro s2 hs2
  have hF : (bnxt_hwrm_clear_l2_filter s2 nf).2.flows = s.flows :=
    ((clear_l2_comp s2 nf).1).trans (hs2.1.trans hfsp.1)
  have hvn : (bnxt_hwrm_clear_l2_filter s2 nf).2.vnics = s2.vnics :=
    (clear_l2_comp s2 nf).2.1
  have hJ : ∀ j, (vGet (bnxt_hwrm_clear_l2_filter s2 nf).2 j).flowIds =
      (vGet s j).flowIds := by
    intro j
    have hvg : vGet (bnxt_hwrm_clear_l2_filter s2 nf).2 j = vGet s2 j := by
      simp [vGet, hvn]
    rw [hvg]
    exact (hs2.2.2.2.1 j).trans (hfsp.2 j)
  have hfil : (bnxt_hwrm_clear_l2_filter s2 nf).2.filters = s.filters := by
    rcases hi with ⟨hp, hf⟩ | ⟨fid, hp, hfw2, hmem, hf⟩
    · rw [clear_l2_ptr_none s2 nf hp]
      exact hs2.2.1.trans hf
    · exact clear_l2_restore s2 s fid nf hnodup hmem
        (hs2.2.1.trans hf) hp hfw2
  split
  · exact ⟨hF, hJ, hfil⟩
  · split
    · exact ⟨hF, hJ, hfil⟩
    · exact ⟨hF, hJ, hfil⟩

end BnxtFlow

namespace BnxtFlow

/-- C7 (corrected): `bnxt_flow_validate` never touches the flow arena or
any Receive Context's flow list, on success or failure; and when it
returns Ok the filter arena — and with it every shared L2 filter's
reference count — is restored exactly.  (The unconditional form of the
claim is false: on the compile-error exit after a successful action parse
the hardware clears are skipped and a bumped reference count survives; see
the accompanying counterexample.) -/
theorem c7_validate_preserves_flow_state (s : BnxtSt) (bp : BpCfg)
    (attr : FlowAttr) (pattern : List FlowItem)
    (actions : List FlowAction)
    (hnodup : (s.filters.map Prod.fst).Nodup)
    (hflow : ∀ j, j < s.vnics.length → ∀ flid ∈ (vGet s j).flowIds,
      (s.filters.lookup ((flowGet s flid).filterId)).isSome = true)
    (hids0 : ∀ f0 ∈ (vGet s 0).filterIds,
      (s.filters.lookup f0).isSome = true)
    (hfwall : ∀ p ∈ s.filters, p.2.fw_l2_filter_id.isSome = true) :
    (bnxt_flow_validate s bp attr pattern actions).2.flows = s.flows ∧
    (∀ j, (vGet (bnxt_flow_validate s bp attr pattern actions).2 j).flowIds =
      (vGet s j).flowIds) ∧
    ((bnxt_flow_validate s bp attr pattern actions).1.isOk = true →
      (bnxt_flow_validate s bp attr pattern actions).2.filters =
        s.filters) := by
  obtain ⟨hfsp, hinv⟩ := vapf_spec s bp attr pattern actions
    hflow hids0 hfwall
  unfold bnxt_flow_validate
  rcases hveq : bnxt_validate_and_parse_flow s bp attr pattern actions with
    ⟨v1, s1⟩
  rw [hveq] at hfsp
  cases v1 with
  | error e =>
      refine ⟨hfsp.1, hfsp.2, ?_⟩
      intro hok
      exact Bool.noConfusion hok
  | ok nf =>
      have hi := hinv nf (by rw [hveq])
      rw [hveq] at hi
      dsimp only
      have htail := validate_ok_tail s s1 nf hnodup ⟨hfsp.1, hfsp.2⟩ hi
      cases hfv : find_matching_vnic s1 nf with
      | none =>
          dsimp only
          obtain ⟨hA, hB, hC⟩ := htail s1 (vsp_refl s1)
          exact ⟨hA, hB, fun _ => hC⟩
      | some vi =>
          dsimp only
          have hpres : vnicSidePres s1
              (if ((vGet s1 vi).filterIds == []) = true then
                { (vSet s1 vi { vGet s1 vi with
                    fw_vnic_id := none, rx_queue_cnt := 0,
                    fw_grp_ids := [] }) with
                  nr_vnics := (vSet s1 vi { vGet s1 vi with
                    fw_vnic_id := none, rx_queue_cnt := 0,
                    fw_grp_ids := [] }).nr_vnics - 1 }
              else s1) := by
            split
            · exact vsp_trans (vsp_vSet s1 vi { vGet s1 vi with
                  fw_vnic_id := none, rx_queue_cnt := 0,
                  fw_grp_ids := [] } rfl rfl)
                ⟨rfl, rfl, rfl, fun _ => rfl, fun _ => rfl⟩
            · exact vsp_refl s1
          obtain ⟨hA, hB, hC⟩ := htail _ hpres
          exact ⟨hA, hB, fun _ => hC⟩

end BnxtFlow

namespace BnxtFlow

/-- C7 witness: a validate call with one queue action on the two-vnic
scenario leaves the flow arena untouched. -/
theorem c7_validate_preserves_flow_state_witness :
    ((c1S.filters.map Prod.fst).Nodup) ∧
    (bnxt_flow_validate c1S c3Bp c3Attr (c3Pattern 0)
      [.queue 1]).2.flows = c1S.flows :=
  ⟨by decide,
   (c7_validate_preserves_flow_state c1S c3Bp c3Attr (c3Pattern 0)
     [.queue 1] (by decide) (by decide) (by decide) (by decide)).1⟩

/-- C7 counterexample to the unconditional claim: with a trailing action
after the recognized queue action, validate reports an error yet leaves
the shared L2 filter's reference count bumped from 1 to 2 — the
`goto exit` on this path skips the hardware clears
(bnxt_flow.c:1483-1484). -/
theorem c7_validate_counterexample :
    (bnxt_flow_validate c1S c3Bp c3Attr (c3Pattern 0)
      [.queue 1, .queue 1]).1 = Except.error BnxtErr.invalidAction ∧
    (fGet (bnxt_flow_validate c1S c3Bp c3Attr (c3Pattern 0)
      [.queue 1, .queue 1]).2 1).l2_ref_cnt = 2 ∧
    (fGet c1S 1).l2_ref_cnt = 1 :=
  ⟨rfl, rfl, rfl⟩

end BnxtFlow

namespace BnxtFlow

/-- C9: the claim that the default Receive Context (index 0) is never torn
down is refuted by `bnxt_flow_destroy`: destroying the last flow of the
default vnic — the resting place of tunnel-redirect flows — empties its
flow list and the teardown at bnxt_flow.c:1862-1880 runs with no
`func_default` guard, freeing the default vnic's hardware context. -/
theorem c9_default_vnic_torn_down_bug :
    (vGet c9S 0).func_default = true ∧
    (vGet c9S 0).fw_vnic_id = some 50 ∧
    (bnxt_flow_destroy c9S c3Bp 5).1 = Except.ok () ∧
    (vGet (bnxt_flow_destroy c9S c3Bp 5).2 0).fw_vnic_id = none ∧
    (bnxt_flow_destroy c9S c3Bp 5).2.nr_vnics = 0 :=
  ⟨rfl, rfl, rfl, rfl, rfl⟩

end BnxtFlow

namespace BnxtFlow

/-- `flowRemove` leaves the vnics alone. -/
theorem flowRemove_vnics (s : BnxtSt) (id : Nat) :
    (flowRemove s id).vnics = s.vnics := rfl

/-- The tunnel-redirect teardown touches neither arena nor the vnics. -/
theorem tunnel_redirect_destroy_comp (s : BnxtSt) (bp : BpCfg)
    (f : FilterInfo) :
    (bnxt_handle_tunnel_redirect_destroy s bp f).vnics = s.vnics ∧
    (bnxt_handle_tunnel_redirect_destroy s bp f).flows = s.flows ∧
    (bnxt_handle_tunnel_redirect_destroy s bp f).filters = s.filters := by
  unfold bnxt_handle_tunnel_redirect_destroy
  dsimp only
  split
  · split <;> exact ⟨rfl, rfl, rfl⟩
  · exact ⟨rfl, rfl, rfl⟩

/-- Vnic projection of the hardware L2 release. -/
theorem clear_l2_vnics (s : BnxtSt) (f : FilterInfo) :
    (bnxt_hwrm_clear_l2_filter s f).2.vnics = s.vnics :=
  (clear_l2_comp s f).2.1

/-- Vnic projection of the exact-match release. -/
theorem clear_em_vnics (s : BnxtSt) (f : FilterInfo) :
    (bnxt_hwrm_clear_em_filter s f).2.vnics = s.vnics :=
  (clear_em_comp s f).2.1

/-- Vnic projection of the ntuple release. -/
theorem clear_ntuple_vnics (s : BnxtSt) (f : FilterInfo) :
    (bnxt_hwrm_clear_ntuple_filter s f).2.vnics = s.vnics :=
  (clear_ntuple_comp s f).2.1

/-- Vnic projection of the tunnel-redirect teardown. -/
theorem tunnel_redirect_destroy_vnics (s : BnxtSt) (bp : BpCfg)
    (f : FilterInfo) :
    (bnxt_handle_tunnel_redirect_destroy s bp f).vnics = s.vnics :=
  (tunnel_redirect_destroy_comp s bp f).1

/-- One flush step only removes the flow from its vnic's flow list, as far
as the vnic array is concerned. -/
theorem flushFlowStep_vnics (s : BnxtSt) (bp : BpCfg) (i flid : Nat) :
    (flushFlowStep s bp i flid).vnics =
      s.vnics.set i { vGet s i with
        flowIds := (vGet s i).flowIds.filter (fun x => x != flid) } := by
  unfold flushFlowStep
  dsimp only
  split
  · simp only [flowRemove_vnics, vSet_vnics, fRemove_vnics, vGet,
      tunnel_redirect_destroy_vnics]
  · split
    · split
      · simp only [flowRemove_vnics, vSet_vnics, fRemove_vnics, fSet_vnics,
          vGet, clear_ntuple_vnics, clear_em_vnics]
      · split
        · simp only [flowRemove_vnics, vSet_vnics, fRemove_vnics,
            fSet_vnics, vGet, clear_l2_vnics, clear_em_vnics]
        · simp only [flowRemove_vnics, vSet_vnics, fRemove_vnics,
            fSet_vnics, vGet, clear_em_vnics]
    · split
      · simp only [flowRemove_vnics, vSet_vnics, fRemove_vnics, fSet_vnics,
          vGet, clear_ntuple_vnics]
      · split
        · simp only [flowRemove_vnics, vSet_vnics, fRemove_vnics,
            fSet_vnics, vGet, clear_l2_vnics]
        · simp only [flowRemove_vnics, vSet_vnics, fRemove_vnics,
            fSet_vnics, vGet]

/-- `getD` after `set` at the written index, through a projection that the
write changes by a function that fixes the default. -/
theorem list_getD_set_self_g {α β : Type} (f : α → β) (g : β → β)
    (l : List α) (i : Nat) (a d : α)
    (h : f a = g (f (l.getD i d))) (hd : g (f d) = f d) :
    f ((l.set i a).getD i d) = g (f (l.getD i d)) := by
  induction l generalizing i with
  | nil => simpa using hd.symm
  | cons x t ih =>
      cases i with
      | zero => exact h
      | succ n => exact ih n h

end BnxtFlow

namespace BnxtFlow

/-- Flushing one vnic's listed flows: hardware ids, queue counts and the
default marker survive everywhere, other vnics' flow lists survive, and
the vnic's own flow list loses exactly the listed flows. -/
theorem flushVnicFlows_spec (bp : BpCfg) (i : Nat) :
    ∀ (l : List Nat) (s : BnxtSt),
      (flushVnicFlows bp i l s).vnics.length = s.vnics.length ∧
      (∀ j,
        (vGet (flushVnicFlows bp i l s) j).fw_vnic_id =
          (vGet s j).fw_vnic_id ∧
        (vGet (flushVnicFlows bp i l s) j).rx_queue_cnt =
          (vGet s j).rx_queue_cnt ∧
        (vGet (flushVnicFlows bp i l s) j).func_default =
          (vGet s j).func_default) ∧
      (∀ j, j ≠ i → (vGet (flushVnicFlows bp i l s) j).flowIds =
        (vGet s j).flowIds) ∧
      ((vGet (flushVnicFlows bp i l s) i).flowIds =
        (vGet s i).flowIds.filter (fun x => !l.contains x)) := by
  intro l
  induction l with
  | nil =>
      intro s
      refine ⟨rfl, fun j => ⟨rfl, rfl, rfl⟩, fun j _ => rfl, ?_⟩
      show (vGet s i).flowIds =
        (vGet s i).flowIds.filter (fun x => !([] : List Nat).contains x)
      simp
  | cons f rest ih =>
      intro s
      unfold flushVnicFlows
      obtain ⟨ihlen, ihcomp, ihne, ihi⟩ := ih (flushFlowStep s bp i f)
      have hstep := flushFlowStep_vnics s bp i f
      have hfw : ∀ j, (vGet (flushFlowStep s bp i f) j).fw_vnic_id =
          (vGet s j).fw_vnic_id := by
        intro j
        simp only [vGet, hstep]
        exact list_getD_set_proj VnicInfo.fw_vnic_id s.vnics i j _ {} rfl
      have hcnt : ∀ j, (vGet (flushFlowStep s bp i f) j).rx_queue_cnt =
          (vGet s j).rx_queue_cnt := by
        intro j
        simp only [vGet, hstep]
        exact list_getD_set_proj VnicInfo.rx_queue_cnt s.vnics i j _ {} rfl
      have hfd : ∀ j, (vGet (flushFlowStep s bp i f) j).func_default =
          (vGet s j).func_default := by
        intro j
        simp only [vGet, hstep]
        exact list_getD_set_proj VnicInfo.func_default s.vnics i j _ {} rfl
      have hne2 : ∀ j, j ≠ i →
          (vGet (flushFlowStep s bp i f) j).flowIds = (vGet s j).flowIds := by
        intro j hj
        simp only [vGet, hstep]
        rw [list_getD_set_ne]
        exact Ne.symm hj
      have hstepi : (vGet (flushFlowStep s bp i f) i).flowIds =
          (vGet s i).flowIds.filter (fun x => x != f) := by
        simp only [vGet, hstep]
        exact list_getD_set_self_g VnicInfo.flowIds
          (fun L => L.filter (fun x => x != f)) s.vnics i _ {} rfl rfl
      refine ⟨?_, ?_, ?_, ?_⟩
      · rw [ihlen, hstep, List.length_set]
      · intro j
        exact ⟨((ihcomp j).1).trans (hfw j),
          ((ihcomp j).2.1).trans (hcnt j),
          ((ihcomp j).2.2).trans (hfd j)⟩
      · intro j hj
        exact (ihne j hj).trans (hne2 j hj)
      · rw [ihi, hstepi, List.filter_filter]
        apply List.filter_congr
        intro x _
        simp only [List.contains_cons, Bool.not_or, bne]
        rw [Bool.and_comm]

end BnxtFlow

namespace BnxtFlow

/-- A list loses all its own members when filtered against itself. -/
theorem filter_not_contains_self (L : List Nat) :
    L.filter (fun x => !L.contains x) = [] := by
  rw [List.filter_eq_nil_iff]
  intro a ha
  simp [ha]

/-- Flushing a set of vnic indices: hardware ids, queue counts and the
default markers survive, listed valid vnics end with empty flow lists,
unlisted vnics keep theirs — under the invariant that invalid vnics carry
no flows. -/
theorem flushVnics_spec (bp : BpCfg) :
    ∀ (idxs : List Nat) (s : BnxtSt),
      (∀ j, (vGet s j).fw_vnic_id = none → (vGet s j).flowIds = []) →
      ((∀ j,
        (vGet (flushVnics bp idxs s) j).fw_vnic_id =
          (vGet s j).fw_vnic_id ∧
        (vGet (flushVnics bp idxs s) j).rx_queue_cnt =
          (vGet s j).rx_queue_cnt ∧
        (vGet (flushVnics bp idxs s) j).func_default =
          (vGet s j).func_default) ∧
      (∀ j, j ∈ idxs → (vGet (flushVnics bp idxs s) j).flowIds = []) ∧
      (∀ j, j ∉ idxs → (vGet (flushVnics bp idxs s) j).flowIds =
        (vGet s j).flowIds)) := by
  intro idxs
  induction idxs with
  | nil =>
      intro s _
      exact ⟨fun j => ⟨rfl, rfl, rfl⟩, fun j hj => absurd hj (by simp),
        fun j _ => rfl⟩
  | cons i rest ih =>
      intro s hemp
      unfold flushVnics
      by_cases hvalid : ((vGet s i).fw_vnic_id.isSome) = true
      · rw [if_pos hvalid]
        obtain ⟨slen, scomp, sne, sself⟩ :=
          flushVnicFlows_spec bp i (vGet s i).flowIds s
        have hselfe : (vGet (flushVnicFlows bp i (vGet s i).flowIds s)
            i).flowIds = [] := by
          rw [sself, filter_not_contains_self]
        have hemp2 : ∀ j, (vGet (flushVnicFlows bp i (vGet s i).flowIds s)
            j).fw_vnic_id = none →
            (vGet (flushVnicFlows bp i (vGet s i).flowIds s) j).flowIds =
              [] := by
          intro j hj
          by_cases hji : j = i
          · rw [hji]
            exact hselfe
          · rw [sne j hji]
            apply hemp
            rw [← (scomp j).1]
            exact hj
        obtain ⟨rcomp, rin, rout⟩ := ih _ hemp2
        refine ⟨?_, ?_, ?_⟩
        · intro j
          exact ⟨((rcomp j).1).trans (scomp j).1,
            ((rcomp j).2.1).trans (scomp j).2.1,
            ((rcomp j).2.2).trans (scomp j).2.2⟩
        · intro j hj
          rcases List.mem_cons.mp hj with hji | hjr
          · by_cases hr : j ∈ rest
            · exact rin j hr
            · rw [rout j hr, hji]
              exact hselfe
          · exact rin j hjr
        · intro j hj
          have hji : j ≠ i := fun hh => hj (hh ▸ List.mem_cons_self i rest)
          have hjr : j ∉ rest := fun hh => hj (List.mem_cons_of_mem i hh)
          rw [rout j hjr]
          exact sne j hji
      · rw [if_neg hvalid]
        have hselfe : (vGet s i).flowIds = [] :=
          hemp i (Option.not_isSome_iff_eq_none.mp hvalid)
        obtain ⟨rcomp, rin, rout⟩ := ih s hemp
        refine ⟨rcomp, ?_, ?_⟩
        · intro j hj
          rcases List.mem_cons.mp hj with hji | hjr
          · by_cases hr : j ∈ rest
            · exact rin j hr
            · rw [rout j hr, hji]
              exact hselfe
          · exact rin j hjr
        · intro j hj
          have hjr : j ∉ rest := fun hh => hj (List.mem_cons_of_mem i hh)
          exact rout j hjr

end BnxtFlow

namespace BnxtFlow

/-- C8: after a flush that returns Ok, every Receive Context's flow list
is empty; and — because flush touches no hardware id, queue count or
default marker — every non-default Receive Context with no remaining
queues is torn down, given that this held as the usual invariant of the
entry state. -/
theorem c8_flush_completeness (s : BnxtSt) (bp : BpCfg)
    (hemp : ∀ j, j < s.vnics.length → (vGet s j).fw_vnic_id = none →
      (vGet s j).flowIds = [])
    (htorn : ∀ j, j < s.vnics.length → (vGet s j).func_default = false →
      (vGet s j).rx_queue_cnt = 0 → (vGet s j).fw_vnic_id = none) :
    (bnxt_flow_flush s bp).1 = Except.ok () ∧
    (∀ j, (vGet (bnxt_flow_flush s bp).2 j).flowIds = []) ∧
    (∀ j, (vGet (bnxt_flow_flush s bp).2 j).func_default = false →
      (vGet (bnxt_flow_flush s bp).2 j).rx_queue_cnt = 0 →
      (vGet (bnxt_flow_flush s bp).2 j).fw_vnic_id = none) := by
  have hoob : ∀ j, ¬(j < s.vnics.length) → vGet s j = {} := by
    intro j hj
    show s.vnics.getD j {} = {}
    rw [List.getD_eq_default]
    exact Nat.le_of_not_lt hj
  have hemp2 : ∀ j, (vGet s j).fw_vnic_id = none →
      (vGet s j).flowIds = [] := by
    intro j
    by_cases hj : j < s.vnics.length
    · exact hemp j hj
    · intro _
      rw [hoob j hj]
  obtain ⟨hcomp, hin, hout⟩ :=
    flushVnics_spec bp (List.range s.vnics.length) s hemp2
  refine ⟨rfl, ?_, ?_⟩
  · intro j
    show (vGet (flushVnics bp (List.range s.vnics.length) s) j).flowIds = []
    by_cases hj : j < s.vnics.length
    · exact hin j (List.mem_range.mpr hj)
    · rw [hout j (fun hh => hj (List.mem_range.mp hh)), hoob j hj]
  · intro j hfd hcnt
    have hfd2 : (vGet (flushVnics bp (List.range s.vnics.length) s)
        j).func_default = false := hfd
    have hcnt2 : (vGet (flushVnics bp (List.range s.vnics.length) s)
        j).rx_queue_cnt = 0 := hcnt
    show (vGet (flushVnics bp (List.range s.vnics.length) s)
      j).fw_vnic_id = none
    obtain ⟨h1, h2, h3⟩ := hcomp j
    rw [h1]
    by_cases hj : j < s.vnics.length
    · exact htorn j hj (h3.symm.trans hfd2) (h2.symm.trans hcnt2)
    · rw [hoob j hj]

/-- C8 witness: flushing the three-vnic scenario empties every flow
list. -/
theorem c8_flush_completeness_witness :
    (∀ j, j < c2S.vnics.length → (vGet c2S j).func_default = false →
      (vGet c2S j).rx_queue_cnt = 0 → (vGet c2S j).fw_vnic_id = none) ∧
    (∀ j, (vGet (bnxt_flow_flush c2S c3Bp).2 j).flowIds = []) :=
  ⟨by decide,
   (c8_flush_completeness c2S c3Bp (by decide) (by decide)).2.1⟩

end BnxtFlow
